import Mathlib

/-! # UniSIMD assembler: instruction encoders of the back-end headers

A shallow embedding of the encoders of

* `core/config/rtarch_pHB_128x1v2.h` (POWER, 128-bit packed half-word),
* `core/config/rtarch_aHF_SVEx1v1.h` (AArch64 SVE, packed half-precision),
* `core/config/rtarch_xHB_128x2v4.h` (x86 SSE, 256-bit register pairs),
* `core/rtarch_m64.h` (MIPS64, 64-bit BASE instructions).

Every encoder of those headers is a preprocessor definition whose body is a
juxtaposition of emitting invocations.  An invocation is modelled by the list
of words (bytes on x86) it emits and juxtaposition by list concatenation.
`MXM`, `MPM`, `AUW`, `REX`, `MRM`, the scratch-register ids and the
displacement selectors are defined in the per-architecture core headers, not
in these four: they enter the model as fields of a `Core` structure, so that
every statement proved below holds for whatever those definitions are.
-/

namespace UniSIMD

/-- An upper-case parameter of an encoder (a register `X*`, `R*` or an
addressing mode `M*`): the headers state that such a parameter has triplet
structure.  The three components are the register index, the mode field and the
code fragment emitted for the scaled-index part of an address. -/
structure Triplet where
  reg : Nat
  mod : Nat
  sib : List Nat
deriving DecidableEq, Repr

/-- A displacement (`D*`) or immediate (`I*`) parameter, again a triplet: the
value and two further components, on which the selectors of the core header
dispatch. -/
structure Imm where
  val : Nat
  typ : Nat
  cmd : Nat
deriving DecidableEq, Repr

/-- Modelled from the spec: `REG` of the core header, the register index of an
operand triplet ("returns the register's bit-index within the register file"). -/
def REG (X : Triplet) : Nat := X.reg

/-- Modelled from the spec: `MOD` of the core header, the addressing-mode /
base-register component of an operand triplet. -/
def MOD (X : Triplet) : Nat := X.mod

/-- Modelled from the spec: `SIB` of the core header, the code emitted for the
index part of an addressing mode (nothing for a plain register). -/
def SIB (X : Triplet) : List Nat := X.sib

/-- Modelled from the spec: `VAL` of the core header, the value of a
displacement or immediate triplet. -/
def VAL (D : Imm) : Nat := D.val

/-- Modelled from the spec: `EMITW` of the core header; it appends one
fixed-width word to the instruction stream. -/
def EMITW (w : Nat) : List Nat := [w]

/-- Modelled from the spec: `EMPTY` of the core header, an argument that emits
nothing. -/
def EMPTY : List Nat := []

/-! ## POWER, `rtarch_pHB_128x1v2.h` -/

namespace Power

/-- Modelled from the spec: the field layout of `MXM`, the operand-field packer
of the POWER core header.  The fixture of the specification composes a word as
`base | (reg<<21) | (ren<<16) | (rem<<11)`. -/
def MXM (reg ren rem : Nat) : Nat := rem <<< 11 ||| ren <<< 16 ||| reg <<< 21

/-- The parts of the POWER core header used by the SIMD encoders and defined
outside this header: the operand-field packer `MXM`, scratch-register ids, the
address set-up `AUW`, the memory-operand packer `MPM` and the selectors
dispatching on the displacement type.  `Sel` is the type of what a selector
yields. -/
structure Core where
  Sel : Type
  TmmM : Nat
  TmmQ : Nat
  SP16 : Nat
  MXM : Nat → Nat → Nat → Nat
  C2 : Imm → Sel
  B2 : Imm → Sel
  P2 : Imm → Sel
  O2 : Imm → Sel
  C3 : Imm → Sel
  E2 : Imm → Sel
  AUW : List Nat → Option Nat → Option Nat → Option Nat → Option Nat →
    Option Sel → Option Sel → List Nat
  MPM : Nat → Nat → Nat → Sel → Sel → Nat

/-! ### packed half-precision generic move/logic -/

def movgx_rr (c : Core) (XD XS : Triplet) : List Nat :=
  EMITW (0xF0000497 ||| c.MXM (REG XD) (REG XS) (REG XS))

def movgx_ld (c : Core) (XD MS : Triplet) (DS : Imm) : List Nat :=
  c.AUW (SIB MS) none none (some (MOD MS)) (some (VAL DS)) (some (c.C2 DS)) none ++
  EMITW (0x00000000 ||| c.MPM (REG XD) (MOD MS) (VAL DS) (c.B2 DS) (c.P2 DS))

def andgx3rr (c : Core) (XD XS XT : Triplet) : List Nat :=
  EMITW (0xF0000417 ||| c.MXM (REG XD) (REG XS) (REG XT))

def andgx3ld (c : Core) (XD XS MT : Triplet) (DT : Imm) : List Nat :=
  c.AUW (SIB MT) none none (some (MOD MT)) (some (VAL DT)) (some (c.C2 DT)) none ++
  EMITW (0x00000000 ||| c.MPM c.TmmM (MOD MT) (VAL DT) (c.B2 DT) (c.P2 DT)) ++
  EMITW (0xF0000417 ||| c.MXM (REG XD) (REG XS) c.TmmM)

def anngx3rr (c : Core) (XD XS XT : Triplet) : List Nat :=
  EMITW (0xF0000457 ||| c.MXM (REG XD) (REG XT) (REG XS))

def anngx3ld (c : Core) (XD XS MT : Triplet) (DT : Imm) : List Nat :=
  c.AUW (SIB MT) none none (some (MOD MT)) (some (VAL DT)) (some (c.C2 DT)) none ++
  EMITW (0x00000000 ||| c.MPM c.TmmM (MOD MT) (VAL DT) (c.B2 DT) (c.P2 DT)) ++
  EMITW (0xF0000457 ||| c.MXM (REG XD) c.TmmM (REG XS))

def orrgx3rr (c : Core) (XD XS XT : Triplet) : List Nat :=
  EMITW (0xF0000497 ||| c.MXM (REG XD) (REG XS) (REG XT))

def orrgx3ld (c : Core) (XD XS MT : Triplet) (DT : Imm) : List Nat :=
  c.AUW (SIB MT) none none (some (MOD MT)) (some (VAL DT)) (some (c.C2 DT)) none ++
  EMITW (0x00000000 ||| c.MPM c.TmmM (MOD MT) (VAL DT) (c.B2 DT) (c.P2 DT)) ++
  EMITW (0xF0000497 ||| c.MXM (REG XD) (REG XS) c.TmmM)

def orngx3rr (c : Core) (XD XS XT : Triplet) : List Nat :=
  EMITW (0xF0000557 ||| c.MXM (REG XD) (REG XT) (REG XS))

def orngx3ld (c : Core) (XD XS MT : Triplet) (DT : Imm) : List Nat :=
  c.AUW (SIB MT) none none (some (MOD MT)) (some (VAL DT)) (some (c.C2 DT)) none ++
  EMITW (0x00000000 ||| c.MPM c.TmmM (MOD MT) (VAL DT) (c.B2 DT) (c.P2 DT)) ++
  EMITW (0xF0000557 ||| c.MXM (REG XD) c.TmmM (REG XS))

def xorgx3rr (c : Core) (XD XS XT : Triplet) : List Nat :=
  EMITW (0xF00004D7 ||| c.MXM (REG XD) (REG XS) (REG XT))

def xorgx3ld (c : Core) (XD XS MT : Triplet) (DT : Imm) : List Nat :=
  c.AUW (SIB MT) none none (some (MOD MT)) (some (VAL DT)) (some (c.C2 DT)) none ++
  EMITW (0x00000000 ||| c.MPM c.TmmM (MOD MT) (VAL DT) (c.B2 DT) (c.P2 DT)) ++
  EMITW (0xF00004D7 ||| c.MXM (REG XD) (REG XS) c.TmmM)

/-! ### packed half-precision integer arithmetic/shifts -/

def addgx3rr (c : Core) (XD XS XT : Triplet) : List Nat :=
  EMITW (0x10000040 ||| c.MXM (REG XD) (REG XS) (REG XT))

def addgx_rr (c : Core) (XG XS : Triplet) : List Nat :=
  addgx3rr c XG XG XS

def addgx3ld (c : Core) (XD XS MT : Triplet) (DT : Imm) : List Nat :=
  c.AUW (SIB MT) none none (some (MOD MT)) (some (VAL DT)) (some (c.C2 DT)) none ++
  EMITW (0x00000000 ||| c.MPM c.TmmM (MOD MT) (VAL DT) (c.B2 DT) (c.P2 DT)) ++
  EMITW (0x10000040 ||| c.MXM (REG XD) (REG XS) c.TmmM)

def adsgx3rr (c : Core) (XD XS XT : Triplet) : List Nat :=
  EMITW (0x10000240 ||| c.MXM (REG XD) (REG XS) (REG XT))

def adsgx3ld (c : Core) (XD XS MT : Triplet) (DT : Imm) : List Nat :=
  c.AUW (SIB MT) none none (some (MOD MT)) (some (VAL DT)) (some (c.C2 DT)) none ++
  EMITW (0x00000000 ||| c.MPM c.TmmM (MOD MT) (VAL DT) (c.B2 DT) (c.P2 DT)) ++
  EMITW (0x10000240 ||| c.MXM (REG XD) (REG XS) c.TmmM)

def adsgn3rr (c : Core) (XD XS XT : Triplet) : List Nat :=
  EMITW (0x10000340 ||| c.MXM (REG XD) (REG XS) (REG XT))

def adsgn3ld (c : Core) (XD XS MT : Triplet) (DT : Imm) : List Nat :=
  c.AUW (SIB MT) none none (some (MOD MT)) (some (VAL DT)) (some (c.C2 DT)) none ++
  EMITW (0x00000000 ||| c.MPM c.TmmM (MOD MT) (VAL DT) (c.B2 DT) (c.P2 DT)) ++
  EMITW (0x10000340 ||| c.MXM (REG XD) (REG XS) c.TmmM)

def subgx3rr (c : Core) (XD XS XT : Triplet) : List Nat :=
  EMITW (0x10000440 ||| c.MXM (REG XD) (REG XS) (REG XT))

def subgx3ld (c : Core) (XD XS MT : Triplet) (DT : Imm) : List Nat :=
  c.AUW (SIB MT) none none (some (MOD MT)) (some (VAL DT)) (some (c.C2 DT)) none ++
  EMITW (0x00000000 ||| c.MPM c.TmmM (MOD MT) (VAL DT) (c.B2 DT) (c.P2 DT)) ++
  EMITW (0x10000440 ||| c.MXM (REG XD) (REG XS) c.TmmM)

def sbsgx3rr (c : Core) (XD XS XT : Triplet) : List Nat :=
  EMITW (0x10000640 ||| c.MXM (REG XD) (REG XS) (REG XT))

def sbsgx3ld (c : Core) (XD XS MT : Triplet) (DT : Imm) : List Nat :=
  c.AUW (SIB MT) none none (some (MOD MT)) (some (VAL DT)) (some (c.C2 DT)) none ++
  EMITW (0x00000000 ||| c.MPM c.TmmM (MOD MT) (VAL DT) (c.B2 DT) (c.P2 DT)) ++
  EMITW (0x10000640 ||| c.MXM (REG XD) (REG XS) c.TmmM)

def sbsgn3rr (c : Core) (XD XS XT : Triplet) : List Nat :=
  EMITW (0x10000740 ||| c.MXM (REG XD) (REG XS) (REG XT))

def sbsgn3ld (c : Core) (XD XS MT : Triplet) (DT : Imm) : List Nat :=
  c.AUW (SIB MT) none none (some (MOD MT)) (some (VAL DT)) (some (c.C2 DT)) none ++
  EMITW (0x00000000 ||| c.MPM c.TmmM (MOD MT) (VAL DT) (c.B2 DT) (c.P2 DT)) ++
  EMITW (0x10000740 ||| c.MXM (REG XD) (REG XS) c.TmmM)

def mulgx3rr (c : Core) (XD XS XT : Triplet) : List Nat :=
  EMITW (0x100004C4 ||| c.MXM c.TmmM c.TmmM c.TmmM) ++
  EMITW (0x10000022 ||| c.MXM (REG XD) (REG XS) (REG XT) ||| c.TmmM <<< 6)

def mulgx3ld (c : Core) (XD XS MT : Triplet) (DT : Imm) : List Nat :=
  c.AUW (SIB MT) none none (some (MOD MT)) (some (VAL DT)) (some (c.C2 DT)) none ++
  EMITW (0x00000000 ||| c.MPM c.TmmM (MOD MT) (VAL DT) (c.B2 DT) (c.P2 DT)) ++
  EMITW (0x100004C4 ||| c.MXM c.TmmQ c.TmmQ c.TmmQ) ++
  EMITW (0x10000022 ||| c.MXM (REG XD) (REG XS) c.TmmM ||| c.TmmQ <<< 6)

def svlgx3rr (c : Core) (XD XS XT : Triplet) : List Nat :=
  EMITW (0x10000144 ||| c.MXM (REG XD) (REG XS) (REG XT))

def svlgx3ld (c : Core) (XD XS MT : Triplet) (DT : Imm) : List Nat :=
  c.AUW (SIB MT) none none (some (MOD MT)) (some (VAL DT)) (some (c.C2 DT)) none ++
  EMITW (0x00000000 ||| c.MPM c.TmmM (MOD MT) (VAL DT) (c.B2 DT) (c.P2 DT)) ++
  EMITW (0x10000144 ||| c.MXM (REG XD) (REG XS) c.TmmM)

def svrgx3rr (c : Core) (XD XS XT : Triplet) : List Nat :=
  EMITW (0x10000244 ||| c.MXM (REG XD) (REG XS) (REG XT))

def svrgx3ld (c : Core) (XD XS MT : Triplet) (DT : Imm) : List Nat :=
  c.AUW (SIB MT) none none (some (MOD MT)) (some (VAL DT)) (some (c.C2 DT)) none ++
  EMITW (0x00000000 ||| c.MPM c.TmmM (MOD MT) (VAL DT) (c.B2 DT) (c.P2 DT)) ++
  EMITW (0x10000244 ||| c.MXM (REG XD) (REG XS) c.TmmM)

def svrgn3rr (c : Core) (XD XS XT : Triplet) : List Nat :=
  EMITW (0x10000344 ||| c.MXM (REG XD) (REG XS) (REG XT))

def svrgn3ld (c : Core) (XD XS MT : Triplet) (DT : Imm) : List Nat :=
  c.AUW (SIB MT) none none (some (MOD MT)) (some (VAL DT)) (some (c.C2 DT)) none ++
  EMITW (0x00000000 ||| c.MPM c.TmmM (MOD MT) (VAL DT) (c.B2 DT) (c.P2 DT)) ++
  EMITW (0x10000344 ||| c.MXM (REG XD) (REG XS) c.TmmM)

/-- The register variant `mulgx3rr` with the zeroed addend held in register
`q` instead of `TmmM`: the same two words with `q` in the three fields of the
first word and in the `<< 6` field of the second. -/
def mulgx3rr_with (c : Core) (q : Nat) (XD XS XT : Triplet) : List Nat :=
  EMITW (0x100004C4 ||| c.MXM q q q) ++
  EMITW (0x10000022 ||| c.MXM (REG XD) (REG XS) (REG XT) ||| q <<< 6)

/-- Modelled from the spec: a concrete instance of the POWER core (the core
header itself is missing), for evaluating the encoders on explicit operands.
The operand fields are packed as the specification's fixture packs them, the
two scratch registers are distinct vector registers (v31 and v30), the address
set-up emits only the index fragment of the addressing mode, and the
memory-operand packer follows the base-OR-shifted-fields composition rule. -/
def sampleCore : Core where
  Sel := Nat
  TmmM := 0x1F
  TmmQ := 0x1E
  SP16 := 0x10
  MXM := Power.MXM
  C2 := fun D => D.typ
  B2 := fun D => D.typ
  P2 := fun D => D.typ
  O2 := fun D => D.typ
  C3 := fun D => D.typ
  E2 := fun D => D.typ
  AUW := fun sib _ _ _ _ _ _ => sib
  MPM := fun reg brm vdp _ _ => reg <<< 21 ||| brm <<< 16 ||| vdp

end Power

/-! ## AArch64 SVE, `rtarch_aHF_SVEx1v1.h` -/

namespace SVE

/-- The parts of the AArch64 core header used by the SVE encoders and defined
outside this header: the operand-field packer `MXM`, scratch-register ids, the
address set-up `AUW`, the memory-operand packer `MPM`, the selectors
dispatching on the displacement type and the halved displacement `VHL`.
`Sel` is the type of what a selector yields. -/
structure Core where
  Sel : Type
  Tmm0 : Nat
  TmmM : Nat
  TmmQ : Nat
  MXM : Nat → Nat → Nat → Nat
  A1 : Imm → Sel
  B3 : Imm → Sel
  F1 : Imm → Sel
  C1 : Imm → Sel
  B1 : Imm → Sel
  P1 : Imm → Sel
  VHL : Imm → Nat
  AUW : List Nat → Option Nat → Option Nat → Option Nat → Option Nat →
    Option Sel → Option Sel → List Nat
  MPM : Nat → Nat → Nat → Sel → Sel → Nat

/-! ### packed half-precision generic move/logic -/

def movmx_rr (c : Core) (XD XS : Triplet) : List Nat :=
  EMITW (0x04603000 ||| c.MXM (REG XD) (REG XS) (REG XS))

def movmx_ld (c : Core) (XD MS : Triplet) (DS : Imm) : List Nat :=
  c.AUW (SIB MS) none none (some (MOD MS)) (some (VAL DS)) (some (c.A1 DS)) none ++
  EMITW (0x85804000 ||| c.MPM (REG XD) (MOD MS) (VAL DS) (c.B3 DS) (c.F1 DS))

def mmvmx_rr (c : Core) (XG XS : Triplet) : List Nat :=
  EMITW (0x2440A000 ||| c.MXM 0x01 c.Tmm0 c.TmmQ) ++
  EMITW (0x0560C400 ||| c.MXM (REG XG) (REG XS) (REG XG))

def andmx3rr (c : Core) (XD XS XT : Triplet) : List Nat :=
  EMITW (0x04203000 ||| c.MXM (REG XD) (REG XS) (REG XT))

def andmx3ld (c : Core) (XD XS MT : Triplet) (DT : Imm) : List Nat :=
  c.AUW (SIB MT) none none (some (MOD MT)) (some (VAL DT)) (some (c.A1 DT)) none ++
  EMITW (0x85804000 ||| c.MPM c.TmmM (MOD MT) (VAL DT) (c.B3 DT) (c.F1 DT)) ++
  EMITW (0x04203000 ||| c.MXM (REG XD) (REG XS) c.TmmM)

def annmx3rr (c : Core) (XD XS XT : Triplet) : List Nat :=
  EMITW (0x04E03000 ||| c.MXM (REG XD) (REG XT) (REG XS))

def annmx3ld (c : Core) (XD XS MT : Triplet) (DT : Imm) : List Nat :=
  c.AUW (SIB MT) none none (some (MOD MT)) (some (VAL DT)) (some (c.A1 DT)) none ++
  EMITW (0x85804000 ||| c.MPM c.TmmM (MOD MT) (VAL DT) (c.B3 DT) (c.F1 DT)) ++
  EMITW (0x04E03000 ||| c.MXM (REG XD) c.TmmM (REG XS))

def orrmx3rr (c : Core) (XD XS XT : Triplet) : List Nat :=
  EMITW (0x04603000 ||| c.MXM (REG XD) (REG XS) (REG XT))

def orrmx3ld (c : Core) (XD XS MT : Triplet) (DT : Imm) : List Nat :=
  c.AUW (SIB MT) none none (some (MOD MT)) (some (VAL DT)) (some (c.A1 DT)) none ++
  EMITW (0x85804000 ||| c.MPM c.TmmM (MOD MT) (VAL DT) (c.B3 DT) (c.F1 DT)) ++
  EMITW (0x04603000 ||| c.MXM (REG XD) (REG XS) c.TmmM)

def xormx3rr (c : Core) (XD XS XT : Triplet) : List Nat :=
  EMITW (0x04A03000 ||| c.MXM (REG XD) (REG XS) (REG XT))

def xormx3ld (c : Core) (XD XS MT : Triplet) (DT : Imm) : List Nat :=
  c.AUW (SIB MT) none none (some (MOD MT)) (some (VAL DT)) (some (c.A1 DT)) none ++
  EMITW (0x85804000 ||| c.MPM c.TmmM (MOD MT) (VAL DT) (c.B3 DT) (c.F1 DT)) ++
  EMITW (0x04A03000 ||| c.MXM (REG XD) (REG XS) c.TmmM)

/-! ### packed half-precision floating-point arithmetic -/

def addms3rr (c : Core) (XD XS XT : Triplet) : List Nat :=
  EMITW (0x65400000 ||| c.MXM (REG XD) (REG XS) (REG XT))

def addms3ld (c : Core) (XD XS MT : Triplet) (DT : Imm) : List Nat :=
  c.AUW (SIB MT) none none (some (MOD MT)) (some (VAL DT)) (some (c.A1 DT)) none ++
  EMITW (0x85804000 ||| c.MPM c.TmmM (MOD MT) (VAL DT) (c.B3 DT) (c.F1 DT)) ++
  EMITW (0x65400000 ||| c.MXM (REG XD) (REG XS) c.TmmM)

def subms3rr (c : Core) (XD XS XT : Triplet) : List Nat :=
  EMITW (0x65400400 ||| c.MXM (REG XD) (REG XS) (REG XT))

def subms3ld (c : Core) (XD XS MT : Triplet) (DT : Imm) : List Nat :=
  c.AUW (SIB MT) none none (some (MOD MT)) (some (VAL DT)) (some (c.A1 DT)) none ++
  EMITW (0x85804000 ||| c.MPM c.TmmM (MOD MT) (VAL DT) (c.B3 DT) (c.F1 DT)) ++
  EMITW (0x65400400 ||| c.MXM (REG XD) (REG XS) c.TmmM)

def mulms3rr (c : Core) (XD XS XT : Triplet) : List Nat :=
  EMITW (0x65400800 ||| c.MXM (REG XD) (REG XS) (REG XT))

def mulms3ld (c : Core) (XD XS MT : Triplet) (DT : Imm) : List Nat :=
  c.AUW (SIB MT) none none (some (MOD MT)) (some (VAL DT)) (some (c.A1 DT)) none ++
  EMITW (0x85804000 ||| c.MPM c.TmmM (MOD MT) (VAL DT) (c.B3 DT) (c.F1 DT)) ++
  EMITW (0x65400800 ||| c.MXM (REG XD) (REG XS) c.TmmM)

def divms_rr (c : Core) (XG XS : Triplet) : List Nat :=
  EMITW (0x654D8000 ||| c.MXM (REG XG) (REG XS) 0x00)

def divms_ld (c : Core) (XG MS : Triplet) (DS : Imm) : List Nat :=
  c.AUW (SIB MS) none none (some (MOD MS)) (some (VAL DS)) (some (c.A1 DS)) none ++
  EMITW (0x85804000 ||| c.MPM c.TmmM (MOD MS) (VAL DS) (c.B3 DS) (c.F1 DS)) ++
  EMITW (0x654D8000 ||| c.MXM (REG XG) c.TmmM 0x00)

def divms3rr (c : Core) (XD XS XT : Triplet) : List Nat :=
  movmx_rr c XD XS ++
  divms_rr c XD XT

def divms3ld (c : Core) (XD XS MT : Triplet) (DT : Imm) : List Nat :=
  movmx_rr c XD XS ++
  divms_ld c XD MT DT

/-! ### packed half-precision floating-point compare -/

def minms_rr (c : Core) (XG XS : Triplet) : List Nat :=
  EMITW (0x65478000 ||| c.MXM (REG XG) (REG XS) 0x00)

def minms_ld (c : Core) (XG MS : Triplet) (DS : Imm) : List Nat :=
  c.AUW (SIB MS) none none (some (MOD MS)) (some (VAL DS)) (some (c.A1 DS)) none ++
  EMITW (0x85804000 ||| c.MPM c.TmmM (MOD MS) (VAL DS) (c.B3 DS) (c.F1 DS)) ++
  EMITW (0x65478000 ||| c.MXM (REG XG) c.TmmM 0x00)

def minms3rr (c : Core) (XD XS XT : Triplet) : List Nat :=
  movmx_rr c XD XS ++
  minms_rr c XD XT

def minms3ld (c : Core) (XD XS MT : Triplet) (DT : Imm) : List Nat :=
  movmx_rr c XD XS ++
  minms_ld c XD MT DT

def maxms_rr (c : Core) (XG XS : Triplet) : List Nat :=
  EMITW (0x65468000 ||| c.MXM (REG XG) (REG XS) 0x00)

def maxms_ld (c : Core) (XG MS : Triplet) (DS : Imm) : List Nat :=
  c.AUW (SIB MS) none none (some (MOD MS)) (some (VAL DS)) (some (c.A1 DS)) none ++
  EMITW (0x85804000 ||| c.MPM c.TmmM (MOD MS) (VAL DS) (c.B3 DS) (c.F1 DS)) ++
  EMITW (0x65468000 ||| c.MXM (REG XG) c.TmmM 0x00)

def maxms3rr (c : Core) (XD XS XT : Triplet) : List Nat :=
  movmx_rr c XD XS ++
  maxms_rr c XD XT

def maxms3ld (c : Core) (XD XS MT : Triplet) (DT : Imm) : List Nat :=
  movmx_rr c XD XS ++
  maxms_ld c XD MT DT

def ceqms3rr (c : Core) (XD XS XT : Triplet) : List Nat :=
  EMITW (0x65406000 ||| c.MXM 0x01 (REG XS) (REG XT)) ++
  EMITW (0x04A03000 ||| c.MXM (REG XD) (REG XD) (REG XD)) ++
  EMITW (0x0560C400 ||| c.MXM (REG XD) c.TmmQ (REG XD))

def ceqms3ld (c : Core) (XD XS MT : Triplet) (DT : Imm) : List Nat :=
  c.AUW (SIB MT) none none (some (MOD MT)) (some (VAL DT)) (some (c.A1 DT)) none ++
  EMITW (0x85804000 ||| c.MPM c.TmmM (MOD MT) (VAL DT) (c.B3 DT) (c.F1 DT)) ++
  EMITW (0x65406000 ||| c.MXM 0x01 (REG XS) c.TmmM) ++
  EMITW (0x04A03000 ||| c.MXM (REG XD) (REG XD) (REG XD)) ++
  EMITW (0x0560C400 ||| c.MXM (REG XD) c.TmmQ (REG XD))

def cnems3rr (c : Core) (XD XS XT : Triplet) : List Nat :=
  EMITW (0x65406010 ||| c.MXM 0x01 (REG XS) (REG XT)) ++
  EMITW (0x04A03000 ||| c.MXM (REG XD) (REG XD) (REG XD)) ++
  EMITW (0x0560C400 ||| c.MXM (REG XD) c.TmmQ (REG XD))

def cnems3ld (c : Core) (XD XS MT : Triplet) (DT : Imm) : List Nat :=
  c.AUW (SIB MT) none none (some (MOD MT)) (some (VAL DT)) (some (c.A1 DT)) none ++
  EMITW (0x85804000 ||| c.MPM c.TmmM (MOD MT) (VAL DT) (c.B3 DT) (c.F1 DT)) ++
  EMITW (0x65406010 ||| c.MXM 0x01 (REG XS) c.TmmM) ++
  EMITW (0x04A03000 ||| c.MXM (REG XD) (REG XD) (REG XD)) ++
  EMITW (0x0560C400 ||| c.MXM (REG XD) c.TmmQ (REG XD))

def cltms3rr (c : Core) (XD XS XT : Triplet) : List Nat :=
  EMITW (0x65404010 ||| c.MXM 0x01 (REG XT) (REG XS)) ++
  EMITW (0x04A03000 ||| c.MXM (REG XD) (REG XD) (REG XD)) ++
  EMITW (0x0560C400 ||| c.MXM (REG XD) c.TmmQ (REG XD))

def cltms3ld (c : Core) (XD XS MT : Triplet) (DT : Imm) : List Nat :=
  c.AUW (SIB MT) none none (some (MOD MT)) (some (VAL DT)) (some (c.A1 DT)) none ++
  EMITW (0x85804000 ||| c.MPM c.TmmM (MOD MT) (VAL DT) (c.B3 DT) (c.F1 DT)) ++
  EMITW (0x65404010 ||| c.MXM 0x01 c.TmmM (REG XS)) ++
  EMITW (0x04A03000 ||| c.MXM (REG XD) (REG XD) (REG XD)) ++
  EMITW (0x0560C400 ||| c.MXM (REG XD) c.TmmQ (REG XD))

def clems3rr (c : Core) (XD XS XT : Triplet) : List Nat :=
  EMITW (0x65404000 ||| c.MXM 0x01 (REG XT) (REG XS)) ++
  EMITW (0x04A03000 ||| c.MXM (REG XD) (REG XD) (REG XD)) ++
  EMITW (0x0560C400 ||| c.MXM (REG XD) c.TmmQ (REG XD))

def clems3ld (c : Core) (XD XS MT : Triplet) (DT : Imm) : List Nat :=
  c.AUW (SIB MT) none none (some (MOD MT)) (some (VAL DT)) (some (c.A1 DT)) none ++
  EMITW (0x85804000 ||| c.MPM c.TmmM (MOD MT) (VAL DT) (c.B3 DT) (c.F1 DT)) ++
  EMITW (0x65404000 ||| c.MXM 0x01 c.TmmM (REG XS)) ++
  EMITW (0x04A03000 ||| c.MXM (REG XD) (REG XD) (REG XD)) ++
  EMITW (0x0560C400 ||| c.MXM (REG XD) c.TmmQ (REG XD))

def cgtms3rr (c : Core) (XD XS XT : Triplet) : List Nat :=
  EMITW (0x65404010 ||| c.MXM 0x01 (REG XS) (REG XT)) ++
  EMITW (0x04A03000 ||| c.MXM (REG XD) (REG XD) (REG XD)) ++
  EMITW (0x0560C400 ||| c.MXM (REG XD) c.TmmQ (REG XD))

def cgtms3ld (c : Core) (XD XS MT : Triplet) (DT : Imm) : List Nat :=
  c.AUW (SIB MT) none none (some (MOD MT)) (some (VAL DT)) (some (c.A1 DT)) none ++
  EMITW (0x85804000 ||| c.MPM c.TmmM (MOD MT) (VAL DT) (c.B3 DT) (c.F1 DT)) ++
  EMITW (0x65404010 ||| c.MXM 0x01 (REG XS) c.TmmM) ++
  EMITW (0x04A03000 ||| c.MXM (REG XD) (REG XD) (REG XD)) ++
  EMITW (0x0560C400 ||| c.MXM (REG XD) c.TmmQ (REG XD))

def cgems3rr (c : Core) (XD XS XT : Triplet) : List Nat :=
  EMITW (0x65404000 ||| c.MXM 0x01 (REG XS) (REG XT)) ++
  EMITW (0x04A03000 ||| c.MXM (REG XD) (REG XD) (REG XD)) ++
  EMITW (0x0560C400 ||| c.MXM (REG XD) c.TmmQ (REG XD))

def cgems3ld (c : Core) (XD XS MT : Triplet) (DT : Imm) : List Nat :=
  c.AUW (SIB MT) none none (some (MOD MT)) (some (VAL DT)) (some (c.A1 DT)) none ++
  EMITW (0x85804000 ||| c.MPM c.TmmM (MOD MT) (VAL DT) (c.B3 DT) (c.F1 DT)) ++
  EMITW (0x65404000 ||| c.MXM 0x01 (REG XS) c.TmmM) ++
  EMITW (0x04A03000 ||| c.MXM (REG XD) (REG XD) (REG XD)) ++
  EMITW (0x0560C400 ||| c.MXM (REG XD) c.TmmQ (REG XD))

/-! ### packed half-precision floating-point convert -/

def rnzms_rr (c : Core) (XD XS : Triplet) : List Nat :=
  EMITW (0x6543A000 ||| c.MXM (REG XD) (REG XS) 0x00)

def rnzms_ld (c : Core) (XD MS : Triplet) (DS : Imm) : List Nat :=
  c.AUW (SIB MS) none none (some (MOD MS)) (some (VAL DS)) (some (c.A1 DS)) none ++
  EMITW (0x85804000 ||| c.MPM c.TmmM (MOD MS) (VAL DS) (c.B3 DS) (c.F1 DS)) ++
  EMITW (0x6543A000 ||| c.MXM (REG XD) c.TmmM 0x00)

def cvzms_rr (c : Core) (XD XS : Triplet) : List Nat :=
  EMITW (0x655AA000 ||| c.MXM (REG XD) (REG XS) 0x00)

def cvzms_ld (c : Core) (XD MS : Triplet) (DS : Imm) : List Nat :=
  c.AUW (SIB MS) none none (some (MOD MS)) (some (VAL DS)) (some (c.A1 DS)) none ++
  EMITW (0x85804000 ||| c.MPM c.TmmM (MOD MS) (VAL DS) (c.B3 DS) (c.F1 DS)) ++
  EMITW (0x655AA000 ||| c.MXM (REG XD) c.TmmM 0x00)

def rnpms_rr (c : Core) (XD XS : Triplet) : List Nat :=
  EMITW (0x6541A000 ||| c.MXM (REG XD) (REG XS) 0x00)

def rnpms_ld (c : Core) (XD MS : Triplet) (DS : Imm) : List Nat :=
  c.AUW (SIB MS) none none (some (MOD MS)) (some (VAL DS)) (some (c.A1 DS)) none ++
  EMITW (0x85804000 ||| c.MPM c.TmmM (MOD MS) (VAL DS) (c.B3 DS) (c.F1 DS)) ++
  EMITW (0x6541A000 ||| c.MXM (REG XD) c.TmmM 0x00)

def cvpms_rr (c : Core) (XD XS : Triplet) : List Nat :=
  rnpms_rr c XD XS ++
  cvzms_rr c XD XD

def cvpms_ld (c : Core) (XD MS : Triplet) (DS : Imm) : List Nat :=
  rnpms_ld c XD MS DS ++
  cvzms_rr c XD XD

def rnmms_rr (c : Core) (XD XS : Triplet) : List Nat :=
  EMITW (0x6542A000 ||| c.MXM (REG XD) (REG XS) 0x00)

def rnmms_ld (c : Core) (XD MS : Triplet) (DS : Imm) : List Nat :=
  c.AUW (SIB MS) none none (some (MOD MS)) (some (VAL DS)) (some (c.A1 DS)) none ++
  EMITW (0x85804000 ||| c.MPM c.TmmM (MOD MS) (VAL DS) (c.B3 DS) (c.F1 DS)) ++
  EMITW (0x6542A000 ||| c.MXM (REG XD) c.TmmM 0x00)

def cvmms_rr (c : Core) (XD XS : Triplet) : List Nat :=
  rnmms_rr c XD XS ++
  cvzms_rr c XD XD

def cvmms_ld (c : Core) (XD MS : Triplet) (DS : Imm) : List Nat :=
  rnmms_ld c XD MS DS ++
  cvzms_rr c XD XD

def rnnms_rr (c : Core) (XD XS : Triplet) : List Nat :=
  EMITW (0x6540A000 ||| c.MXM (REG XD) (REG XS) 0x00)

def rnnms_ld (c : Core) (XD MS : Triplet) (DS : Imm) : List Nat :=
  c.AUW (SIB MS) none none (some (MOD MS)) (some (VAL DS)) (some (c.A1 DS)) none ++
  EMITW (0x85804000 ||| c.MPM c.TmmM (MOD MS) (VAL DS) (c.B3 DS) (c.F1 DS)) ++
  EMITW (0x6540A000 ||| c.MXM (REG XD) c.TmmM 0x00)

def cvnms_rr (c : Core) (XD XS : Triplet) : List Nat :=
  rnnms_rr c XD XS ++
  cvzms_rr c XD XD

def cvnms_ld (c : Core) (XD MS : Triplet) (DS : Imm) : List Nat :=
  rnnms_ld c XD MS DS ++
  cvzms_rr c XD XD

def rndms_rr (c : Core) (XD XS : Triplet) : List Nat :=
  EMITW (0x6547A000 ||| c.MXM (REG XD) (REG XS) 0x00)

def rndms_ld (c : Core) (XD MS : Triplet) (DS : Imm) : List Nat :=
  c.AUW (SIB MS) none none (some (MOD MS)) (some (VAL DS)) (some (c.A1 DS)) none ++
  EMITW (0x85804000 ||| c.MPM c.TmmM (MOD MS) (VAL DS) (c.B3 DS) (c.F1 DS)) ++
  EMITW (0x6547A000 ||| c.MXM (REG XD) c.TmmM 0x00)

def cvtms_rr (c : Core) (XD XS : Triplet) : List Nat :=
  rndms_rr c XD XS ++
  cvzms_rr c XD XD

def cvtms_ld (c : Core) (XD MS : Triplet) (DS : Imm) : List Nat :=
  rndms_ld c XD MS DS ++
  cvzms_rr c XD XD

/-! ### packed half-precision integer arithmetic/shifts -/

def addmx3rr (c : Core) (XD XS XT : Triplet) : List Nat :=
  EMITW (0x04600000 ||| c.MXM (REG XD) (REG XS) (REG XT))

def addmx3ld (c : Core) (XD XS MT : Triplet) (DT : Imm) : List Nat :=
  c.AUW (SIB MT) none none (some (MOD MT)) (some (VAL DT)) (some (c.A1 DT)) none ++
  EMITW (0x85804000 ||| c.MPM c.TmmM (MOD MT) (VAL DT) (c.B3 DT) (c.F1 DT)) ++
  EMITW (0x04600000 ||| c.MXM (REG XD) (REG XS) c.TmmM)

def submx3rr (c : Core) (XD XS XT : Triplet) : List Nat :=
  EMITW (0x04600400 ||| c.MXM (REG XD) (REG XS) (REG XT))

def submx3ld (c : Core) (XD XS MT : Triplet) (DT : Imm) : List Nat :=
  c.AUW (SIB MT) none none (some (MOD MT)) (some (VAL DT)) (some (c.A1 DT)) none ++
  EMITW (0x85804000 ||| c.MPM c.TmmM (MOD MT) (VAL DT) (c.B3 DT) (c.F1 DT)) ++
  EMITW (0x04600400 ||| c.MXM (REG XD) (REG XS) c.TmmM)

def mulmx_rr (c : Core) (XG XS : Triplet) : List Nat :=
  EMITW (0x04500000 ||| c.MXM (REG XG) (REG XS) 0x00)

def mulmx_ld (c : Core) (XG MS : Triplet) (DS : Imm) : List Nat :=
  c.AUW (SIB MS) none none (some (MOD MS)) (some (VAL DS)) (some (c.A1 DS)) none ++
  EMITW (0x85804000 ||| c.MPM c.TmmM (MOD MS) (VAL DS) (c.B3 DS) (c.F1 DS)) ++
  EMITW (0x04500000 ||| c.MXM (REG XG) c.TmmM 0x00)

def mulmx3rr (c : Core) (XD XS XT : Triplet) : List Nat :=
  movmx_rr c XD XS ++
  mulmx_rr c XD XT

def mulmx3ld (c : Core) (XD XS MT : Triplet) (DT : Imm) : List Nat :=
  movmx_rr c XD XS ++
  mulmx_ld c XD MT DT

def shlmx_ld (c : Core) (XG MS : Triplet) (DS : Imm) : List Nat :=
  c.AUW (SIB MS) none none (some (MOD MS)) (some (VAL DS)) (some (c.C1 DS)) none ++
  EMITW (0x7C400000 ||| c.MPM c.TmmM (MOD MS) (c.VHL DS) (c.B1 DS) (c.P1 DS)) ++
  EMITW (0x05222000 ||| c.MXM c.TmmM c.TmmM 0x00) ++
  EMITW (0x04538000 ||| c.MXM (REG XG) c.TmmM 0x00)

def shlmx3ld (c : Core) (XD XS MT : Triplet) (DT : Imm) : List Nat :=
  movmx_rr c XD XS ++
  shlmx_ld c XD MT DT

def shrmx_ld (c : Core) (XG MS : Triplet) (DS : Imm) : List Nat :=
  c.AUW (SIB MS) none none (some (MOD MS)) (some (VAL DS)) (some (c.C1 DS)) none ++
  EMITW (0x7C400000 ||| c.MPM c.TmmM (MOD MS) (c.VHL DS) (c.B1 DS) (c.P1 DS)) ++
  EMITW (0x05222000 ||| c.MXM c.TmmM c.TmmM 0x00) ++
  EMITW (0x04518000 ||| c.MXM (REG XG) c.TmmM 0x00)

def shrmx3ld (c : Core) (XD XS MT : Triplet) (DT : Imm) : List Nat :=
  movmx_rr c XD XS ++
  shrmx_ld c XD MT DT

def shrmn_ld (c : Core) (XG MS : Triplet) (DS : Imm) : List Nat :=
  c.AUW (SIB MS) none none (some (MOD MS)) (some (VAL DS)) (some (c.C1 DS)) none ++
  EMITW (0x7C400000 ||| c.MPM c.TmmM (MOD MS) (c.VHL DS) (c.B1 DS) (c.P1 DS)) ++
  EMITW (0x05222000 ||| c.MXM c.TmmM c.TmmM 0x00) ++
  EMITW (0x04508000 ||| c.MXM (REG XG) c.TmmM 0x00)

def shrmn3ld (c : Core) (XD XS MT : Triplet) (DT : Imm) : List Nat :=
  movmx_rr c XD XS ++
  shrmn_ld c XD MT DT

def svlmx_rr (c : Core) (XG XS : Triplet) : List Nat :=
  EMITW (0x04538000 ||| c.MXM (REG XG) (REG XS) 0x00)

def svlmx_ld (c : Core) (XG MS : Triplet) (DS : Imm) : List Nat :=
  c.AUW (SIB MS) none none (some (MOD MS)) (some (VAL DS)) (some (c.A1 DS)) none ++
  EMITW (0x85804000 ||| c.MPM c.TmmM (MOD MS) (VAL DS) (c.B3 DS) (c.F1 DS)) ++
  EMITW (0x04538000 ||| c.MXM (REG XG) c.TmmM 0x00)

def svlmx3rr (c : Core) (XD XS XT : Triplet) : List Nat :=
  movmx_rr c XD XS ++
  svlmx_rr c XD XT

def svlmx3ld (c : Core) (XD XS MT : Triplet) (DT : Imm) : List Nat :=
  movmx_rr c XD XS ++
  svlmx_ld c XD MT DT

def svrmx_rr (c : Core) (XG XS : Triplet) : List Nat :=
  EMITW (0x04518000 ||| c.MXM (REG XG) (REG XS) 0x00)

def svrmx_ld (c : Core) (XG MS : Triplet) (DS : Imm) : List Nat :=
  c.AUW (SIB MS) none none (some (MOD MS)) (some (VAL DS)) (some (c.A1 DS)) none ++
  EMITW (0x85804000 ||| c.MPM c.TmmM (MOD MS) (VAL DS) (c.B3 DS) (c.F1 DS)) ++
  EMITW (0x04518000 ||| c.MXM (REG XG) c.TmmM 0x00)

def svrmx3rr (c : Core) (XD XS XT : Triplet) : List Nat :=
  movmx_rr c XD XS ++
  svrmx_rr c XD XT

def svrmx3ld (c : Core) (XD XS MT : Triplet) (DT : Imm) : List Nat :=
  movmx_rr c XD XS ++
  svrmx_ld c XD MT DT

def svrmn_rr (c : Core) (XG XS : Triplet) : List Nat :=
  EMITW (0x04508000 ||| c.MXM (REG XG) (REG XS) 0x00)

def svrmn_ld (c : Core) (XG MS : Triplet) (DS : Imm) : List Nat :=
  c.AUW (SIB MS) none none (some (MOD MS)) (some (VAL DS)) (some (c.A1 DS)) none ++
  EMITW (0x85804000 ||| c.MPM c.TmmM (MOD MS) (VAL DS) (c.B3 DS) (c.F1 DS)) ++
  EMITW (0x04508000 ||| c.MXM (REG XG) c.TmmM 0x00)

def svrmn3rr (c : Core) (XD XS XT : Triplet) : List Nat :=
  movmx_rr c XD XS ++
  svrmn_rr c XD XT

def svrmn3ld (c : Core) (XD XS MT : Triplet) (DT : Imm) : List Nat :=
  movmx_rr c XD XS ++
  svrmn_ld c XD MT DT

end SVE

/-! ## x86 SSE register pairs, `rtarch_xHB_128x2v4.h` -/

namespace X86

/-- A displacement argument as it is written in the header: one of the offsets
into the scratch areas of the SIMD info block that the header names itself
(`inf_SCR01(nx)`, `inf_SCR02(nx)`, `inf_GPC07`), or a displacement triplet
passed in by the caller. -/
inductive Disp where
  | inf_SCR01 (nx : Nat)
  | inf_SCR02 (nx : Nat)
  | inf_GPC07
  | arg (D : Imm)
deriving DecidableEq, Repr

/-- The operand triplets of the fixed registers that the header names itself
(their definitions are in the x86 core header): the
implicit mask register `Xmm0`, the info-block addressing mode `Mebp` and the
count register `Recx`. -/
structure Regs where
  Xmm0 : Triplet
  Mebp : Triplet
  Recx : Triplet

/-- The parts of the x86 core header used by the SIMD encoders and defined
outside this header: the prefixes `ADR` and `ESC`, the byte
emitters `REX`, `EMITB`, `EMITW`, `MRM`, `AUX`, the second-half displacement
`VYL`, the info-block offsets, and the BASE instructions used by the per-lane
shift loops. -/
structure Core where
  ADR : List Nat
  ESC : List Nat
  REX : Nat → Nat → List Nat
  EMITB : Nat → List Nat
  EMITW : Nat → List Nat
  MRM : Nat → Nat → Nat → List Nat
  AUX : List Nat → List Nat → List Nat → List Nat
  RXB : Triplet → Nat
  VYL : Imm → Nat
  inf_SCR01 : Nat → Imm
  inf_SCR02 : Nat → Imm
  inf_GPC07 : Imm
  stack_st : Triplet → List Nat
  stack_ld : Triplet → List Nat
  movhx_ld : Triplet → Triplet → Imm → List Nat
  shlhx_mx : Triplet → Imm → List Nat
  shrhx_mx : Triplet → Imm → List Nat
  shrhn_mx : Triplet → Imm → List Nat

/-- The displacement triplet a displacement argument stands for. -/
def Disp.imm (c : Core) : Disp → Imm
  | .inf_SCR01 nx => c.inf_SCR01 nx
  | .inf_SCR02 nx => c.inf_SCR02 nx
  | .inf_GPC07 => c.inf_GPC07
  | .arg D => D

/-! ### encoders whose body emits bytes directly -/

def movax_rr (c : Core) (XD XS : Triplet) : List Nat :=
  c.REX 0 0 ++ c.EMITB 0x0F ++ c.EMITB 0x28 ++
  c.MRM (REG XD) (MOD XS) (REG XS) ++
  c.REX 1 1 ++ c.EMITB 0x0F ++ c.EMITB 0x28 ++
  c.MRM (REG XD) (MOD XS) (REG XS)

def movax_ld (c : Core) (XD MS : Triplet) (DS : Imm) : List Nat :=
  c.ADR ++ c.REX 0 (c.RXB MS) ++ c.EMITB 0x0F ++ c.EMITB 0x28 ++
  c.MRM (REG XD) 0x02 (REG MS) ++
  c.AUX (SIB MS) (c.EMITW (VAL DS)) EMPTY ++
  c.ADR ++ c.REX 1 (c.RXB MS) ++ c.EMITB 0x0F ++ c.EMITB 0x28 ++
  c.MRM (REG XD) 0x02 (REG MS) ++
  c.AUX (SIB MS) (c.EMITW (c.VYL DS)) EMPTY

def movax_st (c : Core) (XS MD : Triplet) (DD : Imm) : List Nat :=
  c.ADR ++ c.REX 0 (c.RXB MD) ++ c.EMITB 0x0F ++ c.EMITB 0x29 ++
  c.MRM (REG XS) 0x02 (REG MD) ++
  c.AUX (SIB MD) (c.EMITW (VAL DD)) EMPTY ++
  c.ADR ++ c.REX 1 (c.RXB MD) ++ c.EMITB 0x0F ++ c.EMITB 0x29 ++
  c.MRM (REG XS) 0x02 (REG MD) ++
  c.AUX (SIB MD) (c.EMITW (c.VYL DD)) EMPTY

def andax_rr (c : Core) (XG XS : Triplet) : List Nat :=
  c.ESC ++ c.REX 0 0 ++ c.EMITB 0x0F ++ c.EMITB 0xDB ++
  c.MRM (REG XG) (MOD XS) (REG XS) ++
  c.ESC ++ c.REX 1 1 ++ c.EMITB 0x0F ++ c.EMITB 0xDB ++
  c.MRM (REG XG) (MOD XS) (REG XS)

def andax_ld (c : Core) (XG MS : Triplet) (DS : Imm) : List Nat :=
  c.ADR ++ c.ESC ++ c.REX 0 (c.RXB MS) ++ c.EMITB 0x0F ++ c.EMITB 0xDB ++
  c.MRM (REG XG) 0x02 (REG MS) ++
  c.AUX (SIB MS) (c.EMITW (VAL DS)) EMPTY ++
  c.ADR ++ c.ESC ++ c.REX 1 (c.RXB MS) ++ c.EMITB 0x0F ++ c.EMITB 0xDB ++
  c.MRM (REG XG) 0x02 (REG MS) ++
  c.AUX (SIB MS) (c.EMITW (c.VYL DS)) EMPTY

def annax_rr (c : Core) (XG XS : Triplet) : List Nat :=
  c.ESC ++ c.REX 0 0 ++ c.EMITB 0x0F ++ c.EMITB 0xDF ++
  c.MRM (REG XG) (MOD XS) (REG XS) ++
  c.ESC ++ c.REX 1 1 ++ c.EMITB 0x0F ++ c.EMITB 0xDF ++
  c.MRM (REG XG) (MOD XS) (REG XS)

def annax_ld (c : Core) (XG MS : Triplet) (DS : Imm) : List Nat :=
  c.ADR ++ c.ESC ++ c.REX 0 (c.RXB MS) ++ c.EMITB 0x0F ++ c.EMITB 0xDF ++
  c.MRM (REG XG) 0x02 (REG MS) ++
  c.AUX (SIB MS) (c.EMITW (VAL DS)) EMPTY ++
  c.ADR ++ c.ESC ++ c.REX 1 (c.RXB MS) ++ c.EMITB 0x0F ++ c.EMITB 0xDF ++
  c.MRM (REG XG) 0x02 (REG MS) ++
  c.AUX (SIB MS) (c.EMITW (c.VYL DS)) EMPTY

def orrax_rr (c : Core) (XG XS : Triplet) : List Nat :=
  c.ESC ++ c.REX 0 0 ++ c.EMITB 0x0F ++ c.EMITB 0xEB ++
  c.MRM (REG XG) (MOD XS) (REG XS) ++
  c.ESC ++ c.REX 1 1 ++ c.EMITB 0x0F ++ c.EMITB 0xEB ++
  c.MRM (REG XG) (MOD XS) (REG XS)

def orrax_ld (c : Core) (XG MS : Triplet) (DS : Imm) : List Nat :=
  c.ADR ++ c.ESC ++ c.REX 0 (c.RXB MS) ++ c.EMITB 0x0F ++ c.EMITB 0xEB ++
  c.MRM (REG XG) 0x02 (REG MS) ++
  c.AUX (SIB MS) (c.EMITW (VAL DS)) EMPTY ++
  c.ADR ++ c.ESC ++ c.REX 1 (c.RXB MS) ++ c.EMITB 0x0F ++ c.EMITB 0xEB ++
  c.MRM (REG XG) 0x02 (REG MS) ++
  c.AUX (SIB MS) (c.EMITW (c.VYL DS)) EMPTY

def xorax_rr (c : Core) (XG XS : Triplet) : List Nat :=
  c.ESC ++ c.REX 0 0 ++ c.EMITB 0x0F ++ c.EMITB 0xEF ++
  c.MRM (REG XG) (MOD XS) (REG XS) ++
  c.ESC ++ c.REX 1 1 ++ c.EMITB 0x0F ++ c.EMITB 0xEF ++
  c.MRM (REG XG) (MOD XS) (REG XS)

def xorax_ld (c : Core) (XG MS : Triplet) (DS : Imm) : List Nat :=
  c.ADR ++ c.ESC ++ c.REX 0 (c.RXB MS) ++ c.EMITB 0x0F ++ c.EMITB 0xEF ++
  c.MRM (REG XG) 0x02 (REG MS) ++
  c.AUX (SIB MS) (c.EMITW (VAL DS)) EMPTY ++
  c.ADR ++ c.ESC ++ c.REX 1 (c.RXB MS) ++ c.EMITB 0x0F ++ c.EMITB 0xEF ++
  c.MRM (REG XG) 0x02 (REG MS) ++
  c.AUX (SIB MS) (c.EMITW (c.VYL DS)) EMPTY

def addax_rr (c : Core) (XG XS : Triplet) : List Nat :=
  c.ESC ++ c.REX 0 0 ++ c.EMITB 0x0F ++ c.EMITB 0xFD ++
  c.MRM (REG XG) (MOD XS) (REG XS) ++
  c.ESC ++ c.REX 1 1 ++ c.EMITB 0x0F ++ c.EMITB 0xFD ++
  c.MRM (REG XG) (MOD XS) (REG XS)

def addax_ld (c : Core) (XG MS : Triplet) (DS : Imm) : List Nat :=
  c.ADR ++ c.ESC ++ c.REX 0 (c.RXB MS) ++ c.EMITB 0x0F ++ c.EMITB 0xFD ++
  c.MRM (REG XG) 0x02 (REG MS) ++
  c.AUX (SIB MS) (c.EMITW (VAL DS)) EMPTY ++
  c.ADR ++ c.ESC ++ c.REX 1 (c.RXB MS) ++ c.EMITB 0x0F ++ c.EMITB 0xFD ++
  c.MRM (REG XG) 0x02 (REG MS) ++
  c.AUX (SIB MS) (c.EMITW (c.VYL DS)) EMPTY

def adsax_rr (c : Core) (XG XS : Triplet) : List Nat :=
  c.ESC ++ c.REX 0 0 ++ c.EMITB 0x0F ++ c.EMITB 0xDD ++
  c.MRM (REG XG) (MOD XS) (REG XS) ++
  c.ESC ++ c.REX 1 1 ++ c.EMITB 0x0F ++ c.EMITB 0xDD ++
  c.MRM (REG XG) (MOD XS) (REG XS)

def adsax_ld (c : Core) (XG MS : Triplet) (DS : Imm) : List Nat :=
  c.ADR ++ c.ESC ++ c.REX 0 (c.RXB MS) ++ c.EMITB 0x0F ++ c.EMITB 0xDD ++
  c.MRM (REG XG) 0x02 (REG MS) ++
  c.AUX (SIB MS) (c.EMITW (VAL DS)) EMPTY ++
  c.ADR ++ c.ESC ++ c.REX 1 (c.RXB MS) ++ c.EMITB 0x0F ++ c.EMITB 0xDD ++
  c.MRM (REG XG) 0x02 (REG MS) ++
  c.AUX (SIB MS) (c.EMITW (c.VYL DS)) EMPTY

def adsan_rr (c : Core) (XG XS : Triplet) : List Nat :=
  c.ESC ++ c.REX 0 0 ++ c.EMITB 0x0F ++ c.EMITB 0xED ++
  c.MRM (REG XG) (MOD XS) (REG XS) ++
  c.ESC ++ c.REX 1 1 ++ c.EMITB 0x0F ++ c.EMITB 0xED ++
  c.MRM (REG XG) (MOD XS) (REG XS)

def adsan_ld (c : Core) (XG MS : Triplet) (DS : Imm) : List Nat :=
  c.ADR ++ c.ESC ++ c.REX 0 (c.RXB MS) ++ c.EMITB 0x0F ++ c.EMITB 0xED ++
  c.MRM (REG XG) 0x02 (REG MS) ++
  c.AUX (SIB MS) (c.EMITW (VAL DS)) EMPTY ++
  c.ADR ++ c.ESC ++ c.REX 1 (c.RXB MS) ++ c.EMITB 0x0F ++ c.EMITB 0xED ++
  c.MRM (REG XG) 0x02 (REG MS) ++
  c.AUX (SIB MS) (c.EMITW (c.VYL DS)) EMPTY

def subax_rr (c : Core) (XG XS : Triplet) : List Nat :=
  c.ESC ++ c.REX 0 0 ++ c.EMITB 0x0F ++ c.EMITB 0xF9 ++
  c.MRM (REG XG) (MOD XS) (REG XS) ++
  c.ESC ++ c.REX 1 1 ++ c.EMITB 0x0F ++ c.EMITB 0xF9 ++
  c.MRM (REG XG) (MOD XS) (REG XS)

def subax_ld (c : Core) (XG MS : Triplet) (DS : Imm) : List Nat :=
  c.ADR ++ c.ESC ++ c.REX 0 (c.RXB MS) ++ c.EMITB 0x0F ++ c.EMITB 0xF9 ++
  c.MRM (REG XG) 0x02 (REG MS) ++
  c.AUX (SIB MS) (c.EMITW (VAL DS)) EMPTY ++
  c.ADR ++ c.ESC ++ c.REX 1 (c.RXB MS) ++ c.EMITB 0x0F ++ c.EMITB 0xF9 ++
  c.MRM (REG XG) 0x02 (REG MS) ++
  c.AUX (SIB MS) (c.EMITW (c.VYL DS)) EMPTY

def sbsax_rr (c : Core) (XG XS : Triplet) : List Nat :=
  c.ESC ++ c.REX 0 0 ++ c.EMITB 0x0F ++ c.EMITB 0xD9 ++
  c.MRM (REG XG) (MOD XS) (REG XS) ++
  c.ESC ++ c.REX 1 1 ++ c.EMITB 0x0F ++ c.EMITB 0xD9 ++
  c.MRM (REG XG) (MOD XS) (REG XS)

def sbsax_ld (c : Core) (XG MS : Triplet) (DS : Imm) : List Nat :=
  c.ADR ++ c.ESC ++ c.REX 0 (c.RXB MS) ++ c.EMITB 0x0F ++ c.EMITB 0xD9 ++
  c.MRM (REG XG) 0x02 (REG MS) ++
  c.AUX (SIB MS) (c.EMITW (VAL DS)) EMPTY ++
  c.ADR ++ c.ESC ++ c.REX 1 (c.RXB MS) ++ c.EMITB 0x0F ++ c.EMITB 0xD9 ++
  c.MRM (REG XG) 0x02 (REG MS) ++
  c.AUX (SIB MS) (c.EMITW (c.VYL DS)) EMPTY

def sbsan_rr (c : Core) (XG XS : Triplet) : List Nat :=
  c.ESC ++ c.REX 0 0 ++ c.EMITB 0x0F ++ c.EMITB 0xE9 ++
  c.MRM (REG XG) (MOD XS) (REG XS) ++
  c.ESC ++ c.REX 1 1 ++ c.EMITB 0x0F ++ c.EMITB 0xE9 ++
  c.MRM (REG XG) (MOD XS) (REG XS)

def sbsan_ld (c : Core) (XG MS : Triplet) (DS : Imm) : List Nat :=
  c.ADR ++ c.ESC ++ c.REX 0 (c.RXB MS) ++ c.EMITB 0x0F ++ c.EMITB 0xE9 ++
  c.MRM (REG XG) 0x02 (REG MS) ++
  c.AUX (SIB MS) (c.EMITW (VAL DS)) EMPTY ++
  c.ADR ++ c.ESC ++ c.REX 1 (c.RXB MS) ++ c.EMITB 0x0F ++ c.EMITB 0xE9 ++
  c.MRM (REG XG) 0x02 (REG MS) ++
  c.AUX (SIB MS) (c.EMITW (c.VYL DS)) EMPTY

def mulax_rr (c : Core) (XG XS : Triplet) : List Nat :=
  c.ESC ++ c.REX 0 0 ++ c.EMITB 0x0F ++ c.EMITB 0xD5 ++
  c.MRM (REG XG) (MOD XS) (REG XS) ++
  c.ESC ++ c.REX 1 1 ++ c.EMITB 0x0F ++ c.EMITB 0xD5 ++
  c.MRM (REG XG) (MOD XS) (REG XS)

def mulax_ld (c : Core) (XG MS : Triplet) (DS : Imm) : List Nat :=
  c.ADR ++ c.ESC ++ c.REX 0 (c.RXB MS) ++ c.EMITB 0x0F ++ c.EMITB 0xD5 ++
  c.MRM (REG XG) 0x02 (REG MS) ++
  c.AUX (SIB MS) (c.EMITW (VAL DS)) EMPTY ++
  c.ADR ++ c.ESC ++ c.REX 1 (c.RXB MS) ++ c.EMITB 0x0F ++ c.EMITB 0xD5 ++
  c.MRM (REG XG) 0x02 (REG MS) ++
  c.AUX (SIB MS) (c.EMITW (c.VYL DS)) EMPTY

def shlax_ri (c : Core) (XG : Triplet) (IS : Imm) : List Nat :=
  c.ESC ++ c.REX 0 0 ++ c.EMITB 0x0F ++ c.EMITB 0x71 ++
  c.MRM 0x06 (MOD XG) (REG XG) ++
  c.AUX EMPTY EMPTY (c.EMITB (VAL IS)) ++
  c.ESC ++ c.REX 0 1 ++ c.EMITB 0x0F ++ c.EMITB 0x71 ++
  c.MRM 0x06 (MOD XG) (REG XG) ++
  c.AUX EMPTY EMPTY (c.EMITB (VAL IS))

def shlax_ld (c : Core) (XG MS : Triplet) (DS : Imm) : List Nat :=
  c.ADR ++ c.ESC ++ c.REX 0 (c.RXB MS) ++ c.EMITB 0x0F ++ c.EMITB 0xF1 ++
  c.MRM (REG XG) 0x02 (REG MS) ++
  c.AUX (SIB MS) (c.EMITW (VAL DS)) EMPTY ++
  c.ADR ++ c.ESC ++ c.REX 1 (c.RXB MS) ++ c.EMITB 0x0F ++ c.EMITB 0xF1 ++
  c.MRM (REG XG) 0x02 (REG MS) ++
  c.AUX (SIB MS) (c.EMITW (VAL DS)) EMPTY

def shrax_ri (c : Core) (XG : Triplet) (IS : Imm) : List Nat :=
  c.ESC ++ c.REX 0 0 ++ c.EMITB 0x0F ++ c.EMITB 0x71 ++
  c.MRM 0x02 (MOD XG) (REG XG) ++
  c.AUX EMPTY EMPTY (c.EMITB (VAL IS)) ++
  c.ESC ++ c.REX 0 1 ++ c.EMITB 0x0F ++ c.EMITB 0x71 ++
  c.MRM 0x02 (MOD XG) (REG XG) ++
  c.AUX EMPTY EMPTY (c.EMITB (VAL IS))

def shrax_ld (c : Core) (XG MS : Triplet) (DS : Imm) : List Nat :=
  c.ADR ++ c.ESC ++ c.REX 0 (c.RXB MS) ++ c.EMITB 0x0F ++ c.EMITB 0xD1 ++
  c.MRM (REG XG) 0x02 (REG MS) ++
  c.AUX (SIB MS) (c.EMITW (VAL DS)) EMPTY ++
  c.ADR ++ c.ESC ++ c.REX 1 (c.RXB MS) ++ c.EMITB 0x0F ++ c.EMITB 0xD1 ++
  c.MRM (REG XG) 0x02 (REG MS) ++
  c.AUX (SIB MS) (c.EMITW (VAL DS)) EMPTY

def shran_ri (c : Core) (XG : Triplet) (IS : Imm) : List Nat :=
  c.ESC ++ c.REX 0 0 ++ c.EMITB 0x0F ++ c.EMITB 0x71 ++
  c.MRM 0x04 (MOD XG) (REG XG) ++
  c.AUX EMPTY EMPTY (c.EMITB (VAL IS)) ++
  c.ESC ++ c.REX 0 1 ++ c.EMITB 0x0F ++ c.EMITB 0x71 ++
  c.MRM 0x04 (MOD XG) (REG XG) ++
  c.AUX EMPTY EMPTY (c.EMITB (VAL IS))

def shran_ld (c : Core) (XG MS : Triplet) (DS : Imm) : List Nat :=
  c.ADR ++ c.ESC ++ c.REX 0 (c.RXB MS) ++ c.EMITB 0x0F ++ c.EMITB 0xE1 ++
  c.MRM (REG XG) 0x02 (REG MS) ++
  c.AUX (SIB MS) (c.EMITW (VAL DS)) EMPTY ++
  c.ADR ++ c.ESC ++ c.REX 1 (c.RXB MS) ++ c.EMITB 0x0F ++ c.EMITB 0xE1 ++
  c.MRM (REG XG) 0x02 (REG MS) ++
  c.AUX (SIB MS) (c.EMITW (VAL DS)) EMPTY

/-! ### encoders whose body invokes other encoders

Such a body is kept as the sequence of the invocations it makes: an `Op` is
one invocation of an encoder that emits bytes itself (or of a BASE
instruction of the core header), `Op.encode` gives its bytes and `emit` the
bytes of a sequence. -/

/-- One invocation of a byte-emitting encoder, with its arguments. -/
inductive Op where
  | movax_rr (XD XS : Triplet)
  | movax_ld (XD MS : Triplet) (DS : Disp)
  | movax_st (XS MD : Triplet) (DD : Disp)
  | andax_rr (XG XS : Triplet)
  | andax_ld (XG MS : Triplet) (DS : Disp)
  | annax_rr (XG XS : Triplet)
  | annax_ld (XG MS : Triplet) (DS : Disp)
  | orrax_rr (XG XS : Triplet)
  | orrax_ld (XG MS : Triplet) (DS : Disp)
  | xorax_rr (XG XS : Triplet)
  | xorax_ld (XG MS : Triplet) (DS : Disp)
  | addax_rr (XG XS : Triplet)
  | addax_ld (XG MS : Triplet) (DS : Disp)
  | adsax_rr (XG XS : Triplet)
  | adsax_ld (XG MS : Triplet) (DS : Disp)
  | adsan_rr (XG XS : Triplet)
  | adsan_ld (XG MS : Triplet) (DS : Disp)
  | subax_rr (XG XS : Triplet)
  | subax_ld (XG MS : Triplet) (DS : Disp)
  | sbsax_rr (XG XS : Triplet)
  | sbsax_ld (XG MS : Triplet) (DS : Disp)
  | sbsan_rr (XG XS : Triplet)
  | sbsan_ld (XG MS : Triplet) (DS : Disp)
  | mulax_rr (XG XS : Triplet)
  | mulax_ld (XG MS : Triplet) (DS : Disp)
  | shlax_ri (XG : Triplet) (IS : Imm)
  | shlax_ld (XG MS : Triplet) (DS : Disp)
  | shrax_ri (XG : Triplet) (IS : Imm)
  | shrax_ld (XG MS : Triplet) (DS : Disp)
  | shran_ri (XG : Triplet) (IS : Imm)
  | shran_ld (XG MS : Triplet) (DS : Disp)
  | stack_st (RS : Triplet)
  | stack_ld (RD : Triplet)
  | movhx_ld (RD MS : Triplet) (DS : Disp)
  | shlhx_mx (MG : Triplet) (DG : Disp)
  | shrhx_mx (MG : Triplet) (DG : Disp)
  | shrhn_mx (MG : Triplet) (DG : Disp)
deriving DecidableEq, Repr

/-- The bytes of one invocation. -/
def Op.encode (c : Core) : Op → List Nat
  | .movax_rr XD XS => X86.movax_rr c XD XS
  | .movax_ld XD MS DS => X86.movax_ld c XD MS (DS.imm c)
  | .movax_st XS MD DD => X86.movax_st c XS MD (DD.imm c)
  | .andax_rr XG XS => X86.andax_rr c XG XS
  | .andax_ld XG MS DS => X86.andax_ld c XG MS (DS.imm c)
  | .annax_rr XG XS => X86.annax_rr c XG XS
  | .annax_ld XG MS DS => X86.annax_ld c XG MS (DS.imm c)
  | .orrax_rr XG XS => X86.orrax_rr c XG XS
  | .orrax_ld XG MS DS => X86.orrax_ld c XG MS (DS.imm c)
  | .xorax_rr XG XS => X86.xorax_rr c XG XS
  | .xorax_ld XG MS DS => X86.xorax_ld c XG MS (DS.imm c)
  | .addax_rr XG XS => X86.addax_rr c XG XS
  | .addax_ld XG MS DS => X86.addax_ld c XG MS (DS.imm c)
  | .adsax_rr XG XS => X86.adsax_rr c XG XS
  | .adsax_ld XG MS DS => X86.adsax_ld c XG MS (DS.imm c)
  | .adsan_rr XG XS => X86.adsan_rr c XG XS
  | .adsan_ld XG MS DS => X86.adsan_ld c XG MS (DS.imm c)
  | .subax_rr XG XS => X86.subax_rr c XG XS
  | .subax_ld XG MS DS => X86.subax_ld c XG MS (DS.imm c)
  | .sbsax_rr XG XS => X86.sbsax_rr c XG XS
  | .sbsax_ld XG MS DS => X86.sbsax_ld c XG MS (DS.imm c)
  | .sbsan_rr XG XS => X86.sbsan_rr c XG XS
  | .sbsan_ld XG MS DS => X86.sbsan_ld c XG MS (DS.imm c)
  | .mulax_rr XG XS => X86.mulax_rr c XG XS
  | .mulax_ld XG MS DS => X86.mulax_ld c XG MS (DS.imm c)
  | .shlax_ri XG IS => X86.shlax_ri c XG IS
  | .shlax_ld XG MS DS => X86.shlax_ld c XG MS (DS.imm c)
  | .shrax_ri XG IS => X86.shrax_ri c XG IS
  | .shrax_ld XG MS DS => X86.shrax_ld c XG MS (DS.imm c)
  | .shran_ri XG IS => X86.shran_ri c XG IS
  | .shran_ld XG MS DS => X86.shran_ld c XG MS (DS.imm c)
  | .stack_st RS => c.stack_st RS
  | .stack_ld RD => c.stack_ld RD
  | .movhx_ld RD MS DS => c.movhx_ld RD MS (DS.imm c)
  | .shlhx_mx MG DG => c.shlhx_mx MG (DG.imm c)
  | .shrhx_mx MG DG => c.shrhx_mx MG (DG.imm c)
  | .shrhn_mx MG DG => c.shrhn_mx MG (DG.imm c)

/-- The bytes of a sequence of invocations, in program order. -/
def emit (c : Core) (p : List Op) : List Nat :=
  p.flatMap (Op.encode c)

def mmvax_rr (r : Regs) (XG XS : Triplet) : List Op :=
  [.andax_rr XS r.Xmm0] ++
  [.annax_rr r.Xmm0 XG] ++
  [.orrax_rr r.Xmm0 XS] ++
  [.movax_rr XG r.Xmm0]

def andax3rr (XD XS XT : Triplet) : List Op :=
  [.movax_rr XD XS] ++
  [.andax_rr XD XT]

def andax3ld (XD XS MT : Triplet) (DT : Disp) : List Op :=
  [.movax_rr XD XS] ++
  [.andax_ld XD MT DT]

def annax3rr (XD XS XT : Triplet) : List Op :=
  [.movax_rr XD XS] ++
  [.annax_rr XD XT]

def annax3ld (XD XS MT : Triplet) (DT : Disp) : List Op :=
  [.movax_rr XD XS] ++
  [.annax_ld XD MT DT]

def orrax3rr (XD XS XT : Triplet) : List Op :=
  [.movax_rr XD XS] ++
  [.orrax_rr XD XT]

def orrax3ld (XD XS MT : Triplet) (DT : Disp) : List Op :=
  [.movax_rr XD XS] ++
  [.orrax_ld XD MT DT]

def xorax3rr (XD XS XT : Triplet) : List Op :=
  [.movax_rr XD XS] ++
  [.xorax_rr XD XT]

def xorax3ld (XD XS MT : Triplet) (DT : Disp) : List Op :=
  [.movax_rr XD XS] ++
  [.xorax_ld XD MT DT]

def addax3rr (XD XS XT : Triplet) : List Op :=
  [.movax_rr XD XS] ++
  [.addax_rr XD XT]

def addax3ld (XD XS MT : Triplet) (DT : Disp) : List Op :=
  [.movax_rr XD XS] ++
  [.addax_ld XD MT DT]

def adsax3rr (XD XS XT : Triplet) : List Op :=
  [.movax_rr XD XS] ++
  [.adsax_rr XD XT]

def adsax3ld (XD XS MT : Triplet) (DT : Disp) : List Op :=
  [.movax_rr XD XS] ++
  [.adsax_ld XD MT DT]

def adsan3rr (XD XS XT : Triplet) : List Op :=
  [.movax_rr XD XS] ++
  [.adsan_rr XD XT]

def adsan3ld (XD XS MT : Triplet) (DT : Disp) : List Op :=
  [.movax_rr XD XS] ++
  [.adsan_ld XD MT DT]

def subax3rr (XD XS XT : Triplet) : List Op :=
  [.movax_rr XD XS] ++
  [.subax_rr XD XT]

def subax3ld (XD XS MT : Triplet) (DT : Disp) : List Op :=
  [.movax_rr XD XS] ++
  [.subax_ld XD MT DT]

def sbsax3rr (XD XS XT : Triplet) : List Op :=
  [.movax_rr XD XS] ++
  [.sbsax_rr XD XT]

def sbsax3ld (XD XS MT : Triplet) (DT : Disp) : List Op :=
  [.movax_rr XD XS] ++
  [.sbsax_ld XD MT DT]

def sbsan3rr (XD XS XT : Triplet) : List Op :=
  [.movax_rr XD XS] ++
  [.sbsan_rr XD XT]

def sbsan3ld (XD XS MT : Triplet) (DT : Disp) : List Op :=
  [.movax_rr XD XS] ++
  [.sbsan_ld XD MT DT]

def mulax3rr (XD XS XT : Triplet) : List Op :=
  [.movax_rr XD XS] ++
  [.mulax_rr XD XT]

def mulax3ld (XD XS MT : Triplet) (DT : Disp) : List Op :=
  [.movax_rr XD XS] ++
  [.mulax_ld XD MT DT]

def shlax3ri (XD XS : Triplet) (IT : Imm) : List Op :=
  [.movax_rr XD XS] ++
  [.shlax_ri XD IT]

def shlax3ld (XD XS MT : Triplet) (DT : Disp) : List Op :=
  [.movax_rr XD XS] ++
  [.shlax_ld XD MT DT]

def shrax3ri (XD XS : Triplet) (IT : Imm) : List Op :=
  [.movax_rr XD XS] ++
  [.shrax_ri XD IT]

def shrax3ld (XD XS MT : Triplet) (DT : Disp) : List Op :=
  [.movax_rr XD XS] ++
  [.shrax_ld XD MT DT]

def shran3ri (XD XS : Triplet) (IT : Imm) : List Op :=
  [.movax_rr XD XS] ++
  [.shran_ri XD IT]

def shran3ld (XD XS MT : Triplet) (DT : Disp) : List Op :=
  [.movax_rr XD XS] ++
  [.shran_ld XD MT DT]

def svlax_xx (r : Regs) : List Op :=
  [.stack_st r.Recx] ++
  [.movhx_ld r.Recx r.Mebp (.inf_SCR02 0x00)] ++
  [.shlhx_mx r.Mebp (.inf_SCR01 0x00)] ++
  [.movhx_ld r.Recx r.Mebp (.inf_SCR02 0x02)] ++
  [.shlhx_mx r.Mebp (.inf_SCR01 0x02)] ++
  [.movhx_ld r.Recx r.Mebp (.inf_SCR02 0x04)] ++
  [.shlhx_mx r.Mebp (.inf_SCR01 0x04)] ++
  [.movhx_ld r.Recx r.Mebp (.inf_SCR02 0x06)] ++
  [.shlhx_mx r.Mebp (.inf_SCR01 0x06)] ++
  [.movhx_ld r.Recx r.Mebp (.inf_SCR02 0x08)] ++
  [.shlhx_mx r.Mebp (.inf_SCR01 0x08)] ++
  [.movhx_ld r.Recx r.Mebp (.inf_SCR02 0x0A)] ++
  [.shlhx_mx r.Mebp (.inf_SCR01 0x0A)] ++
  [.movhx_ld r.Recx r.Mebp (.inf_SCR02 0x0C)] ++
  [.shlhx_mx r.Mebp (.inf_SCR01 0x0C)] ++
  [.movhx_ld r.Recx r.Mebp (.inf_SCR02 0x0E)] ++
  [.shlhx_mx r.Mebp (.inf_SCR01 0x0E)] ++
  [.movhx_ld r.Recx r.Mebp (.inf_SCR02 0x10)] ++
  [.shlhx_mx r.Mebp (.inf_SCR01 0x10)] ++
  [.movhx_ld r.Recx r.Mebp (.inf_SCR02 0x12)] ++
  [.shlhx_mx r.Mebp (.inf_SCR01 0x12)] ++
  [.movhx_ld r.Recx r.Mebp (.inf_SCR02 0x14)] ++
  [.shlhx_mx r.Mebp (.inf_SCR01 0x14)] ++
  [.movhx_ld r.Recx r.Mebp (.inf_SCR02 0x16)] ++
  [.shlhx_mx r.Mebp (.inf_SCR01 0x16)] ++
  [.movhx_ld r.Recx r.Mebp (.inf_SCR02 0x18)] ++
  [.shlhx_mx r.Mebp (.inf_SCR01 0x18)] ++
  [.movhx_ld r.Recx r.Mebp (.inf_SCR02 0x1A)] ++
  [.shlhx_mx r.Mebp (.inf_SCR01 0x1A)] ++
  [.movhx_ld r.Recx r.Mebp (.inf_SCR02 0x1C)] ++
  [.shlhx_mx r.Mebp (.inf_SCR01 0x1C)] ++
  [.movhx_ld r.Recx r.Mebp (.inf_SCR02 0x1E)] ++
  [.shlhx_mx r.Mebp (.inf_SCR01 0x1E)] ++
  [.stack_ld r.Recx]

def svlax3rr (r : Regs) (XD XS XT : Triplet) : List Op :=
  [.movax_st XS r.Mebp (.inf_SCR01 0)] ++
  [.movax_st XT r.Mebp (.inf_SCR02 0)] ++
  svlax_xx r ++
  [.movax_ld XD r.Mebp (.inf_SCR01 0)]

def svrax_xx (r : Regs) : List Op :=
  [.stack_st r.Recx] ++
  [.movhx_ld r.Recx r.Mebp (.inf_SCR02 0x00)] ++
  [.shrhx_mx r.Mebp (.inf_SCR01 0x00)] ++
  [.movhx_ld r.Recx r.Mebp (.inf_SCR02 0x02)] ++
  [.shrhx_mx r.Mebp (.inf_SCR01 0x02)] ++
  [.movhx_ld r.Recx r.Mebp (.inf_SCR02 0x04)] ++
  [.shrhx_mx r.Mebp (.inf_SCR01 0x04)] ++
  [.movhx_ld r.Recx r.Mebp (.inf_SCR02 0x06)] ++
  [.shrhx_mx r.Mebp (.inf_SCR01 0x06)] ++
  [.movhx_ld r.Recx r.Mebp (.inf_SCR02 0x08)] ++
  [.shrhx_mx r.Mebp (.inf_SCR01 0x08)] ++
  [.movhx_ld r.Recx r.Mebp (.inf_SCR02 0x0A)] ++
  [.shrhx_mx r.Mebp (.inf_SCR01 0x0A)] ++
  [.movhx_ld r.Recx r.Mebp (.inf_SCR02 0x0C)] ++
  [.shrhx_mx r.Mebp (.inf_SCR01 0x0C)] ++
  [.movhx_ld r.Recx r.Mebp (.inf_SCR02 0x0E)] ++
  [.shrhx_mx r.Mebp (.inf_SCR01 0x0E)] ++
  [.movhx_ld r.Recx r.Mebp (.inf_SCR02 0x10)] ++
  [.shrhx_mx r.Mebp (.inf_SCR01 0x10)] ++
  [.movhx_ld r.Recx r.Mebp (.inf_SCR02 0x12)] ++
  [.shrhx_mx r.Mebp (.inf_SCR01 0x12)] ++
  [.movhx_ld r.Recx r.Mebp (.inf_SCR02 0x14)] ++
  [.shrhx_mx r.Mebp (.inf_SCR01 0x14)] ++
  [.movhx_ld r.Recx r.Mebp (.inf_SCR02 0x16)] ++
  [.shrhx_mx r.Mebp (.inf_SCR01 0x16)] ++
  [.movhx_ld r.Recx r.Mebp (.inf_SCR02 0x18)] ++
  [.shrhx_mx r.Mebp (.inf_SCR01 0x18)] ++
  [.movhx_ld r.Recx r.Mebp (.inf_SCR02 0x1A)] ++
  [.shrhx_mx r.Mebp (.inf_SCR01 0x1A)] ++
  [.movhx_ld r.Recx r.Mebp (.inf_SCR02 0x1C)] ++
  [.shrhx_mx r.Mebp (.inf_SCR01 0x1C)] ++
  [.movhx_ld r.Recx r.Mebp (.inf_SCR02 0x1E)] ++
  [.shrhx_mx r.Mebp (.inf_SCR01 0x1E)] ++
  [.stack_ld r.Recx]

def svrax3rr (r : Regs) (XD XS XT : Triplet) : List Op :=
  [.movax_st XS r.Mebp (.inf_SCR01 0)] ++
  [.movax_st XT r.Mebp (.inf_SCR02 0)] ++
  svrax_xx r ++
  [.movax_ld XD r.Mebp (.inf_SCR01 0)]

def svran_xx (r : Regs) : List Op :=
  [.stack_st r.Recx] ++
  [.movhx_ld r.Recx r.Mebp (.inf_SCR02 0x00)] ++
  [.shrhn_mx r.Mebp (.inf_SCR01 0x00)] ++
  [.movhx_ld r.Recx r.Mebp (.inf_SCR02 0x02)] ++
  [.shrhn_mx r.Mebp (.inf_SCR01 0x02)] ++
  [.movhx_ld r.Recx r.Mebp (.inf_SCR02 0x04)] ++
  [.shrhn_mx r.Mebp (.inf_SCR01 0x04)] ++
  [.movhx_ld r.Recx r.Mebp (.inf_SCR02 0x06)] ++
  [.shrhn_mx r.Mebp (.inf_SCR01 0x06)] ++
  [.movhx_ld r.Recx r.Mebp (.inf_SCR02 0x08)] ++
  [.shrhn_mx r.Mebp (.inf_SCR01 0x08)] ++
  [.movhx_ld r.Recx r.Mebp (.inf_SCR02 0x0A)] ++
  [.shrhn_mx r.Mebp (.inf_SCR01 0x0A)] ++
  [.movhx_ld r.Recx r.Mebp (.inf_SCR02 0x0C)] ++
  [.shrhn_mx r.Mebp (.inf_SCR01 0x0C)] ++
  [.movhx_ld r.Recx r.Mebp (.inf_SCR02 0x0E)] ++
  [.shrhn_mx r.Mebp (.inf_SCR01 0x0E)] ++
  [.movhx_ld r.Recx r.Mebp (.inf_SCR02 0x10)] ++
  [.shrhn_mx r.Mebp (.inf_SCR01 0x10)] ++
  [.movhx_ld r.Recx r.Mebp (.inf_SCR02 0x12)] ++
  [.shrhn_mx r.Mebp (.inf_SCR01 0x12)] ++
  [.movhx_ld r.Recx r.Mebp (.inf_SCR02 0x14)] ++
  [.shrhn_mx r.Mebp (.inf_SCR01 0x14)] ++
  [.movhx_ld r.Recx r.Mebp (.inf_SCR02 0x16)] ++
  [.shrhn_mx r.Mebp (.inf_SCR01 0x16)] ++
  [.movhx_ld r.Recx r.Mebp (.inf_SCR02 0x18)] ++
  [.shrhn_mx r.Mebp (.inf_SCR01 0x18)] ++
  [.movhx_ld r.Recx r.Mebp (.inf_SCR02 0x1A)] ++
  [.shrhn_mx r.Mebp (.inf_SCR01 0x1A)] ++
  [.movhx_ld r.Recx r.Mebp (.inf_SCR02 0x1C)] ++
  [.shrhn_mx r.Mebp (.inf_SCR01 0x1C)] ++
  [.movhx_ld r.Recx r.Mebp (.inf_SCR02 0x1E)] ++
  [.shrhn_mx r.Mebp (.inf_SCR01 0x1E)] ++
  [.stack_ld r.Recx]

def svran3rr (r : Regs) (XD XS XT : Triplet) : List Op :=
  [.movax_st XS r.Mebp (.inf_SCR01 0)] ++
  [.movax_st XT r.Mebp (.inf_SCR02 0)] ++
  svran_xx r ++
  [.movax_ld XD r.Mebp (.inf_SCR01 0)]

/-! ### the per-lane shift loop, as the specification words it -/

/-- Follows the specification's words for the scalar per-lane fallback: save
the count register, then for each of the 16 half-word lanes `i = 0, ..., 15`
in increasing order load the count of lane `i` (byte offset `2 * i` of the
count buffer `inf_SCR02`) into `Recx` and issue one scalar shift `sh` on the
lane at the same byte offset of the operand buffer `inf_SCR01`, then restore
the count register. -/
def perLaneLoop (r : Regs) (sh : Triplet → Disp → Op) : List Op :=
  [Op.stack_st r.Recx] ++
  (List.range 16).flatMap (fun i =>
    [Op.movhx_ld r.Recx r.Mebp (.inf_SCR02 (2 * i)), sh r.Mebp (.inf_SCR01 (2 * i))]) ++
  [Op.stack_ld r.Recx]

/-- The byte offset into the operand buffer `inf_SCR01` of the half-word that
an invocation shifts, for the three scalar shifts by `Recx`. -/
def Op.shiftedLane : Op → Option Nat
  | .shlhx_mx _ (.inf_SCR01 nx) => some nx
  | .shrhx_mx _ (.inf_SCR01 nx) => some nx
  | .shrhn_mx _ (.inf_SCR01 nx) => some nx
  | _ => none

/-- The byte offset into the count buffer `inf_SCR02` from which an invocation
loads a half-word shift count. -/
def Op.countLane : Op → Option Nat
  | .movhx_ld _ _ (.inf_SCR02 nx) => some nx
  | _ => none

/-! ### documented meaning of the move/logic encoders -/

/-- The all-ones value of a 256-bit packed register. -/
def ones : Nat := 2 ^ 256 - 1

/-- A SIMD register file: the 256-bit value of the register of each index. -/
abbrev RegFile := Nat → Nat

/-- The register file after writing `v` to register `r`. -/
def RegFile.write (rf : RegFile) (r v : Nat) : RegFile :=
  fun i => if i = r then v else rf i

/-- The meaning the header documents for an invocation, on the register file:
`mov (D = S)`, `and (G = G & S)`, `ann (G = ~G & S)`, `orr (G = G | S)`.
The bitwise complement of a 256-bit value is its exclusive-or with all-ones
(`xor_ones_eq_sub` below).  Other invocations are given no meaning here. -/
def Op.exec : Op → RegFile → Option RegFile
  | .movax_rr XD XS, rf => some (rf.write (REG XD) (rf (REG XS)))
  | .andax_rr XG XS, rf => some (rf.write (REG XG) (rf (REG XG) &&& rf (REG XS)))
  | .annax_rr XG XS, rf => some (rf.write (REG XG) ((rf (REG XG) ^^^ ones) &&& rf (REG XS)))
  | .orrax_rr XG XS, rf => some (rf.write (REG XG) (rf (REG XG) ||| rf (REG XS)))
  | _, _ => none

/-- Executes a sequence of invocations in program order. -/
def run : List Op → RegFile → Option RegFile
  | [], rf => some rf
  | op :: p, rf => (op.exec rf).bind (run p)

/-- The 16-bit lane `i` of a packed value. -/
def lane (i x : Nat) : Nat := (x >>> (16 * i)) % 2 ^ 16

end X86

/-! ## Conditions and negation inside an emitted expression -/

/-- Modelled from the spec: the value of a condition inside an emitted
expression, written `M(cond)` in the AArch64 header and `+(cond)` in the MIPS
header, whose comment reads "if true ^ equals to -1 (not 1)": a true condition
is the all-ones word, a false one is zero. -/
def M (cond : Bool) : Nat := if cond then 0xFFFFFFFF else 0

/-- The negation `-x` inside an emitted expression, as a 32-bit
two's-complement word. -/
def NEG (x : Nat) : Nat := (2 ^ 32 - x % 2 ^ 32) % 2 ^ 32

/-! ## POWER: masked merge and shifts by immediate -/

namespace Power

def mmvgx_rr (c : Core) (XG XS : Triplet) : List Nat :=
  EMITW (0xF000003F ||| c.MXM (REG XG) (REG XG) (REG XS))

def mmvgx_ld (c : Core) (XG MS : Triplet) (DS : Imm) : List Nat :=
  c.AUW (SIB MS) none none (some (MOD MS)) (some (VAL DS)) (some (c.C2 DS)) none ++
  EMITW (0x00000000 ||| c.MPM c.TmmM (MOD MS) (VAL DS) (c.B2 DS) (c.P2 DS)) ++
  EMITW (0xF000003F ||| c.MXM (REG XG) (REG XG) c.TmmM)

def shlgx3ri (c : Core) (XD XS : Triplet) (IT : Imm) : List Nat :=
  EMITW (0x1000034C ||| c.MXM c.TmmM (0x0F &&& VAL IT) 0x00) ++
  EMITW (0x10000144 ||| c.MXM (REG XD) (REG XS) c.TmmM)

def shlgx_ri (c : Core) (XG : Triplet) (IS : Imm) : List Nat :=
  shlgx3ri c XG XG IS

def shrgx3ri (c : Core) (XD XS : Triplet) (IT : Imm) : List Nat :=
  EMITW (0x1000034C ||| c.MXM c.TmmM (0x0F &&& VAL IT) 0x00) ++
  EMITW (0x10000244 ||| c.MXM (REG XD) (REG XS) c.TmmM)

def shrgx_ri (c : Core) (XG : Triplet) (IS : Imm) : List Nat :=
  shrgx3ri c XG XG IS

def shrgn3ri (c : Core) (XD XS : Triplet) (IT : Imm) : List Nat :=
  EMITW (0x1000034C ||| c.MXM c.TmmM (0x0F &&& VAL IT) 0x00) ++
  EMITW (0x10000344 ||| c.MXM (REG XD) (REG XS) c.TmmM)

def shrgn_ri (c : Core) (XG : Triplet) (IS : Imm) : List Nat :=
  shrgn3ri c XG XG IS

end Power

/-! ## AArch64 SVE: shifts by immediate -/

namespace SVE

def shlmx3ri (c : Core) (XD XS : Triplet) (IT : Imm) : List Nat :=
  EMITW (0x04309400 ||| c.MXM (REG XD) (REG XS) 0x00 |||
    (M (VAL IT < 16) &&& 0x00000800) ||| (M (VAL IT > 15) &&& 0x00000000) |||
    (0x0F &&& VAL IT) <<< 16)

def shlmx_ri (c : Core) (XG : Triplet) (IS : Imm) : List Nat :=
  shlmx3ri c XG XG IS

def shrmx3ri (c : Core) (XD XS : Triplet) (IT : Imm) : List Nat :=
  EMITW (0x04309400 ||| c.MXM (REG XD) (REG XS) 0x00 |||
    (M (VAL IT == 0) &&& 0x00000800) ||| (M (VAL IT != 0) &&& 0x00000000) |||
    (0x0F &&& NEG (VAL IT)) <<< 16)

def shrmx_ri (c : Core) (XG : Triplet) (IS : Imm) : List Nat :=
  shrmx3ri c XG XG IS

def shrmn3ri (c : Core) (XD XS : Triplet) (IT : Imm) : List Nat :=
  EMITW (0x04309000 ||| c.MXM (REG XD) (REG XS) 0x00 |||
    (M (VAL IT == 0) &&& 0x00000C00) ||| (M (VAL IT != 0) &&& 0x00000000) |||
    (0x0F &&& NEG (VAL IT)) <<< 16)

def shrmn_ri (c : Core) (XG : Triplet) (IS : Imm) : List Nat :=
  shrmn3ri c XG XG IS

/-- Modelled from the spec: a concrete instance of the AArch64 core (the core
header itself is missing), for evaluating the encoders on explicit operands.
The operand fields are packed by the base-OR-shifted-fields composition rule at
the positions of the A64 vector register fields (destination at bit 0, first
source at bit 5, second source at bit 16), the scratch registers are distinct
vector registers, the address set-up emits only the index fragment of the
addressing mode, and the memory-operand packer puts the register at bit 0, the
base at bit 5 and the displacement at bit 10. -/
def sampleCore : Core where
  Sel := Nat
  Tmm0 := 0x00
  TmmM := 0x1F
  TmmQ := 0x1E
  MXM := fun reg ren rem => rem <<< 16 ||| ren <<< 5 ||| reg
  A1 := fun D => D.typ
  B3 := fun D => D.typ
  F1 := fun D => D.typ
  C1 := fun D => D.typ
  B1 := fun D => D.typ
  P1 := fun D => D.typ
  VHL := fun D => D.val
  AUW := fun sib _ _ _ _ _ _ => sib
  MPM := fun reg brm vdp _ _ => vdp <<< 10 ||| brm <<< 5 ||| reg

end SVE

/-! ## x86 SSE register pairs: a concrete core -/

namespace X86

/-- Modelled from the spec: a concrete instance of the x86 core (the core
header itself is missing), for evaluating the byte-emitting encoders on
explicit operands.  `EMITB` emits its byte and `EMITW` the four bytes of a
displacement, low byte first; `AUX` emits its three arguments in order; `REX`
and `MRM` are the x86 REX prefix and ModRM byte, each one byte composed by the
base-OR-shifted-fields rule; `ESC` is the operand-size prefix and `ADR` is
empty; the second half of a register pair lies 16 bytes after the first.  The
info-block offsets and the BASE instructions of the per-lane loops are not
needed to evaluate an encoder whose body emits bytes directly: the offsets are
zero and the BASE instructions emit nothing here. -/
def sampleCore : Core where
  ADR := []
  ESC := [0x66]
  REX := fun rxg rxm => [0x40 ||| rxg <<< 2 ||| rxm]
  EMITB := fun b => [b]
  EMITW := fun w => [w % 256, w / 256 % 256, w / 65536 % 256, w / 16777216 % 256]
  MRM := fun reg mod rem => [mod <<< 6 ||| reg <<< 3 ||| rem]
  AUX := fun sib cdp cim => sib ++ cdp ++ cim
  RXB := fun _ => 0
  VYL := fun D => D.val + 0x10
  inf_SCR01 := fun _ => ⟨0, 0, 0⟩
  inf_SCR02 := fun _ => ⟨0, 0, 0⟩
  inf_GPC07 := ⟨0, 0, 0⟩
  stack_st := fun _ => []
  stack_ld := fun _ => []
  movhx_ld := fun _ _ _ => []
  shlhx_mx := fun _ _ => []
  shrhx_mx := fun _ _ => []
  shrhn_mx := fun _ _ => []

end X86

/-! ## MIPS64, `rtarch_m64.h` -/

namespace M64

/-- The parts of the MIPS core header used by the 64-bit BASE encoders and
defined outside this header: the ids of the fixed registers (`TLxx` holds the
flags, `TZxx` is the zero register, `TMxx`, `TIxx`, `TDxx` are scratch, `Tecx`
holds a shift count), the field packers `MRM`, `MDM`, `MIM`, the set-up `AUW`
of an address or immediate, and the selectors dispatching on the type of a
displacement or immediate.  `Sel` is the type of what a selector yields. -/
structure Core where
  Sel : Type
  TLxx : Nat
  TZxx : Nat
  TMxx : Nat
  TIxx : Nat
  TDxx : Nat
  Tecx : Nat
  C1 : Imm → Sel
  B1 : Imm → Sel
  P1 : Imm → Sel
  G1 : Imm → Sel
  G2 : Imm → Sel
  G3 : Imm → Sel
  T1 : Imm → Sel
  T2 : Imm → Sel
  M1 : Imm → Sel
  M2 : Imm → Sel
  TP1 : Imm → Nat
  TP2 : Imm → Nat
  AUW : List Nat → Option Nat → Option Nat → Option Nat → Option Nat →
    Option Sel → Option Sel → List Nat
  MRM : Nat → Nat → Nat → Nat
  MDM : Nat → Nat → Nat → Sel → Sel → Nat
  MIM : Nat → Nat → Nat → Sel → Option Sel → Nat

/-! ### mov -/

def movzx_rr (c : Core) (RD RS : Triplet) : List Nat :=
  EMITW (0x00000025 ||| c.MRM (REG RD) (REG RS) c.TZxx)

def movzx_ld (c : Core) (RD MS : Triplet) (DP : Imm) : List Nat :=
  c.AUW (SIB MS) none none (some (MOD MS)) (some (VAL DP)) (some (c.C1 DP)) none ++
  EMITW (0xDC000000 ||| c.MDM (REG RD) (MOD MS) (VAL DP) (c.B1 DP) (c.P1 DP))

def movzx_st (c : Core) (RS MD : Triplet) (DP : Imm) : List Nat :=
  c.AUW (SIB MD) none none (some (MOD MD)) (some (VAL DP)) (some (c.C1 DP)) none ++
  EMITW (0xFC000000 ||| c.MDM (REG RS) (MOD MD) (VAL DP) (c.B1 DP) (c.P1 DP))

/-! ### and -/

def andzx_ri (c : Core) (RG : Triplet) (IS : Imm) : List Nat :=
  c.AUW EMPTY (some (VAL IS)) (some c.TIxx) none none none (some (c.G2 IS)) ++
  EMITW (0x00000000 ||| c.MIM (REG RG) (REG RG) (VAL IS) (c.T2 IS) (some (c.M2 IS)) |||
    (M (c.TP2 IS == 0) &&& 0x30000000) ||| (M (c.TP2 IS != 0) &&& 0x00000024))

def andzx_rr (c : Core) (RG RS : Triplet) : List Nat :=
  EMITW (0x00000024 ||| c.MRM (REG RG) (REG RG) (REG RS))

def andzx_ld (c : Core) (RG MS : Triplet) (DP : Imm) : List Nat :=
  c.AUW (SIB MS) none none (some (MOD MS)) (some (VAL DP)) (some (c.C1 DP)) none ++
  EMITW (0xDC000000 ||| c.MDM c.TMxx (MOD MS) (VAL DP) (c.B1 DP) (c.P1 DP)) ++
  EMITW (0x00000024 ||| c.MRM (REG RG) (REG RG) c.TMxx)

def andzz_ri (c : Core) (RG : Triplet) (IS : Imm) : List Nat :=
  c.AUW EMPTY (some (VAL IS)) (some c.TIxx) none none none (some (c.G2 IS)) ++
  EMITW (0x00000000 ||| c.MIM (REG RG) (REG RG) (VAL IS) (c.T2 IS) (some (c.M2 IS)) |||
    (M (c.TP2 IS == 0) &&& 0x30000000) ||| (M (c.TP2 IS != 0) &&& 0x00000024)) ++
  EMITW (0x00000025 ||| c.MRM c.TLxx (REG RG) c.TZxx)

def andzz_rr (c : Core) (RG RS : Triplet) : List Nat :=
  EMITW (0x00000024 ||| c.MRM (REG RG) (REG RG) (REG RS)) ++
  EMITW (0x00000025 ||| c.MRM c.TLxx (REG RG) c.TZxx)

def andzz_ld (c : Core) (RG MS : Triplet) (DP : Imm) : List Nat :=
  c.AUW (SIB MS) none none (some (MOD MS)) (some (VAL DP)) (some (c.C1 DP)) none ++
  EMITW (0xDC000000 ||| c.MDM c.TMxx (MOD MS) (VAL DP) (c.B1 DP) (c.P1 DP)) ++
  EMITW (0x00000024 ||| c.MRM (REG RG) (REG RG) c.TMxx) ++
  EMITW (0x00000025 ||| c.MRM c.TLxx (REG RG) c.TZxx)

/-! ### orr -/

def orrzx_ri (c : Core) (RG : Triplet) (IS : Imm) : List Nat :=
  c.AUW EMPTY (some (VAL IS)) (some c.TIxx) none none none (some (c.G2 IS)) ++
  EMITW (0x00000000 ||| c.MIM (REG RG) (REG RG) (VAL IS) (c.T2 IS) (some (c.M2 IS)) |||
    (M (c.TP2 IS == 0) &&& 0x34000000) ||| (M (c.TP2 IS != 0) &&& 0x00000025))

def orrzx_rr (c : Core) (RG RS : Triplet) : List Nat :=
  EMITW (0x00000025 ||| c.MRM (REG RG) (REG RG) (REG RS))

def orrzx_ld (c : Core) (RG MS : Triplet) (DP : Imm) : List Nat :=
  c.AUW (SIB MS) none none (some (MOD MS)) (some (VAL DP)) (some (c.C1 DP)) none ++
  EMITW (0xDC000000 ||| c.MDM c.TMxx (MOD MS) (VAL DP) (c.B1 DP) (c.P1 DP)) ++
  EMITW (0x00000025 ||| c.MRM (REG RG) (REG RG) c.TMxx)

def orrzz_ri (c : Core) (RG : Triplet) (IS : Imm) : List Nat :=
  c.AUW EMPTY (some (VAL IS)) (some c.TIxx) none none none (some (c.G2 IS)) ++
  EMITW (0x00000000 ||| c.MIM (REG RG) (REG RG) (VAL IS) (c.T2 IS) (some (c.M2 IS)) |||
    (M (c.TP2 IS == 0) &&& 0x34000000) ||| (M (c.TP2 IS != 0) &&& 0x00000025)) ++
  EMITW (0x00000025 ||| c.MRM c.TLxx (REG RG) c.TZxx)

def orrzz_rr (c : Core) (RG RS : Triplet) : List Nat :=
  EMITW (0x00000025 ||| c.MRM (REG RG) (REG RG) (REG RS)) ++
  EMITW (0x00000025 ||| c.MRM c.TLxx (REG RG) c.TZxx)

def orrzz_ld (c : Core) (RG MS : Triplet) (DP : Imm) : List Nat :=
  c.AUW (SIB MS) none none (some (MOD MS)) (some (VAL DP)) (some (c.C1 DP)) none ++
  EMITW (0xDC000000 ||| c.MDM c.TMxx (MOD MS) (VAL DP) (c.B1 DP) (c.P1 DP)) ++
  EMITW (0x00000025 ||| c.MRM (REG RG) (REG RG) c.TMxx) ++
  EMITW (0x00000025 ||| c.MRM c.TLxx (REG RG) c.TZxx)

/-! ### xor -/

def xorzx_ri (c : Core) (RG : Triplet) (IS : Imm) : List Nat :=
  c.AUW EMPTY (some (VAL IS)) (some c.TIxx) none none none (some (c.G2 IS)) ++
  EMITW (0x00000000 ||| c.MIM (REG RG) (REG RG) (VAL IS) (c.T2 IS) (some (c.M2 IS)) |||
    (M (c.TP2 IS == 0) &&& 0x38000000) ||| (M (c.TP2 IS != 0) &&& 0x00000026))

def xorzx_rr (c : Core) (RG RS : Triplet) : List Nat :=
  EMITW (0x00000026 ||| c.MRM (REG RG) (REG RG) (REG RS))

def xorzx_ld (c : Core) (RG MS : Triplet) (DP : Imm) : List Nat :=
  c.AUW (SIB MS) none none (some (MOD MS)) (some (VAL DP)) (some (c.C1 DP)) none ++
  EMITW (0xDC000000 ||| c.MDM c.TMxx (MOD MS) (VAL DP) (c.B1 DP) (c.P1 DP)) ++
  EMITW (0x00000026 ||| c.MRM (REG RG) (REG RG) c.TMxx)

def xorzz_ri (c : Core) (RG : Triplet) (IS : Imm) : List Nat :=
  c.AUW EMPTY (some (VAL IS)) (some c.TIxx) none none none (some (c.G2 IS)) ++
  EMITW (0x00000000 ||| c.MIM (REG RG) (REG RG) (VAL IS) (c.T2 IS) (some (c.M2 IS)) |||
    (M (c.TP2 IS == 0) &&& 0x38000000) ||| (M (c.TP2 IS != 0) &&& 0x00000026)) ++
  EMITW (0x00000025 ||| c.MRM c.TLxx (REG RG) c.TZxx)

def xorzz_rr (c : Core) (RG RS : Triplet) : List Nat :=
  EMITW (0x00000026 ||| c.MRM (REG RG) (REG RG) (REG RS)) ++
  EMITW (0x00000025 ||| c.MRM c.TLxx (REG RG) c.TZxx)

def xorzz_ld (c : Core) (RG MS : Triplet) (DP : Imm) : List Nat :=
  c.AUW (SIB MS) none none (some (MOD MS)) (some (VAL DP)) (some (c.C1 DP)) none ++
  EMITW (0xDC000000 ||| c.MDM c.TMxx (MOD MS) (VAL DP) (c.B1 DP) (c.P1 DP)) ++
  EMITW (0x00000026 ||| c.MRM (REG RG) (REG RG) c.TMxx) ++
  EMITW (0x00000025 ||| c.MRM c.TLxx (REG RG) c.TZxx)

/-! ### neg -/

def negzx_rx (c : Core) (RG : Triplet) : List Nat :=
  EMITW (0x0000002F ||| c.MRM (REG RG) c.TZxx (REG RG))

def negzz_rx (c : Core) (RG : Triplet) : List Nat :=
  EMITW (0x0000002F ||| c.MRM (REG RG) c.TZxx (REG RG)) ++
  EMITW (0x00000025 ||| c.MRM c.TLxx (REG RG) c.TZxx)

/-! ### add -/

def addzx_ri (c : Core) (RG : Triplet) (IS : Imm) : List Nat :=
  c.AUW EMPTY (some (VAL IS)) (some c.TIxx) none none none (some (c.G1 IS)) ++
  EMITW (0x00000000 ||| c.MIM (REG RG) (REG RG) (VAL IS) (c.T1 IS) (some (c.M1 IS)) |||
    (M (c.TP1 IS == 0) &&& 0x64000000) ||| (M (c.TP1 IS != 0) &&& 0x0000002D))

def addzx_rr (c : Core) (RG RS : Triplet) : List Nat :=
  EMITW (0x0000002D ||| c.MRM (REG RG) (REG RG) (REG RS))

def addzx_ld (c : Core) (RG MS : Triplet) (DP : Imm) : List Nat :=
  c.AUW (SIB MS) none none (some (MOD MS)) (some (VAL DP)) (some (c.C1 DP)) none ++
  EMITW (0xDC000000 ||| c.MDM c.TMxx (MOD MS) (VAL DP) (c.B1 DP) (c.P1 DP)) ++
  EMITW (0x0000002D ||| c.MRM (REG RG) (REG RG) c.TMxx)

def addzz_ri (c : Core) (RG : Triplet) (IS : Imm) : List Nat :=
  c.AUW EMPTY (some (VAL IS)) (some c.TIxx) none none none (some (c.G1 IS)) ++
  EMITW (0x00000000 ||| c.MIM (REG RG) (REG RG) (VAL IS) (c.T1 IS) (some (c.M1 IS)) |||
    (M (c.TP1 IS == 0) &&& 0x64000000) ||| (M (c.TP1 IS != 0) &&& 0x0000002D)) ++
  EMITW (0x00000025 ||| c.MRM c.TLxx (REG RG) c.TZxx)

def addzz_rr (c : Core) (RG RS : Triplet) : List Nat :=
  EMITW (0x0000002D ||| c.MRM (REG RG) (REG RG) (REG RS)) ++
  EMITW (0x00000025 ||| c.MRM c.TLxx (REG RG) c.TZxx)

def addzz_ld (c : Core) (RG MS : Triplet) (DP : Imm) : List Nat :=
  c.AUW (SIB MS) none none (some (MOD MS)) (some (VAL DP)) (some (c.C1 DP)) none ++
  EMITW (0xDC000000 ||| c.MDM c.TMxx (MOD MS) (VAL DP) (c.B1 DP) (c.P1 DP)) ++
  EMITW (0x0000002D ||| c.MRM (REG RG) (REG RG) c.TMxx) ++
  EMITW (0x00000025 ||| c.MRM c.TLxx (REG RG) c.TZxx)

/-! ### sub -/

def subzx_ri (c : Core) (RG : Triplet) (IS : Imm) : List Nat :=
  c.AUW EMPTY (some (VAL IS)) (some c.TIxx) none none none (some (c.G1 IS)) ++
  EMITW (0x00000000 ||| c.MIM (REG RG) (REG RG) 0x00 (c.T1 IS) none |||
    (M (c.TP1 IS == 0) &&& (0x64000000 ||| (0xFFFF &&& NEG (VAL IS)))) |||
    (M (c.TP1 IS != 0) &&& (0x0000002F ||| c.TIxx <<< 16)))

def subzx_rr (c : Core) (RG RS : Triplet) : List Nat :=
  EMITW (0x0000002F ||| c.MRM (REG RG) (REG RG) (REG RS))

def subzx_ld (c : Core) (RG MS : Triplet) (DP : Imm) : List Nat :=
  c.AUW (SIB MS) none none (some (MOD MS)) (some (VAL DP)) (some (c.C1 DP)) none ++
  EMITW (0xDC000000 ||| c.MDM c.TMxx (MOD MS) (VAL DP) (c.B1 DP) (c.P1 DP)) ++
  EMITW (0x0000002F ||| c.MRM (REG RG) (REG RG) c.TMxx)

def subzz_ri (c : Core) (RG : Triplet) (IS : Imm) : List Nat :=
  c.AUW EMPTY (some (VAL IS)) (some c.TIxx) none none none (some (c.G1 IS)) ++
  EMITW (0x00000000 ||| c.MIM (REG RG) (REG RG) 0x00 (c.T1 IS) none |||
    (M (c.TP1 IS == 0) &&& (0x64000000 ||| (0xFFFF &&& NEG (VAL IS)))) |||
    (M (c.TP1 IS != 0) &&& (0x0000002F ||| c.TIxx <<< 16))) ++
  EMITW (0x00000025 ||| c.MRM c.TLxx (REG RG) c.TZxx)

def subzz_rr (c : Core) (RG RS : Triplet) : List Nat :=
  EMITW (0x0000002F ||| c.MRM (REG RG) (REG RG) (REG RS)) ++
  EMITW (0x00000025 ||| c.MRM c.TLxx (REG RG) c.TZxx)

def subzz_ld (c : Core) (RG MS : Triplet) (DP : Imm) : List Nat :=
  c.AUW (SIB MS) none none (some (MOD MS)) (some (VAL DP)) (some (c.C1 DP)) none ++
  EMITW (0xDC000000 ||| c.MDM c.TMxx (MOD MS) (VAL DP) (c.B1 DP) (c.P1 DP)) ++
  EMITW (0x0000002F ||| c.MRM (REG RG) (REG RG) c.TMxx) ++
  EMITW (0x00000025 ||| c.MRM c.TLxx (REG RG) c.TZxx)

/-! ### shl -/

def shlzx_rx (c : Core) (RG : Triplet) : List Nat :=
  EMITW (0x00000014 ||| c.MRM (REG RG) c.Tecx (REG RG))

def shlzx_ri (c : Core) (RG : Triplet) (IS : Imm) : List Nat :=
  EMITW (0x00000000 ||| c.MRM (REG RG) 0x00 (REG RG) |||
    (M (VAL IS < 32) &&& (0x00000038 ||| (0x1F &&& VAL IS) <<< 6)) |||
    (M (VAL IS > 31) &&& (0x0000003C ||| (0x1F &&& VAL IS) <<< 6)))

def shlzx_rr (c : Core) (RG RS : Triplet) : List Nat :=
  EMITW (0x00000014 ||| c.MRM (REG RG) (REG RS) (REG RG))

def shlzx_ld (c : Core) (RG MS : Triplet) (DP : Imm) : List Nat :=
  c.AUW (SIB MS) none none (some (MOD MS)) (some (VAL DP)) (some (c.C1 DP)) none ++
  EMITW (0xDC000000 ||| c.MDM c.TMxx (MOD MS) (VAL DP) (c.B1 DP) (c.P1 DP)) ++
  EMITW (0x00000014 ||| c.MRM (REG RG) c.TMxx (REG RG))

def shlzz_rx (c : Core) (RG : Triplet) : List Nat :=
  EMITW (0x00000014 ||| c.MRM (REG RG) c.Tecx (REG RG)) ++
  EMITW (0x00000025 ||| c.MRM c.TLxx (REG RG) c.TZxx)

def shlzz_ri (c : Core) (RG : Triplet) (IS : Imm) : List Nat :=
  EMITW (0x00000000 ||| c.MRM (REG RG) 0x00 (REG RG) |||
    (M (VAL IS < 32) &&& (0x00000038 ||| (0x1F &&& VAL IS) <<< 6)) |||
    (M (VAL IS > 31) &&& (0x0000003C ||| (0x1F &&& VAL IS) <<< 6))) ++
  EMITW (0x00000025 ||| c.MRM c.TLxx (REG RG) c.TZxx)

def shlzz_rr (c : Core) (RG RS : Triplet) : List Nat :=
  EMITW (0x00000014 ||| c.MRM (REG RG) (REG RS) (REG RG)) ++
  EMITW (0x00000025 ||| c.MRM c.TLxx (REG RG) c.TZxx)

def shlzz_ld (c : Core) (RG MS : Triplet) (DP : Imm) : List Nat :=
  c.AUW (SIB MS) none none (some (MOD MS)) (some (VAL DP)) (some (c.C1 DP)) none ++
  EMITW (0xDC000000 ||| c.MDM c.TMxx (MOD MS) (VAL DP) (c.B1 DP) (c.P1 DP)) ++
  EMITW (0x00000014 ||| c.MRM (REG RG) c.TMxx (REG RG)) ++
  EMITW (0x00000025 ||| c.MRM c.TLxx (REG RG) c.TZxx)

/-! ### shr -/

def shrzx_rx (c : Core) (RG : Triplet) : List Nat :=
  EMITW (0x00000016 ||| c.MRM (REG RG) c.Tecx (REG RG))

def shrzx_ri (c : Core) (RG : Triplet) (IS : Imm) : List Nat :=
  EMITW (0x00000000 ||| c.MRM (REG RG) 0x00 (REG RG) |||
    (M (VAL IS < 32) &&& (0x0000003A ||| (0x1F &&& VAL IS) <<< 6)) |||
    (M (VAL IS > 31) &&& (0x0000003E ||| (0x1F &&& VAL IS) <<< 6)))

def shrzx_rr (c : Core) (RG RS : Triplet) : List Nat :=
  EMITW (0x00000016 ||| c.MRM (REG RG) (REG RS) (REG RG))

def shrzx_ld (c : Core) (RG MS : Triplet) (DP : Imm) : List Nat :=
  c.AUW (SIB MS) none none (some (MOD MS)) (some (VAL DP)) (some (c.C1 DP)) none ++
  EMITW (0xDC000000 ||| c.MDM c.TMxx (MOD MS) (VAL DP) (c.B1 DP) (c.P1 DP)) ++
  EMITW (0x00000016 ||| c.MRM (REG RG) c.TMxx (REG RG))

def shrzz_rx (c : Core) (RG : Triplet) : List Nat :=
  EMITW (0x00000016 ||| c.MRM (REG RG) c.Tecx (REG RG)) ++
  EMITW (0x00000025 ||| c.MRM c.TLxx (REG RG) c.TZxx)

def shrzz_ri (c : Core) (RG : Triplet) (IS : Imm) : List Nat :=
  EMITW (0x00000000 ||| c.MRM (REG RG) 0x00 (REG RG) |||
    (M (VAL IS < 32) &&& (0x0000003A ||| (0x1F &&& VAL IS) <<< 6)) |||
    (M (VAL IS > 31) &&& (0x0000003E ||| (0x1F &&& VAL IS) <<< 6))) ++
  EMITW (0x00000025 ||| c.MRM c.TLxx (REG RG) c.TZxx)

def shrzz_rr (c : Core) (RG RS : Triplet) : List Nat :=
  EMITW (0x00000016 ||| c.MRM (REG RG) (REG RS) (REG RG)) ++
  EMITW (0x00000025 ||| c.MRM c.TLxx (REG RG) c.TZxx)

def shrzz_ld (c : Core) (RG MS : Triplet) (DP : Imm) : List Nat :=
  c.AUW (SIB MS) none none (some (MOD MS)) (some (VAL DP)) (some (c.C1 DP)) none ++
  EMITW (0xDC000000 ||| c.MDM c.TMxx (MOD MS) (VAL DP) (c.B1 DP) (c.P1 DP)) ++
  EMITW (0x00000016 ||| c.MRM (REG RG) c.TMxx (REG RG)) ++
  EMITW (0x00000025 ||| c.MRM c.TLxx (REG RG) c.TZxx)

end M64

/-! ## POWER: the remaining encoders of the header -/

namespace Power

def movgx_st (c : Core) (XS MD : Triplet) (DD : Imm) : List Nat :=
  c.AUW (SIB MD) none none (some (MOD MD)) (some (VAL DD)) (some (c.C2 DD)) none ++
  EMITW (0x00000000 ||| c.MPM (REG XS) (MOD MD) (VAL DD) (c.B2 DD) (c.O2 DD))

def mmvgx_st (c : Core) (XS MG : Triplet) (DG : Imm) : List Nat :=
  c.AUW (SIB MG) none none (some (MOD MG)) (some (VAL DG)) (some (c.C2 DG)) none ++
  EMITW (0x00000000 ||| c.MPM c.TmmM (MOD MG) (VAL DG) (c.B2 DG) (c.P2 DG)) ++
  EMITW (0xF000003F ||| c.MXM c.TmmM c.TmmM (REG XS)) ++
  EMITW (0x00000000 ||| c.MPM c.TmmM (MOD MG) (VAL DG) (c.B2 DG) (c.O2 DG))

def notgx_rr (c : Core) (XD XS : Triplet) : List Nat :=
  EMITW (0xF0000517 ||| c.MXM (REG XD) (REG XS) (REG XS))

def notgx_rx (c : Core) (XG : Triplet) : List Nat :=
  notgx_rr c XG XG

def andgx_rr (c : Core) (XG XS : Triplet) : List Nat :=
  andgx3rr c XG XG XS

def anngx_rr (c : Core) (XG XS : Triplet) : List Nat :=
  anngx3rr c XG XG XS

def orrgx_rr (c : Core) (XG XS : Triplet) : List Nat :=
  orrgx3rr c XG XG XS

def orngx_rr (c : Core) (XG XS : Triplet) : List Nat :=
  orngx3rr c XG XG XS

def xorgx_rr (c : Core) (XG XS : Triplet) : List Nat :=
  xorgx3rr c XG XG XS

def adsgx_rr (c : Core) (XG XS : Triplet) : List Nat :=
  adsgx3rr c XG XG XS

def adsgn_rr (c : Core) (XG XS : Triplet) : List Nat :=
  adsgn3rr c XG XG XS

def subgx_rr (c : Core) (XG XS : Triplet) : List Nat :=
  subgx3rr c XG XG XS

def sbsgx_rr (c : Core) (XG XS : Triplet) : List Nat :=
  sbsgx3rr c XG XG XS

def sbsgn_rr (c : Core) (XG XS : Triplet) : List Nat :=
  sbsgn3rr c XG XG XS

def mulgx_rr (c : Core) (XG XS : Triplet) : List Nat :=
  mulgx3rr c XG XG XS

def svlgx_rr (c : Core) (XG XS : Triplet) : List Nat :=
  svlgx3rr c XG XG XS

def svrgx_rr (c : Core) (XG XS : Triplet) : List Nat :=
  svrgx3rr c XG XG XS

def svrgn_rr (c : Core) (XG XS : Triplet) : List Nat :=
  svrgn3rr c XG XG XS

def andgx_ld (c : Core) (XG MS : Triplet) (DS : Imm) : List Nat :=
  andgx3ld c XG XG MS DS

def anngx_ld (c : Core) (XG MS : Triplet) (DS : Imm) : List Nat :=
  anngx3ld c XG XG MS DS

def orrgx_ld (c : Core) (XG MS : Triplet) (DS : Imm) : List Nat :=
  orrgx3ld c XG XG MS DS

def orngx_ld (c : Core) (XG MS : Triplet) (DS : Imm) : List Nat :=
  orngx3ld c XG XG MS DS

def xorgx_ld (c : Core) (XG MS : Triplet) (DS : Imm) : List Nat :=
  xorgx3ld c XG XG MS DS

def addgx_ld (c : Core) (XG MS : Triplet) (DS : Imm) : List Nat :=
  addgx3ld c XG XG MS DS

def adsgx_ld (c : Core) (XG MS : Triplet) (DS : Imm) : List Nat :=
  adsgx3ld c XG XG MS DS

def adsgn_ld (c : Core) (XG MS : Triplet) (DS : Imm) : List Nat :=
  adsgn3ld c XG XG MS DS

def subgx_ld (c : Core) (XG MS : Triplet) (DS : Imm) : List Nat :=
  subgx3ld c XG XG MS DS

def sbsgx_ld (c : Core) (XG MS : Triplet) (DS : Imm) : List Nat :=
  sbsgx3ld c XG XG MS DS

def sbsgn_ld (c : Core) (XG MS : Triplet) (DS : Imm) : List Nat :=
  sbsgn3ld c XG XG MS DS

def mulgx_ld (c : Core) (XG MS : Triplet) (DS : Imm) : List Nat :=
  mulgx3ld c XG XG MS DS

def svlgx_ld (c : Core) (XG MS : Triplet) (DS : Imm) : List Nat :=
  svlgx3ld c XG XG MS DS

def svrgx_ld (c : Core) (XG MS : Triplet) (DS : Imm) : List Nat :=
  svrgx3ld c XG XG MS DS

def svrgn_ld (c : Core) (XG MS : Triplet) (DS : Imm) : List Nat :=
  svrgn3ld c XG XG MS DS

def shlgx3ld (c : Core) (XD XS MT : Triplet) (DT : Imm) : List Nat :=
  c.AUW (SIB MT) none none (some (MOD MT)) (some (VAL DT)) (some (c.C3 DT)) none ++
  EMITW (0x7C00004E ||| c.MPM c.TmmM (MOD MT) (VAL DT) (c.B2 DT) (c.E2 DT)) ++
  EMITW (0x1000024C ||| c.MXM c.TmmM c.SP16 c.TmmM) ++
  EMITW (0x10000144 ||| c.MXM (REG XD) (REG XS) c.TmmM)

def shlgx_ld (c : Core) (XG MS : Triplet) (DS : Imm) : List Nat :=
  shlgx3ld c XG XG MS DS

def shrgx3ld (c : Core) (XD XS MT : Triplet) (DT : Imm) : List Nat :=
  c.AUW (SIB MT) none none (some (MOD MT)) (some (VAL DT)) (some (c.C3 DT)) none ++
  EMITW (0x7C00004E ||| c.MPM c.TmmM (MOD MT) (VAL DT) (c.B2 DT) (c.E2 DT)) ++
  EMITW (0x1000024C ||| c.MXM c.TmmM c.SP16 c.TmmM) ++
  EMITW (0x10000244 ||| c.MXM (REG XD) (REG XS) c.TmmM)

def shrgx_ld (c : Core) (XG MS : Triplet) (DS : Imm) : List Nat :=
  shrgx3ld c XG XG MS DS

def shrgn3ld (c : Core) (XD XS MT : Triplet) (DT : Imm) : List Nat :=
  c.AUW (SIB MT) none none (some (MOD MT)) (some (VAL DT)) (some (c.C3 DT)) none ++
  EMITW (0x7C00004E ||| c.MPM c.TmmM (MOD MT) (VAL DT) (c.B2 DT) (c.E2 DT)) ++
  EMITW (0x1000024C ||| c.MXM c.TmmM c.SP16 c.TmmM) ++
  EMITW (0x10000344 ||| c.MXM (REG XD) (REG XS) c.TmmM)

def shrgn_ld (c : Core) (XG MS : Triplet) (DS : Imm) : List Nat :=
  shrgn3ld c XG XG MS DS

/-- The opcode base constants that the header ORs with `MXM(...)`, each once,
in increasing order. -/
def opcodeBases : List Nat :=
  [0x10000022, 0x10000040, 0x10000144, 0x10000240, 0x10000244, 0x1000024C, 0x10000340,
   0x10000344, 0x1000034C, 0x10000440, 0x100004C4, 0x10000640, 0x10000740, 0xF000003F,
   0xF0000417, 0xF0000457, 0xF0000497, 0xF00004D7, 0xF0000517, 0xF0000557]

end Power

/-! ## x86 SSE register pairs: the two instruction groups of a pair -/

namespace X86

/-- Follows the claim's words for the register form of a pair: one instruction
group with prefix bytes `pre`, `REX(rex, rex)`, the escape byte `0x0F`, the
opcode byte `op` and `MRM(REG(G), MOD(S), REG(S))`. -/
def rrGroup (c : Core) (pre : List Nat) (op rex : Nat) (XG XS : Triplet) : List Nat :=
  pre ++ c.REX rex rex ++ c.EMITB 0x0F ++ c.EMITB op ++ c.MRM (REG XG) (MOD XS) (REG XS)

/-- Follows the claim's words for the memory form of a pair: one instruction
group with the address prefix, prefix bytes `pre`, `REX(rex, RXB(M))`, the
escape byte `0x0F`, the opcode byte `op`, `MRM(REG(G), 0x02, REG(M))` and the
displacement `disp`. -/
def ldGroup (c : Core) (pre : List Nat) (op rex : Nat) (XG MS : Triplet) (disp : Nat) :
    List Nat :=
  c.ADR ++ pre ++ c.REX rex (c.RXB MS) ++ c.EMITB 0x0F ++ c.EMITB op ++
  c.MRM (REG XG) 0x02 (REG MS) ++ c.AUX (SIB MS) (c.EMITW disp) EMPTY

end X86

/-! ## MIPS64: arithmetic shift right and a concrete core -/

namespace M64

def shrzn_rx (c : Core) (RG : Triplet) : List Nat :=
  EMITW (0x00000017 ||| c.MRM (REG RG) c.Tecx (REG RG))

def shrzn_ri (c : Core) (RG : Triplet) (IS : Imm) : List Nat :=
  EMITW (0x00000000 ||| c.MRM (REG RG) 0x00 (REG RG) |||
    (M (VAL IS < 32) &&& (0x0000003B ||| (0x1F &&& VAL IS) <<< 6)) |||
    (M (VAL IS > 31) &&& (0x0000003F ||| (0x1F &&& VAL IS) <<< 6)))

def shrzn_rr (c : Core) (RG RS : Triplet) : List Nat :=
  EMITW (0x00000017 ||| c.MRM (REG RG) (REG RS) (REG RG))

def shrzn_ld (c : Core) (RG MS : Triplet) (DP : Imm) : List Nat :=
  c.AUW (SIB MS) none none (some (MOD MS)) (some (VAL DP)) (some (c.C1 DP)) none ++
  EMITW (0xDC000000 ||| c.MDM c.TMxx (MOD MS) (VAL DP) (c.B1 DP) (c.P1 DP)) ++
  EMITW (0x00000017 ||| c.MRM (REG RG) c.TMxx (REG RG))

/-- Modelled from the spec: a concrete instance of the MIPS core (the core
header itself is missing), for evaluating the encoders on explicit operands.
The fixed registers are distinct general registers with `TZxx` the hardware
zero register, the operand fields are packed by the base-OR-shifted-fields
composition rule at the positions of the MIPS register fields (bits 11, 21 and
16), the set-up of an address or immediate emits only the index fragment of the
addressing mode, and the type of an immediate is read off its triplet. -/
def sampleCore : Core where
  Sel := Nat
  TLxx := 0x18
  TZxx := 0x00
  TMxx := 0x19
  TIxx := 0x01
  TDxx := 0x11
  Tecx := 0x0F
  C1 := fun D => D.typ
  B1 := fun D => D.typ
  P1 := fun D => D.typ
  G1 := fun D => D.typ
  G2 := fun D => D.typ
  G3 := fun D => D.typ
  T1 := fun D => D.typ
  T2 := fun D => D.typ
  M1 := fun D => D.typ
  M2 := fun D => D.typ
  TP1 := fun D => D.typ
  TP2 := fun D => D.cmd
  AUW := fun sib _ _ _ _ _ _ => sib
  MRM := fun reg ren rem => rem <<< 16 ||| ren <<< 21 ||| reg <<< 11
  MDM := fun reg brm vdp _ _ => vdp ||| brm <<< 21 ||| reg <<< 16
  MIM := fun reg ren vim _ _ => vim ||| ren <<< 21 ||| reg <<< 16

end M64

/-! ## Reading a 16-bit field as a signed number -/

/-- The 32-bit two's-complement word of an integer. -/
def word32 (v : Int) : Nat := (v % 2 ^ 32).toNat

/-- A 16-bit field read as a two's-complement number. -/
def signed16 (f : Nat) : Int := if f < 2 ^ 15 then (f : Int) else (f : Int) - 2 ^ 16

/-! ## MIPS64: memory-destination forms, `not`, `ann`, `orn` -/

namespace M64

def notzx_rx (c : Core) (RG : Triplet) : List Nat :=
  EMITW (0x00000027 ||| c.MRM (REG RG) c.TZxx (REG RG))

def notzx_mx (c : Core) (MG : Triplet) (DP : Imm) : List Nat :=
  c.AUW (SIB MG) none none (some (MOD MG)) (some (VAL DP)) (some (c.C1 DP)) none ++
  EMITW (0xDC000000 ||| c.MDM c.TDxx (MOD MG) (VAL DP) (c.B1 DP) (c.P1 DP)) ++
  EMITW (0x00000027 ||| c.MRM c.TDxx c.TZxx c.TDxx) ++
  EMITW (0xFC000000 ||| c.MDM c.TDxx (MOD MG) (VAL DP) (c.B1 DP) (c.P1 DP))

def movzx_ri (c : Core) (RD : Triplet) (IS : Imm) : List Nat :=
  c.AUW EMPTY (some (VAL IS)) (some (REG RD)) none none none (some (c.G3 IS))

def movzx_mi (c : Core) (MD : Triplet) (DP IS : Imm) : List Nat :=
  c.AUW (SIB MD) (some (VAL IS)) (some c.TDxx) (some (MOD MD)) (some (VAL DP))
    (some (c.C1 DP)) (some (c.G3 IS)) ++
  EMITW (0xFC000000 ||| c.MDM c.TDxx (MOD MD) (VAL DP) (c.B1 DP) (c.P1 DP))

def andzx_mi (c : Core) (MG : Triplet) (DP IS : Imm) : List Nat :=
  c.AUW (SIB MG) (some (VAL IS)) (some c.TIxx) (some (MOD MG)) (some (VAL DP))
    (some (c.C1 DP)) (some (c.G2 IS)) ++
  EMITW (0xDC000000 ||| c.MDM c.TMxx (MOD MG) (VAL DP) (c.B1 DP) (c.P1 DP)) ++
  EMITW (0x00000000 ||| c.MIM c.TMxx c.TMxx (VAL IS) (c.T2 IS) (some (c.M2 IS)) |||
    (M (c.TP2 IS == 0) &&& 0x30000000) ||| (M (c.TP2 IS != 0) &&& 0x00000024)) ++
  EMITW (0xFC000000 ||| c.MDM c.TMxx (MOD MG) (VAL DP) (c.B1 DP) (c.P1 DP))

def andzx_st (c : Core) (RS MG : Triplet) (DP : Imm) : List Nat :=
  c.AUW (SIB MG) none none (some (MOD MG)) (some (VAL DP)) (some (c.C1 DP)) none ++
  EMITW (0xDC000000 ||| c.MDM c.TMxx (MOD MG) (VAL DP) (c.B1 DP) (c.P1 DP)) ++
  EMITW (0x00000024 ||| c.MRM c.TMxx c.TMxx (REG RS)) ++
  EMITW (0xFC000000 ||| c.MDM c.TMxx (MOD MG) (VAL DP) (c.B1 DP) (c.P1 DP))

def andzz_mi (c : Core) (MG : Triplet) (DP IS : Imm) : List Nat :=
  c.AUW (SIB MG) (some (VAL IS)) (some c.TIxx) (some (MOD MG)) (some (VAL DP))
    (some (c.C1 DP)) (some (c.G2 IS)) ++
  EMITW (0xDC000000 ||| c.MDM c.TMxx (MOD MG) (VAL DP) (c.B1 DP) (c.P1 DP)) ++
  EMITW (0x00000000 ||| c.MIM c.TMxx c.TMxx (VAL IS) (c.T2 IS) (some (c.M2 IS)) |||
    (M (c.TP2 IS == 0) &&& 0x30000000) ||| (M (c.TP2 IS != 0) &&& 0x00000024)) ++
  EMITW (0xFC000000 ||| c.MDM c.TMxx (MOD MG) (VAL DP) (c.B1 DP) (c.P1 DP))

def andzz_st (c : Core) (RS MG : Triplet) (DP : Imm) : List Nat :=
  c.AUW (SIB MG) none none (some (MOD MG)) (some (VAL DP)) (some (c.C1 DP)) none ++
  EMITW (0xDC000000 ||| c.MDM c.TMxx (MOD MG) (VAL DP) (c.B1 DP) (c.P1 DP)) ++
  EMITW (0x00000024 ||| c.MRM c.TMxx c.TMxx (REG RS)) ++
  EMITW (0xFC000000 ||| c.MDM c.TMxx (MOD MG) (VAL DP) (c.B1 DP) (c.P1 DP))

def annzx_ri (c : Core) (RG : Triplet) (IS : Imm) : List Nat :=
  notzx_rx c RG ++
  andzx_ri c RG IS

def annzx_mi (c : Core) (MG : Triplet) (DP IS : Imm) : List Nat :=
  c.AUW (SIB MG) (some (VAL IS)) (some c.TIxx) (some (MOD MG)) (some (VAL DP))
    (some (c.C1 DP)) (some (c.G2 IS)) ++
  EMITW (0xDC000000 ||| c.MDM c.TMxx (MOD MG) (VAL DP) (c.B1 DP) (c.P1 DP)) ++
  EMITW (0x00000027 ||| c.MRM c.TMxx c.TZxx c.TMxx) ++
  EMITW (0x00000000 ||| c.MIM c.TMxx c.TMxx (VAL IS) (c.T2 IS) (some (c.M2 IS)) |||
    (M (c.TP2 IS == 0) &&& 0x30000000) ||| (M (c.TP2 IS != 0) &&& 0x00000024)) ++
  EMITW (0xFC000000 ||| c.MDM c.TMxx (MOD MG) (VAL DP) (c.B1 DP) (c.P1 DP))

def annzx_rr (c : Core) (RG RS : Triplet) : List Nat :=
  notzx_rx c RG ++
  andzx_rr c RG RS

def annzx_ld (c : Core) (RG MS : Triplet) (DP : Imm) : List Nat :=
  notzx_rx c RG ++
  andzx_ld c RG MS DP

def annzx_st (c : Core) (RS MG : Triplet) (DP : Imm) : List Nat :=
  c.AUW (SIB MG) none none (some (MOD MG)) (some (VAL DP)) (some (c.C1 DP)) none ++
  EMITW (0xDC000000 ||| c.MDM c.TMxx (MOD MG) (VAL DP) (c.B1 DP) (c.P1 DP)) ++
  EMITW (0x00000027 ||| c.MRM c.TMxx c.TZxx c.TMxx) ++
  EMITW (0x00000024 ||| c.MRM c.TMxx c.TMxx (REG RS)) ++
  EMITW (0xFC000000 ||| c.MDM c.TMxx (MOD MG) (VAL DP) (c.B1 DP) (c.P1 DP))

def annzx_mr (c : Core) (MG : Triplet) (DP : Imm) (RS : Triplet) : List Nat :=
  annzx_st c RS MG DP

def annzz_ri (c : Core) (RG : Triplet) (IS : Imm) : List Nat :=
  notzx_rx c RG ++
  andzz_ri c RG IS

def annzz_mi (c : Core) (MG : Triplet) (DP IS : Imm) : List Nat :=
  c.AUW (SIB MG) (some (VAL IS)) (some c.TIxx) (some (MOD MG)) (some (VAL DP))
    (some (c.C1 DP)) (some (c.G2 IS)) ++
  EMITW (0xDC000000 ||| c.MDM c.TMxx (MOD MG) (VAL DP) (c.B1 DP) (c.P1 DP)) ++
  EMITW (0x00000027 ||| c.MRM c.TMxx c.TZxx c.TMxx) ++
  EMITW (0x00000000 ||| c.MIM c.TMxx c.TMxx (VAL IS) (c.T2 IS) (some (c.M2 IS)) |||
    (M (c.TP2 IS == 0) &&& 0x30000000) ||| (M (c.TP2 IS != 0) &&& 0x00000024)) ++
  EMITW (0xFC000000 ||| c.MDM c.TMxx (MOD MG) (VAL DP) (c.B1 DP) (c.P1 DP))

def annzz_rr (c : Core) (RG RS : Triplet) : List Nat :=
  notzx_rx c RG ++
  andzz_rr c RG RS

def annzz_ld (c : Core) (RG MS : Triplet) (DP : Imm) : List Nat :=
  notzx_rx c RG ++
  andzz_ld c RG MS DP

def annzz_st (c : Core) (RS MG : Triplet) (DP : Imm) : List Nat :=
  c.AUW (SIB MG) none none (some (MOD MG)) (some (VAL DP)) (some (c.C1 DP)) none ++
  EMITW (0xDC000000 ||| c.MDM c.TMxx (MOD MG) (VAL DP) (c.B1 DP) (c.P1 DP)) ++
  EMITW (0x00000027 ||| c.MRM c.TMxx c.TZxx c.TMxx) ++
  EMITW (0x00000024 ||| c.MRM c.TMxx c.TMxx (REG RS)) ++
  EMITW (0xFC000000 ||| c.MDM c.TMxx (MOD MG) (VAL DP) (c.B1 DP) (c.P1 DP))

def annzz_mr (c : Core) (MG : Triplet) (DP : Imm) (RS : Triplet) : List Nat :=
  annzz_st c RS MG DP

def orrzx_mi (c : Core) (MG : Triplet) (DP IS : Imm) : List Nat :=
  c.AUW (SIB MG) (some (VAL IS)) (some c.TIxx) (some (MOD MG)) (some (VAL DP))
    (some (c.C1 DP)) (some (c.G2 IS)) ++
  EMITW (0xDC000000 ||| c.MDM c.TMxx (MOD MG) (VAL DP) (c.B1 DP) (c.P1 DP)) ++
  EMITW (0x00000000 ||| c.MIM c.TMxx c.TMxx (VAL IS) (c.T2 IS) (some (c.M2 IS)) |||
    (M (c.TP2 IS == 0) &&& 0x34000000) ||| (M (c.TP2 IS != 0) &&& 0x00000025)) ++
  EMITW (0xFC000000 ||| c.MDM c.TMxx (MOD MG) (VAL DP) (c.B1 DP) (c.P1 DP))

def orrzx_st (c : Core) (RS MG : Triplet) (DP : Imm) : List Nat :=
  c.AUW (SIB MG) none none (some (MOD MG)) (some (VAL DP)) (some (c.C1 DP)) none ++
  EMITW (0xDC000000 ||| c.MDM c.TMxx (MOD MG) (VAL DP) (c.B1 DP) (c.P1 DP)) ++
  EMITW (0x00000025 ||| c.MRM c.TMxx c.TMxx (REG RS)) ++
  EMITW (0xFC000000 ||| c.MDM c.TMxx (MOD MG) (VAL DP) (c.B1 DP) (c.P1 DP))

def orrzz_mi (c : Core) (MG : Triplet) (DP IS : Imm) : List Nat :=
  c.AUW (SIB MG) (some (VAL IS)) (some c.TIxx) (some (MOD MG)) (some (VAL DP))
    (some (c.C1 DP)) (some (c.G2 IS)) ++
  EMITW (0xDC000000 ||| c.MDM c.TMxx (MOD MG) (VAL DP) (c.B1 DP) (c.P1 DP)) ++
  EMITW (0x00000000 ||| c.MIM c.TMxx c.TMxx (VAL IS) (c.T2 IS) (some (c.M2 IS)) |||
    (M (c.TP2 IS == 0) &&& 0x34000000) ||| (M (c.TP2 IS != 0) &&& 0x00000025)) ++
  EMITW (0xFC000000 ||| c.MDM c.TMxx (MOD MG) (VAL DP) (c.B1 DP) (c.P1 DP))

def orrzz_st (c : Core) (RS MG : Triplet) (DP : Imm) : List Nat :=
  c.AUW (SIB MG) none none (some (MOD MG)) (some (VAL DP)) (some (c.C1 DP)) none ++
  EMITW (0xDC000000 ||| c.MDM c.TMxx (MOD MG) (VAL DP) (c.B1 DP) (c.P1 DP)) ++
  EMITW (0x00000025 ||| c.MRM c.TMxx c.TMxx (REG RS)) ++
  EMITW (0xFC000000 ||| c.MDM c.TMxx (MOD MG) (VAL DP) (c.B1 DP) (c.P1 DP))

def ornzx_ri (c : Core) (RG : Triplet) (IS : Imm) : List Nat :=
  notzx_rx c RG ++
  orrzx_ri c RG IS

def ornzx_mi (c : Core) (MG : Triplet) (DP IS : Imm) : List Nat :=
  c.AUW (SIB MG) (some (VAL IS)) (some c.TIxx) (some (MOD MG)) (some (VAL DP))
    (some (c.C1 DP)) (some (c.G2 IS)) ++
  EMITW (0xDC000000 ||| c.MDM c.TMxx (MOD MG) (VAL DP) (c.B1 DP) (c.P1 DP)) ++
  EMITW (0x00000027 ||| c.MRM c.TMxx c.TZxx c.TMxx) ++
  EMITW (0x00000000 ||| c.MIM c.TMxx c.TMxx (VAL IS) (c.T2 IS) (some (c.M2 IS)) |||
    (M (c.TP2 IS == 0) &&& 0x34000000) ||| (M (c.TP2 IS != 0) &&& 0x00000025)) ++
  EMITW (0xFC000000 ||| c.MDM c.TMxx (MOD MG) (VAL DP) (c.B1 DP) (c.P1 DP))

def ornzx_rr (c : Core) (RG RS : Triplet) : List Nat :=
  notzx_rx c RG ++
  orrzx_rr c RG RS

def ornzx_ld (c : Core) (RG MS : Triplet) (DP : Imm) : List Nat :=
  notzx_rx c RG ++
  orrzx_ld c RG MS DP

def ornzx_st (c : Core) (RS MG : Triplet) (DP : Imm) : List Nat :=
  c.AUW (SIB MG) none none (some (MOD MG)) (some (VAL DP)) (some (c.C1 DP)) none ++
  EMITW (0xDC000000 ||| c.MDM c.TMxx (MOD MG) (VAL DP) (c.B1 DP) (c.P1 DP)) ++
  EMITW (0x00000027 ||| c.MRM c.TMxx c.TZxx c.TMxx) ++
  EMITW (0x00000025 ||| c.MRM c.TMxx c.TMxx (REG RS)) ++
  EMITW (0xFC000000 ||| c.MDM c.TMxx (MOD MG) (VAL DP) (c.B1 DP) (c.P1 DP))

def ornzx_mr (c : Core) (MG : Triplet) (DP : Imm) (RS : Triplet) : List Nat :=
  ornzx_st c RS MG DP

def ornzz_ri (c : Core) (RG : Triplet) (IS : Imm) : List Nat :=
  notzx_rx c RG ++
  orrzz_ri c RG IS

def ornzz_mi (c : Core) (MG : Triplet) (DP IS : Imm) : List Nat :=
  c.AUW (SIB MG) (some (VAL IS)) (some c.TIxx) (some (MOD MG)) (some (VAL DP))
    (some (c.C1 DP)) (some (c.G2 IS)) ++
  EMITW (0xDC000000 ||| c.MDM c.TMxx (MOD MG) (VAL DP) (c.B1 DP) (c.P1 DP)) ++
  EMITW (0x00000027 ||| c.MRM c.TMxx c.TZxx c.TMxx) ++
  EMITW (0x00000000 ||| c.MIM c.TMxx c.TMxx (VAL IS) (c.T2 IS) (some (c.M2 IS)) |||
    (M (c.TP2 IS == 0) &&& 0x34000000) ||| (M (c.TP2 IS != 0) &&& 0x00000025)) ++
  EMITW (0xFC000000 ||| c.MDM c.TMxx (MOD MG) (VAL DP) (c.B1 DP) (c.P1 DP))

def ornzz_rr (c : Core) (RG RS : Triplet) : List Nat :=
  notzx_rx c RG ++
  orrzz_rr c RG RS

def ornzz_ld (c : Core) (RG MS : Triplet) (DP : Imm) : List Nat :=
  notzx_rx c RG ++
  orrzz_ld c RG MS DP

def ornzz_st (c : Core) (RS MG : Triplet) (DP : Imm) : List Nat :=
  c.AUW (SIB MG) none none (some (MOD MG)) (some (VAL DP)) (some (c.C1 DP)) none ++
  EMITW (0xDC000000 ||| c.MDM c.TMxx (MOD MG) (VAL DP) (c.B1 DP) (c.P1 DP)) ++
  EMITW (0x00000027 ||| c.MRM c.TMxx c.TZxx c.TMxx) ++
  EMITW (0x00000025 ||| c.MRM c.TMxx c.TMxx (REG RS)) ++
  EMITW (0xFC000000 ||| c.MDM c.TMxx (MOD MG) (VAL DP) (c.B1 DP) (c.P1 DP))

def ornzz_mr (c : Core) (MG : Triplet) (DP : Imm) (RS : Triplet) : List Nat :=
  ornzz_st c RS MG DP

def xorzx_mi (c : Core) (MG : Triplet) (DP IS : Imm) : List Nat :=
  c.AUW (SIB MG) (some (VAL IS)) (some c.TIxx) (some (MOD MG)) (some (VAL DP))
    (some (c.C1 DP)) (some (c.G2 IS)) ++
  EMITW (0xDC000000 ||| c.MDM c.TMxx (MOD MG) (VAL DP) (c.B1 DP) (c.P1 DP)) ++
  EMITW (0x00000000 ||| c.MIM c.TMxx c.TMxx (VAL IS) (c.T2 IS) (some (c.M2 IS)) |||
    (M (c.TP2 IS == 0) &&& 0x38000000) ||| (M (c.TP2 IS != 0) &&& 0x00000026)) ++
  EMITW (0xFC000000 ||| c.MDM c.TMxx (MOD MG) (VAL DP) (c.B1 DP) (c.P1 DP))

def xorzx_st (c : Core) (RS MG : Triplet) (DP : Imm) : List Nat :=
  c.AUW (SIB MG) none none (some (MOD MG)) (some (VAL DP)) (some (c.C1 DP)) none ++
  EMITW (0xDC000000 ||| c.MDM c.TMxx (MOD MG) (VAL DP) (c.B1 DP) (c.P1 DP)) ++
  EMITW (0x00000026 ||| c.MRM c.TMxx c.TMxx (REG RS)) ++
  EMITW (0xFC000000 ||| c.MDM c.TMxx (MOD MG) (VAL DP) (c.B1 DP) (c.P1 DP))

def xorzz_mi (c : Core) (MG : Triplet) (DP IS : Imm) : List Nat :=
  c.AUW (SIB MG) (some (VAL IS)) (some c.TIxx) (some (MOD MG)) (some (VAL DP))
    (some (c.C1 DP)) (some (c.G2 IS)) ++
  EMITW (0xDC000000 ||| c.MDM c.TMxx (MOD MG) (VAL DP) (c.B1 DP) (c.P1 DP)) ++
  EMITW (0x00000000 ||| c.MIM c.TMxx c.TMxx (VAL IS) (c.T2 IS) (some (c.M2 IS)) |||
    (M (c.TP2 IS == 0) &&& 0x38000000) ||| (M (c.TP2 IS != 0) &&& 0x00000026)) ++
  EMITW (0xFC000000 ||| c.MDM c.TMxx (MOD MG) (VAL DP) (c.B1 DP) (c.P1 DP))

def xorzz_st (c : Core) (RS MG : Triplet) (DP : Imm) : List Nat :=
  c.AUW (SIB MG) none none (some (MOD MG)) (some (VAL DP)) (some (c.C1 DP)) none ++
  EMITW (0xDC000000 ||| c.MDM c.TMxx (MOD MG) (VAL DP) (c.B1 DP) (c.P1 DP)) ++
  EMITW (0x00000026 ||| c.MRM c.TMxx c.TMxx (REG RS)) ++
  EMITW (0xFC000000 ||| c.MDM c.TMxx (MOD MG) (VAL DP) (c.B1 DP) (c.P1 DP))

def negzx_mx (c : Core) (MG : Triplet) (DP : Imm) : List Nat :=
  c.AUW (SIB MG) none none (some (MOD MG)) (some (VAL DP)) (some (c.C1 DP)) none ++
  EMITW (0xDC000000 ||| c.MDM c.TMxx (MOD MG) (VAL DP) (c.B1 DP) (c.P1 DP)) ++
  EMITW (0x0000002F ||| c.MRM c.TMxx c.TZxx c.TMxx) ++
  EMITW (0xFC000000 ||| c.MDM c.TMxx (MOD MG) (VAL DP) (c.B1 DP) (c.P1 DP))

def negzz_mx (c : Core) (MG : Triplet) (DP : Imm) : List Nat :=
  c.AUW (SIB MG) none none (some (MOD MG)) (some (VAL DP)) (some (c.C1 DP)) none ++
  EMITW (0xDC000000 ||| c.MDM c.TMxx (MOD MG) (VAL DP) (c.B1 DP) (c.P1 DP)) ++
  EMITW (0x0000002F ||| c.MRM c.TMxx c.TZxx c.TMxx) ++
  EMITW (0xFC000000 ||| c.MDM c.TMxx (MOD MG) (VAL DP) (c.B1 DP) (c.P1 DP))

def addzx_mi (c : Core) (MG : Triplet) (DP IS : Imm) : List Nat :=
  c.AUW (SIB MG) (some (VAL IS)) (some c.TIxx) (some (MOD MG)) (some (VAL DP))
    (some (c.C1 DP)) (some (c.G1 IS)) ++
  EMITW (0xDC000000 ||| c.MDM c.TMxx (MOD MG) (VAL DP) (c.B1 DP) (c.P1 DP)) ++
  EMITW (0x00000000 ||| c.MIM c.TMxx c.TMxx (VAL IS) (c.T1 IS) (some (c.M1 IS)) |||
    (M (c.TP1 IS == 0) &&& 0x64000000) ||| (M (c.TP1 IS != 0) &&& 0x0000002D)) ++
  EMITW (0xFC000000 ||| c.MDM c.TMxx (MOD MG) (VAL DP) (c.B1 DP) (c.P1 DP))

def addzx_st (c : Core) (RS MG : Triplet) (DP : Imm) : List Nat :=
  c.AUW (SIB MG) none none (some (MOD MG)) (some (VAL DP)) (some (c.C1 DP)) none ++
  EMITW (0xDC000000 ||| c.MDM c.TMxx (MOD MG) (VAL DP) (c.B1 DP) (c.P1 DP)) ++
  EMITW (0x0000002D ||| c.MRM c.TMxx c.TMxx (REG RS)) ++
  EMITW (0xFC000000 ||| c.MDM c.TMxx (MOD MG) (VAL DP) (c.B1 DP) (c.P1 DP))

def addzz_mi (c : Core) (MG : Triplet) (DP IS : Imm) : List Nat :=
  c.AUW (SIB MG) (some (VAL IS)) (some c.TIxx) (some (MOD MG)) (some (VAL DP))
    (some (c.C1 DP)) (some (c.G1 IS)) ++
  EMITW (0xDC000000 ||| c.MDM c.TMxx (MOD MG) (VAL DP) (c.B1 DP) (c.P1 DP)) ++
  EMITW (0x00000000 ||| c.MIM c.TMxx c.TMxx (VAL IS) (c.T1 IS) (some (c.M1 IS)) |||
    (M (c.TP1 IS == 0) &&& 0x64000000) ||| (M (c.TP1 IS != 0) &&& 0x0000002D)) ++
  EMITW (0xFC000000 ||| c.MDM c.TMxx (MOD MG) (VAL DP) (c.B1 DP) (c.P1 DP))

def addzz_st (c : Core) (RS MG : Triplet) (DP : Imm) : List Nat :=
  c.AUW (SIB MG) none none (some (MOD MG)) (some (VAL DP)) (some (c.C1 DP)) none ++
  EMITW (0xDC000000 ||| c.MDM c.TMxx (MOD MG) (VAL DP) (c.B1 DP) (c.P1 DP)) ++
  EMITW (0x0000002D ||| c.MRM c.TMxx c.TMxx (REG RS)) ++
  EMITW (0xFC000000 ||| c.MDM c.TMxx (MOD MG) (VAL DP) (c.B1 DP) (c.P1 DP))

def subzx_mi (c : Core) (MG : Triplet) (DP IS : Imm) : List Nat :=
  c.AUW (SIB MG) (some (VAL IS)) (some c.TIxx) (some (MOD MG)) (some (VAL DP))
    (some (c.C1 DP)) (some (c.G1 IS)) ++
  EMITW (0xDC000000 ||| c.MDM c.TMxx (MOD MG) (VAL DP) (c.B1 DP) (c.P1 DP)) ++
  EMITW (0x00000000 ||| c.MIM c.TMxx c.TMxx 0x00 (c.T1 IS) none |||
    (M (c.TP1 IS == 0) &&& (0x64000000 ||| (0xFFFF &&& NEG (VAL IS)))) |||
    (M (c.TP1 IS != 0) &&& (0x0000002F ||| c.TIxx <<< 16))) ++
  EMITW (0xFC000000 ||| c.MDM c.TMxx (MOD MG) (VAL DP) (c.B1 DP) (c.P1 DP))

def subzx_st (c : Core) (RS MG : Triplet) (DP : Imm) : List Nat :=
  c.AUW (SIB MG) none none (some (MOD MG)) (some (VAL DP)) (some (c.C1 DP)) none ++
  EMITW (0xDC000000 ||| c.MDM c.TMxx (MOD MG) (VAL DP) (c.B1 DP) (c.P1 DP)) ++
  EMITW (0x0000002F ||| c.MRM c.TMxx c.TMxx (REG RS)) ++
  EMITW (0xFC000000 ||| c.MDM c.TMxx (MOD MG) (VAL DP) (c.B1 DP) (c.P1 DP))

def subzx_mr (c : Core) (MG : Triplet) (DP : Imm) (RS : Triplet) : List Nat :=
  subzx_st c RS MG DP

def subzz_mi (c : Core) (MG : Triplet) (DP IS : Imm) : List Nat :=
  c.AUW (SIB MG) (some (VAL IS)) (some c.TIxx) (some (MOD MG)) (some (VAL DP))
    (some (c.C1 DP)) (some (c.G1 IS)) ++
  EMITW (0xDC000000 ||| c.MDM c.TMxx (MOD MG) (VAL DP) (c.B1 DP) (c.P1 DP)) ++
  EMITW (0x00000000 ||| c.MIM c.TMxx c.TMxx 0x00 (c.T1 IS) none |||
    (M (c.TP1 IS == 0) &&& (0x64000000 ||| (0xFFFF &&& NEG (VAL IS)))) |||
    (M (c.TP1 IS != 0) &&& (0x0000002F ||| c.TIxx <<< 16))) ++
  EMITW (0xFC000000 ||| c.MDM c.TMxx (MOD MG) (VAL DP) (c.B1 DP) (c.P1 DP))

def subzz_st (c : Core) (RS MG : Triplet) (DP : Imm) : List Nat :=
  c.AUW (SIB MG) none none (some (MOD MG)) (some (VAL DP)) (some (c.C1 DP)) none ++
  EMITW (0xDC000000 ||| c.MDM c.TMxx (MOD MG) (VAL DP) (c.B1 DP) (c.P1 DP)) ++
  EMITW (0x0000002F ||| c.MRM c.TMxx c.TMxx (REG RS)) ++
  EMITW (0xFC000000 ||| c.MDM c.TMxx (MOD MG) (VAL DP) (c.B1 DP) (c.P1 DP))

def subzz_mr (c : Core) (MG : Triplet) (DP : Imm) (RS : Triplet) : List Nat :=
  subzz_st c RS MG DP

def shlzx_mx (c : Core) (MG : Triplet) (DP : Imm) : List Nat :=
  c.AUW (SIB MG) none none (some (MOD MG)) (some (VAL DP)) (some (c.C1 DP)) none ++
  EMITW (0xDC000000 ||| c.MDM c.TMxx (MOD MG) (VAL DP) (c.B1 DP) (c.P1 DP)) ++
  EMITW (0x00000014 ||| c.MRM c.TMxx c.Tecx c.TMxx) ++
  EMITW (0xFC000000 ||| c.MDM c.TMxx (MOD MG) (VAL DP) (c.B1 DP) (c.P1 DP))

def shlzx_mi (c : Core) (MG : Triplet) (DP IS : Imm) : List Nat :=
  c.AUW (SIB MG) none none (some (MOD MG)) (some (VAL DP)) (some (c.C1 DP)) none ++
  EMITW (0xDC000000 ||| c.MDM c.TMxx (MOD MG) (VAL DP) (c.B1 DP) (c.P1 DP)) ++
  EMITW (0x00000000 ||| c.MRM c.TMxx 0x00 c.TMxx |||
    (M (VAL IS < 32) &&& (0x00000038 ||| (0x1F &&& VAL IS) <<< 6)) |||
    (M (VAL IS > 31) &&& (0x0000003C ||| (0x1F &&& VAL IS) <<< 6))) ++
  EMITW (0xFC000000 ||| c.MDM c.TMxx (MOD MG) (VAL DP) (c.B1 DP) (c.P1 DP))

def shlzx_st (c : Core) (RS MG : Triplet) (DP : Imm) : List Nat :=
  c.AUW (SIB MG) none none (some (MOD MG)) (some (VAL DP)) (some (c.C1 DP)) none ++
  EMITW (0xDC000000 ||| c.MDM c.TMxx (MOD MG) (VAL DP) (c.B1 DP) (c.P1 DP)) ++
  EMITW (0x00000014 ||| c.MRM c.TMxx (REG RS) c.TMxx) ++
  EMITW (0xFC000000 ||| c.MDM c.TMxx (MOD MG) (VAL DP) (c.B1 DP) (c.P1 DP))

def shlzx_mr (c : Core) (MG : Triplet) (DP : Imm) (RS : Triplet) : List Nat :=
  shlzx_st c RS MG DP

def shlzz_mx (c : Core) (MG : Triplet) (DP : Imm) : List Nat :=
  c.AUW (SIB MG) none none (some (MOD MG)) (some (VAL DP)) (some (c.C1 DP)) none ++
  EMITW (0xDC000000 ||| c.MDM c.TMxx (MOD MG) (VAL DP) (c.B1 DP) (c.P1 DP)) ++
  EMITW (0x00000014 ||| c.MRM c.TMxx c.Tecx c.TMxx) ++
  EMITW (0xFC000000 ||| c.MDM c.TMxx (MOD MG) (VAL DP) (c.B1 DP) (c.P1 DP))

def shlzz_mi (c : Core) (MG : Triplet) (DP IS : Imm) : List Nat :=
  c.AUW (SIB MG) none none (some (MOD MG)) (some (VAL DP)) (some (c.C1 DP)) none ++
  EMITW (0xDC000000 ||| c.MDM c.TMxx (MOD MG) (VAL DP) (c.B1 DP) (c.P1 DP)) ++
  EMITW (0x00000000 ||| c.MRM c.TMxx 0x00 c.TMxx |||
    (M (VAL IS < 32) &&& (0x00000038 ||| (0x1F &&& VAL IS) <<< 6)) |||
    (M (VAL IS > 31) &&& (0x0000003C ||| (0x1F &&& VAL IS) <<< 6))) ++
  EMITW (0xFC000000 ||| c.MDM c.TMxx (MOD MG) (VAL DP) (c.B1 DP) (c.P1 DP))

def shlzz_st (c : Core) (RS MG : Triplet) (DP : Imm) : List Nat :=
  c.AUW (SIB MG) none none (some (MOD MG)) (some (VAL DP)) (some (c.C1 DP)) none ++
  EMITW (0xDC000000 ||| c.MDM c.TMxx (MOD MG) (VAL DP) (c.B1 DP) (c.P1 DP)) ++
  EMITW (0x00000014 ||| c.MRM c.TMxx (REG RS) c.TMxx) ++
  EMITW (0xFC000000 ||| c.MDM c.TMxx (MOD MG) (VAL DP) (c.B1 DP) (c.P1 DP))

def shlzz_mr (c : Core) (MG : Triplet) (DP : Imm) (RS : Triplet) : List Nat :=
  shlzz_st c RS MG DP

def shrzx_mx (c : Core) (MG : Triplet) (DP : Imm) : List Nat :=
  c.AUW (SIB MG) none none (some (MOD MG)) (some (VAL DP)) (some (c.C1 DP)) none ++
  EMITW (0xDC000000 ||| c.MDM c.TMxx (MOD MG) (VAL DP) (c.B1 DP) (c.P1 DP)) ++
  EMITW (0x00000016 ||| c.MRM c.TMxx c.Tecx c.TMxx) ++
  EMITW (0xFC000000 ||| c.MDM c.TMxx (MOD MG) (VAL DP) (c.B1 DP) (c.P1 DP))

def shrzx_mi (c : Core) (MG : Triplet) (DP IS : Imm) : List Nat :=
  c.AUW (SIB MG) none none (some (MOD MG)) (some (VAL DP)) (some (c.C1 DP)) none ++
  EMITW (0xDC000000 ||| c.MDM c.TMxx (MOD MG) (VAL DP) (c.B1 DP) (c.P1 DP)) ++
  EMITW (0x00000000 ||| c.MRM c.TMxx 0x00 c.TMxx |||
    (M (VAL IS < 32) &&& (0x0000003A ||| (0x1F &&& VAL IS) <<< 6)) |||
    (M (VAL IS > 31) &&& (0x0000003E ||| (0x1F &&& VAL IS) <<< 6))) ++
  EMITW (0xFC000000 ||| c.MDM c.TMxx (MOD MG) (VAL DP) (c.B1 DP) (c.P1 DP))

def shrzx_st (c : Core) (RS MG : Triplet) (DP : Imm) : List Nat :=
  c.AUW (SIB MG) none none (some (MOD MG)) (some (VAL DP)) (some (c.C1 DP)) none ++
  EMITW (0xDC000000 ||| c.MDM c.TMxx (MOD MG) (VAL DP) (c.B1 DP) (c.P1 DP)) ++
  EMITW (0x00000016 ||| c.MRM c.TMxx (REG RS) c.TMxx) ++
  EMITW (0xFC000000 ||| c.MDM c.TMxx (MOD MG) (VAL DP) (c.B1 DP) (c.P1 DP))

def shrzx_mr (c : Core) (MG : Triplet) (DP : Imm) (RS : Triplet) : List Nat :=
  shrzx_st c RS MG DP

def shrzz_mx (c : Core) (MG : Triplet) (DP : Imm) : List Nat :=
  c.AUW (SIB MG) none none (some (MOD MG)) (some (VAL DP)) (some (c.C1 DP)) none ++
  EMITW (0xDC000000 ||| c.MDM c.TMxx (MOD MG) (VAL DP) (c.B1 DP) (c.P1 DP)) ++
  EMITW (0x00000016 ||| c.MRM c.TMxx c.Tecx c.TMxx) ++
  EMITW (0xFC000000 ||| c.MDM c.TMxx (MOD MG) (VAL DP) (c.B1 DP) (c.P1 DP))

def shrzz_mi (c : Core) (MG : Triplet) (DP IS : Imm) : List Nat :=
  c.AUW (SIB MG) none none (some (MOD MG)) (some (VAL DP)) (some (c.C1 DP)) none ++
  EMITW (0xDC000000 ||| c.MDM c.TMxx (MOD MG) (VAL DP) (c.B1 DP) (c.P1 DP)) ++
  EMITW (0x00000000 ||| c.MRM c.TMxx 0x00 c.TMxx |||
    (M (VAL IS < 32) &&& (0x0000003A ||| (0x1F &&& VAL IS) <<< 6)) |||
    (M (VAL IS > 31) &&& (0x0000003E ||| (0x1F &&& VAL IS) <<< 6))) ++
  EMITW (0xFC000000 ||| c.MDM c.TMxx (MOD MG) (VAL DP) (c.B1 DP) (c.P1 DP))

def shrzz_st (c : Core) (RS MG : Triplet) (DP : Imm) : List Nat :=
  c.AUW (SIB MG) none none (some (MOD MG)) (some (VAL DP)) (some (c.C1 DP)) none ++
  EMITW (0xDC000000 ||| c.MDM c.TMxx (MOD MG) (VAL DP) (c.B1 DP) (c.P1 DP)) ++
  EMITW (0x00000016 ||| c.MRM c.TMxx (REG RS) c.TMxx) ++
  EMITW (0xFC000000 ||| c.MDM c.TMxx (MOD MG) (VAL DP) (c.B1 DP) (c.P1 DP))

def shrzz_mr (c : Core) (MG : Triplet) (DP : Imm) (RS : Triplet) : List Nat :=
  shrzz_st c RS MG DP

def shrzn_mx (c : Core) (MG : Triplet) (DP : Imm) : List Nat :=
  c.AUW (SIB MG) none none (some (MOD MG)) (some (VAL DP)) (some (c.C1 DP)) none ++
  EMITW (0xDC000000 ||| c.MDM c.TMxx (MOD MG) (VAL DP) (c.B1 DP) (c.P1 DP)) ++
  EMITW (0x00000017 ||| c.MRM c.TMxx c.Tecx c.TMxx) ++
  EMITW (0xFC000000 ||| c.MDM c.TMxx (MOD MG) (VAL DP) (c.B1 DP) (c.P1 DP))

def shrzn_mi (c : Core) (MG : Triplet) (DP IS : Imm) : List Nat :=
  c.AUW (SIB MG) none none (some (MOD MG)) (some (VAL DP)) (some (c.C1 DP)) none ++
  EMITW (0xDC000000 ||| c.MDM c.TMxx (MOD MG) (VAL DP) (c.B1 DP) (c.P1 DP)) ++
  EMITW (0x00000000 ||| c.MRM c.TMxx 0x00 c.TMxx |||
    (M (VAL IS < 32) &&& (0x0000003B ||| (0x1F &&& VAL IS) <<< 6)) |||
    (M (VAL IS > 31) &&& (0x0000003F ||| (0x1F &&& VAL IS) <<< 6))) ++
  EMITW (0xFC000000 ||| c.MDM c.TMxx (MOD MG) (VAL DP) (c.B1 DP) (c.P1 DP))

def shrzn_st (c : Core) (RS MG : Triplet) (DP : Imm) : List Nat :=
  c.AUW (SIB MG) none none (some (MOD MG)) (some (VAL DP)) (some (c.C1 DP)) none ++
  EMITW (0xDC000000 ||| c.MDM c.TMxx (MOD MG) (VAL DP) (c.B1 DP) (c.P1 DP)) ++
  EMITW (0x00000017 ||| c.MRM c.TMxx (REG RS) c.TMxx) ++
  EMITW (0xFC000000 ||| c.MDM c.TMxx (MOD MG) (VAL DP) (c.B1 DP) (c.P1 DP))

def shrzn_mr (c : Core) (MG : Triplet) (DP : Imm) (RS : Triplet) : List Nat :=
  shrzn_st c RS MG DP

end M64

/-! ## AArch64/SVE: rounding with the mode given as an argument -/

namespace SVE

/-- The argument `mode` names a rounding mode and `RT_SIMD_MODE_##mode` is the
constant of that name, defined outside this header; the embedding takes the
numeric value of that constant as `mode`. -/
def rnrms_rr (c : Core) (XD XS : Triplet) (mode : Nat) : List Nat :=
  EMITW (0x6540A000 ||| c.MXM (REG XD) (REG XS) 0x00 |||
    mode <<< 16)

def cvrms_rr (c : Core) (XD XS : Triplet) (mode : Nat) : List Nat :=
  rnrms_rr c XD XS mode ++
  cvzms_rr c XD XD

end SVE

end UniSIMD

/-! # Theorems -/

namespace UniSIMD

/-! ## Auxiliary facts -/

theorem lor_fields (b x y z : Nat) : b ||| (z ||| y ||| x) = b ||| x ||| y ||| z := by
  rw [Nat.lor_comm (z ||| y) x, Nat.lor_comm z y, ← Nat.lor_assoc, ← Nat.lor_assoc]

/-! ## POWER -/

/-- C1: on the POWER profile the three-operand register form of the 128-bit
packed add, `addgx3rr`, emits exactly one word, the opcode base `0x10000040`
OR-ed with `MXM` of the destination and the two sources.  With the field
layout of `MXM` (destination shifted by 21, sources by 16 and 11) and register
indices below 32 the word is
`0x10000040 | (d<<21) | (s<<16) | (t<<11)` and fits 32 bits; for destination
2 and sources 3 and 5 it is `0x10000040 | (2<<21) | (3<<16) | (5<<11)`, that is
`0x10432840`. -/
theorem addgx3rr_single_word (c : Power.Core) (XD XS XT : Triplet)
    (hc : c.MXM = Power.MXM)
    (hd : REG XD < 32) (hs : REG XS < 32) (ht : REG XT < 32) :
    Power.addgx3rr c XD XS XT = [0x10000040 ||| c.MXM (REG XD) (REG XS) (REG XT)] ∧
    Power.addgx3rr c XD XS XT =
        [0x10000040 ||| (REG XD <<< 21) ||| (REG XS <<< 16) ||| (REG XT <<< 11)] ∧
      (0x10000040 ||| (REG XD <<< 21) ||| (REG XS <<< 16) ||| (REG XT <<< 11)) < 2 ^ 32 ∧
      (REG XD = 2 → REG XS = 3 → REG XT = 5 →
        Power.addgx3rr c XD XS XT = [0x10000040 ||| (2 <<< 21) ||| (3 <<< 16) ||| (5 <<< 11)] ∧
        0x10000040 ||| (2 <<< 21) ||| (3 <<< 16) ||| (5 <<< 11) = 0x10432840) := by
  have key : Power.addgx3rr c XD XS XT =
      [0x10000040 ||| (REG XD <<< 21) ||| (REG XS <<< 16) ||| (REG XT <<< 11)] := by
    simp only [Power.addgx3rr, EMITW, hc, Power.MXM]
    rw [lor_fields]
  refine ⟨rfl, key, ?_, ?_⟩
  · have e1 : REG XT <<< 11 < 2 ^ 32 := by rw [Nat.shiftLeft_eq]; omega
    have e2 : REG XS <<< 16 < 2 ^ 32 := by rw [Nat.shiftLeft_eq]; omega
    have e3 : REG XD <<< 21 < 2 ^ 32 := by rw [Nat.shiftLeft_eq]; omega
    exact Nat.or_lt_two_pow (Nat.or_lt_two_pow (Nat.or_lt_two_pow (by norm_num) e3) e2) e1
  · intro h2 h3 h5
    rw [key, h2, h3, h5]
    exact ⟨rfl, by decide⟩

/-- C1 at the fixture of the specification: destination register 2, source
registers 3 and 5, on the sample POWER core. -/
theorem addgx3rr_single_word_fixture :
    Power.addgx3rr Power.sampleCore ⟨2, 0, []⟩ ⟨3, 0, []⟩ ⟨5, 0, []⟩ = [0x10432840] := by
  have h := addgx3rr_single_word Power.sampleCore ⟨2, 0, []⟩ ⟨3, 0, []⟩ ⟨5, 0, []⟩ rfl
    (by decide) (by decide) (by decide)
  exact h.2.1.trans (by decide)

/-! ## AArch64 SVE -/

/-- C2: chaining law on the AArch64/SVE profile.  For `divms`, `minms`,
`maxms`, `mulmx`, `svlmx`, `svrmx`, `svrmn` the three-operand register form
emits the words of the copy `movmx_rr(D, S)` followed by the words of the
two-operand form `F_rr(D, T)`; for those families and for `shlmx`, `shrmx`,
`shrmn` the three-operand memory form emits the words of `movmx_rr(D, S)`
followed by the words of `F_ld(D, M, disp)`. -/
theorem sve_chaining_law (c : SVE.Core) (XD XS XT MT : Triplet) (DT : Imm) :
    (SVE.divms3rr c XD XS XT = SVE.movmx_rr c XD XS ++ SVE.divms_rr c XD XT) ∧
    (SVE.minms3rr c XD XS XT = SVE.movmx_rr c XD XS ++ SVE.minms_rr c XD XT) ∧
    (SVE.maxms3rr c XD XS XT = SVE.movmx_rr c XD XS ++ SVE.maxms_rr c XD XT) ∧
    (SVE.mulmx3rr c XD XS XT = SVE.movmx_rr c XD XS ++ SVE.mulmx_rr c XD XT) ∧
    (SVE.svlmx3rr c XD XS XT = SVE.movmx_rr c XD XS ++ SVE.svlmx_rr c XD XT) ∧
    (SVE.svrmx3rr c XD XS XT = SVE.movmx_rr c XD XS ++ SVE.svrmx_rr c XD XT) ∧
    (SVE.svrmn3rr c XD XS XT = SVE.movmx_rr c XD XS ++ SVE.svrmn_rr c XD XT) ∧
    (SVE.divms3ld c XD XS MT DT = SVE.movmx_rr c XD XS ++ SVE.divms_ld c XD MT DT) ∧
    (SVE.minms3ld c XD XS MT DT = SVE.movmx_rr c XD XS ++ SVE.minms_ld c XD MT DT) ∧
    (SVE.maxms3ld c XD XS MT DT = SVE.movmx_rr c XD XS ++ SVE.maxms_ld c XD MT DT) ∧
    (SVE.mulmx3ld c XD XS MT DT = SVE.movmx_rr c XD XS ++ SVE.mulmx_ld c XD MT DT) ∧
    (SVE.svlmx3ld c XD XS MT DT = SVE.movmx_rr c XD XS ++ SVE.svlmx_ld c XD MT DT) ∧
    (SVE.svrmx3ld c XD XS MT DT = SVE.movmx_rr c XD XS ++ SVE.svrmx_ld c XD MT DT) ∧
    (SVE.svrmn3ld c XD XS MT DT = SVE.movmx_rr c XD XS ++ SVE.svrmn_ld c XD MT DT) ∧
    (SVE.shlmx3ld c XD XS MT DT = SVE.movmx_rr c XD XS ++ SVE.shlmx_ld c XD MT DT) ∧
    (SVE.shrmx3ld c XD XS MT DT = SVE.movmx_rr c XD XS ++ SVE.shrmx_ld c XD MT DT) ∧
    (SVE.shrmn3ld c XD XS MT DT = SVE.movmx_rr c XD XS ++ SVE.shrmn_ld c XD MT DT) :=
  ⟨rfl, rfl, rfl, rfl, rfl, rfl, rfl, rfl, rfl, rfl, rfl, rfl, rfl, rfl, rfl, rfl, rfl⟩

/-- C4: operand-order tie-break law on the AArch64/SVE profile.  The three
words of `cgtms3rr(D, S, T)` are those of `cltms3rr(D, T, S)`, and the three
words of `cgems3rr(D, S, T)` are those of `clems3rr(D, T, S)`.  Greater-than
and less-than share the opcode base `0x65404010`, greater-or-equal and
less-or-equal share `0x65404000`; within a pair the encoders differ only in the
order in which the two source fields are passed to `MXM`. -/
theorem sve_cgt_is_clt_swapped (c : SVE.Core) (XD XS XT : Triplet) :
    SVE.cgtms3rr c XD XS XT = SVE.cltms3rr c XD XT XS ∧
    SVE.cgems3rr c XD XS XT = SVE.clems3rr c XD XT XS ∧
    SVE.cgtms3rr c XD XS XT =
      [0x65404010 ||| c.MXM 0x01 (REG XS) (REG XT),
       0x04A03000 ||| c.MXM (REG XD) (REG XD) (REG XD),
       0x0560C400 ||| c.MXM (REG XD) c.TmmQ (REG XD)] ∧
    SVE.cltms3rr c XD XS XT =
      [0x65404010 ||| c.MXM 0x01 (REG XT) (REG XS),
       0x04A03000 ||| c.MXM (REG XD) (REG XD) (REG XD),
       0x0560C400 ||| c.MXM (REG XD) c.TmmQ (REG XD)] ∧
    SVE.cgems3rr c XD XS XT =
      [0x65404000 ||| c.MXM 0x01 (REG XS) (REG XT),
       0x04A03000 ||| c.MXM (REG XD) (REG XD) (REG XD),
       0x0560C400 ||| c.MXM (REG XD) c.TmmQ (REG XD)] ∧
    SVE.clems3rr c XD XS XT =
      [0x65404000 ||| c.MXM 0x01 (REG XT) (REG XS),
       0x04A03000 ||| c.MXM (REG XD) (REG XD) (REG XD),
       0x0560C400 ||| c.MXM (REG XD) c.TmmQ (REG XD)] :=
  ⟨rfl, rfl, rfl, rfl, rfl, rfl⟩

/-- C5: round-then-convert law on the AArch64/SVE profile.  `cvpms_rr(D, S)`
emits the words of the rounding `rnpms_rr(D, S)` followed by the words of the
truncating conversion `cvzms_rr(D, D)`; likewise for `cvmms` with `rnmms`,
`cvnms` with `rnnms`, `cvtms` with `rndms`, and for the memory forms
`cvXms_ld(D, M, disp)` with `rnXms_ld(D, M, disp)`. -/
theorem sve_round_then_convert (c : SVE.Core) (XD XS MS : Triplet) (DS : Imm) :
    (SVE.cvpms_rr c XD XS = SVE.rnpms_rr c XD XS ++ SVE.cvzms_rr c XD XD) ∧
    (SVE.cvmms_rr c XD XS = SVE.rnmms_rr c XD XS ++ SVE.cvzms_rr c XD XD) ∧
    (SVE.cvnms_rr c XD XS = SVE.rnnms_rr c XD XS ++ SVE.cvzms_rr c XD XD) ∧
    (SVE.cvtms_rr c XD XS = SVE.rndms_rr c XD XS ++ SVE.cvzms_rr c XD XD) ∧
    (SVE.cvpms_ld c XD MS DS = SVE.rnpms_ld c XD MS DS ++ SVE.cvzms_rr c XD XD) ∧
    (SVE.cvmms_ld c XD MS DS = SVE.rnmms_ld c XD MS DS ++ SVE.cvzms_rr c XD XD) ∧
    (SVE.cvnms_ld c XD MS DS = SVE.rnnms_ld c XD MS DS ++ SVE.cvzms_rr c XD XD) ∧
    (SVE.cvtms_ld c XD MS DS = SVE.rndms_ld c XD MS DS ++ SVE.cvzms_rr c XD XD) :=
  ⟨rfl, rfl, rfl, rfl, rfl, rfl, rfl, rfl⟩

/-- C6: on the AArch64/SVE profile `mmvmx_rr(G, S)` emits exactly two words:
`0x2440A000 | MXM(0x01, Tmm0, TmmQ)`, the same for all `G` and `S`, then
`0x0560C400 | MXM(G, S, G)`; for `G = 1`, `S = 2` the second word is
`0x0560C400 | MXM(1, 2, 1)`. -/
theorem sve_mmvmx_rr_two_words (c : SVE.Core) (XG XS : Triplet) :
    SVE.mmvmx_rr c XG XS =
      [0x2440A000 ||| c.MXM 0x01 c.Tmm0 c.TmmQ,
       0x0560C400 ||| c.MXM (REG XG) (REG XS) (REG XG)] ∧
    (SVE.mmvmx_rr c XG XS).length = 2 ∧
    (∀ XG2 XS2 : Triplet,
      (SVE.mmvmx_rr c XG2 XS2).head? = (SVE.mmvmx_rr c XG XS).head?) ∧
    (∀ m1 m2 : Nat, ∀ s1 s2 : List Nat,
      SVE.mmvmx_rr c ⟨1, m1, s1⟩ ⟨2, m2, s2⟩ =
        [0x2440A000 ||| c.MXM 0x01 c.Tmm0 c.TmmQ, 0x0560C400 ||| c.MXM 1 2 1]) :=
  ⟨rfl, rfl, fun _ _ => rfl, fun _ _ _ _ => rfl⟩

/-! ## Staging of memory operands -/

/-- C9: staging law for memory operands on the SVE and POWER profiles.  The
staging sequence is the load of the memory operand into the scratch register
`TmmM` (`movmx_ld`, resp. `movgx_ld`, with destination `TmmM`): the `AUW`
address set-up followed by one load word.  For each SVE family `andmx`,
`annmx`, `orrmx`, `xormx`, `addms`, `subms`, `mulms`, `addmx`, `submx`, `ceqms`,
`cnems`, `cltms`, `clems`, `cgtms`, `cgems` and each POWER family `andgx`,
`anngx`, `orngx`, `orrgx`, `xorgx`, `addgx`, `adsgx`, `adsgn`, `subgx`, `sbsgx`,
`sbsgn`, `svlgx`, `svrgx`, `svrgn`, `F3ld(D, S, M, disp)` emits the staging
sequence followed by exactly the words of `F3rr(D, S, TmmM)`, where `TmmM`
stands for any operand triplet whose register index is `TmmM`. -/
theorem staging_law (c : SVE.Core) (p : Power.Core) (XD XS MT : Triplet) (DT : Imm)
    (md : Nat) (sb : List Nat) :
    (SVE.movmx_ld c ⟨c.TmmM, md, sb⟩ MT DT =
      c.AUW (SIB MT) none none (some (MOD MT)) (some (VAL DT)) (some (c.A1 DT)) none ++
      [0x85804000 ||| c.MPM c.TmmM (MOD MT) (VAL DT) (c.B3 DT) (c.F1 DT)]) ∧
    (SVE.andmx3ld c XD XS MT DT =
      SVE.movmx_ld c ⟨c.TmmM, md, sb⟩ MT DT ++ SVE.andmx3rr c XD XS ⟨c.TmmM, md, sb⟩) ∧
    (SVE.annmx3ld c XD XS MT DT =
      SVE.movmx_ld c ⟨c.TmmM, md, sb⟩ MT DT ++ SVE.annmx3rr c XD XS ⟨c.TmmM, md, sb⟩) ∧
    (SVE.orrmx3ld c XD XS MT DT =
      SVE.movmx_ld c ⟨c.TmmM, md, sb⟩ MT DT ++ SVE.orrmx3rr c XD XS ⟨c.TmmM, md, sb⟩) ∧
    (SVE.xormx3ld c XD XS MT DT =
      SVE.movmx_ld c ⟨c.TmmM, md, sb⟩ MT DT ++ SVE.xormx3rr c XD XS ⟨c.TmmM, md, sb⟩) ∧
    (SVE.addms3ld c XD XS MT DT =
      SVE.movmx_ld c ⟨c.TmmM, md, sb⟩ MT DT ++ SVE.addms3rr c XD XS ⟨c.TmmM, md, sb⟩) ∧
    (SVE.subms3ld c XD XS MT DT =
      SVE.movmx_ld c ⟨c.TmmM, md, sb⟩ MT DT ++ SVE.subms3rr c XD XS ⟨c.TmmM, md, sb⟩) ∧
    (SVE.mulms3ld c XD XS MT DT =
      SVE.movmx_ld c ⟨c.TmmM, md, sb⟩ MT DT ++ SVE.mulms3rr c XD XS ⟨c.TmmM, md, sb⟩) ∧
    (SVE.addmx3ld c XD XS MT DT =
      SVE.movmx_ld c ⟨c.TmmM, md, sb⟩ MT DT ++ SVE.addmx3rr c XD XS ⟨c.TmmM, md, sb⟩) ∧
    (SVE.submx3ld c XD XS MT DT =
      SVE.movmx_ld c ⟨c.TmmM, md, sb⟩ MT DT ++ SVE.submx3rr c XD XS ⟨c.TmmM, md, sb⟩) ∧
    (SVE.ceqms3ld c XD XS MT DT =
      SVE.movmx_ld c ⟨c.TmmM, md, sb⟩ MT DT ++ SVE.ceqms3rr c XD XS ⟨c.TmmM, md, sb⟩) ∧
    (SVE.cnems3ld c XD XS MT DT =
      SVE.movmx_ld c ⟨c.TmmM, md, sb⟩ MT DT ++ SVE.cnems3rr c XD XS ⟨c.TmmM, md, sb⟩) ∧
    (SVE.cltms3ld c XD XS MT DT =
      SVE.movmx_ld c ⟨c.TmmM, md, sb⟩ MT DT ++ SVE.cltms3rr c XD XS ⟨c.TmmM, md, sb⟩) ∧
    (SVE.clems3ld c XD XS MT DT =
      SVE.movmx_ld c ⟨c.TmmM, md, sb⟩ MT DT ++ SVE.clems3rr c XD XS ⟨c.TmmM, md, sb⟩) ∧
    (SVE.cgtms3ld c XD XS MT DT =
      SVE.movmx_ld c ⟨c.TmmM, md, sb⟩ MT DT ++ SVE.cgtms3rr c XD XS ⟨c.TmmM, md, sb⟩) ∧
    (SVE.cgems3ld c XD XS MT DT =
      SVE.movmx_ld c ⟨c.TmmM, md, sb⟩ MT DT ++ SVE.cgems3rr c XD XS ⟨c.TmmM, md, sb⟩) ∧
    (Power.movgx_ld p ⟨p.TmmM, md, sb⟩ MT DT =
      p.AUW (SIB MT) none none (some (MOD MT)) (some (VAL DT)) (some (p.C2 DT)) none ++
      [0x00000000 ||| p.MPM p.TmmM (MOD MT) (VAL DT) (p.B2 DT) (p.P2 DT)]) ∧
    (Power.andgx3ld p XD XS MT DT =
      Power.movgx_ld p ⟨p.TmmM, md, sb⟩ MT DT ++ Power.andgx3rr p XD XS ⟨p.TmmM, md, sb⟩) ∧
    (Power.anngx3ld p XD XS MT DT =
      Power.movgx_ld p ⟨p.TmmM, md, sb⟩ MT DT ++ Power.anngx3rr p XD XS ⟨p.TmmM, md, sb⟩) ∧
    (Power.orngx3ld p XD XS MT DT =
      Power.movgx_ld p ⟨p.TmmM, md, sb⟩ MT DT ++ Power.orngx3rr p XD XS ⟨p.TmmM, md, sb⟩) ∧
    (Power.orrgx3ld p XD XS MT DT =
      Power.movgx_ld p ⟨p.TmmM, md, sb⟩ MT DT ++ Power.orrgx3rr p XD XS ⟨p.TmmM, md, sb⟩) ∧
    (Power.xorgx3ld p XD XS MT DT =
      Power.movgx_ld p ⟨p.TmmM, md, sb⟩ MT DT ++ Power.xorgx3rr p XD XS ⟨p.TmmM, md, sb⟩) ∧
    (Power.addgx3ld p XD XS MT DT =
      Power.movgx_ld p ⟨p.TmmM, md, sb⟩ MT DT ++ Power.addgx3rr p XD XS ⟨p.TmmM, md, sb⟩) ∧
    (Power.adsgx3ld p XD XS MT DT =
      Power.movgx_ld p ⟨p.TmmM, md, sb⟩ MT DT ++ Power.adsgx3rr p XD XS ⟨p.TmmM, md, sb⟩) ∧
    (Power.adsgn3ld p XD XS MT DT =
      Power.movgx_ld p ⟨p.TmmM, md, sb⟩ MT DT ++ Power.adsgn3rr p XD XS ⟨p.TmmM, md, sb⟩) ∧
    (Power.subgx3ld p XD XS MT DT =
      Power.movgx_ld p ⟨p.TmmM, md, sb⟩ MT DT ++ Power.subgx3rr p XD XS ⟨p.TmmM, md, sb⟩) ∧
    (Power.sbsgx3ld p XD XS MT DT =
      Power.movgx_ld p ⟨p.TmmM, md, sb⟩ MT DT ++ Power.sbsgx3rr p XD XS ⟨p.TmmM, md, sb⟩) ∧
    (Power.sbsgn3ld p XD XS MT DT =
      Power.movgx_ld p ⟨p.TmmM, md, sb⟩ MT DT ++ Power.sbsgn3rr p XD XS ⟨p.TmmM, md, sb⟩) ∧
    (Power.svlgx3ld p XD XS MT DT =
      Power.movgx_ld p ⟨p.TmmM, md, sb⟩ MT DT ++ Power.svlgx3rr p XD XS ⟨p.TmmM, md, sb⟩) ∧
    (Power.svrgx3ld p XD XS MT DT =
      Power.movgx_ld p ⟨p.TmmM, md, sb⟩ MT DT ++ Power.svrgx3rr p XD XS ⟨p.TmmM, md, sb⟩) ∧
    (Power.svrgn3ld p XD XS MT DT =
      Power.movgx_ld p ⟨p.TmmM, md, sb⟩ MT DT ++ Power.svrgn3rr p XD XS ⟨p.TmmM, md, sb⟩) := by
  simp only [SVE.movmx_ld, Power.movgx_ld, EMITW, REG, List.append_assoc,
    SVE.andmx3ld, SVE.andmx3rr, SVE.annmx3ld, SVE.annmx3rr, SVE.orrmx3ld, SVE.orrmx3rr,
    SVE.xormx3ld, SVE.xormx3rr, SVE.addms3ld, SVE.addms3rr, SVE.subms3ld, SVE.subms3rr,
    SVE.mulms3ld, SVE.mulms3rr, SVE.addmx3ld, SVE.addmx3rr, SVE.submx3ld, SVE.submx3rr,
    SVE.ceqms3ld, SVE.ceqms3rr, SVE.cnems3ld, SVE.cnems3rr, SVE.cltms3ld, SVE.cltms3rr,
    SVE.clems3ld, SVE.clems3rr, SVE.cgtms3ld, SVE.cgtms3rr, SVE.cgems3ld, SVE.cgems3rr,
    Power.andgx3ld, Power.andgx3rr, Power.anngx3ld, Power.anngx3rr, Power.orngx3ld, Power.orngx3rr,
    Power.orrgx3ld, Power.orrgx3rr, Power.xorgx3ld, Power.xorgx3rr, Power.addgx3ld, Power.addgx3rr,
    Power.adsgx3ld, Power.adsgx3rr, Power.adsgn3ld, Power.adsgn3rr, Power.subgx3ld, Power.subgx3rr,
    Power.sbsgx3ld, Power.sbsgx3rr, Power.sbsgn3ld, Power.sbsgn3rr, Power.svlgx3ld, Power.svlgx3rr,
    Power.svrgx3ld, Power.svrgx3rr, Power.svrgn3ld, Power.svrgn3rr,
    and_self]

/-- A POWER word whose three `MXM` fields hold the same register index below 32
determines that index (bits 11 to 15 of the word). -/
theorem Power.zeroing_word_field (q : Nat) (h : q < 32) :
    ((0x100004C4 ||| Power.MXM q q q) >>> 11) % 32 = q := by
  interval_cases q <;> rfl

/-- For every POWER core with the field layout of `MXM` whose scratch registers
`TmmM` and `TmmQ` are distinct vector registers, `mulgx3ld` differs from the staging sequence followed by
`mulgx3rr(D, S, TmmM)`, whatever the operands. -/
theorem Power.mulgx3ld_ne_of_distinct_scratch (p : Power.Core) (XD XS MT : Triplet) (DT : Imm)
    (md : Nat) (sb : List Nat)
    (hp : p.MXM = Power.MXM) (hM : p.TmmM < 32) (hQ : p.TmmQ < 32) (hne : p.TmmM ≠ p.TmmQ) :
    Power.mulgx3ld p XD XS MT DT ≠
      Power.movgx_ld p ⟨p.TmmM, md, sb⟩ MT DT ++ Power.mulgx3rr p XD XS ⟨p.TmmM, md, sb⟩ := by
  intro h
  simp only [Power.mulgx3ld, Power.movgx_ld, Power.mulgx3rr, EMITW, REG, List.append_assoc,
    List.append_cancel_left_eq, List.cons_append, List.nil_append, List.cons.injEq, hp] at h
  have hq := Power.zeroing_word_field p.TmmQ hQ
  have hm := Power.zeroing_word_field p.TmmM hM
  rw [h.2.1] at hq
  exact hne (hm.symm.trans hq)

/-- C10 (as stated, refuted): on a POWER core with scratch registers
`TmmM = v31` and `TmmQ = v30`, `mulgx3ld(D, S, M, disp)` for `D = 2`, `S = 3`,
`M = [r5]`, `disp = 0x10` is not the staging sequence followed by the words of
`mulgx3rr(D, S, TmmM)`: the memory form zeroes and adds `TmmQ`, the register
form `TmmM`. -/
theorem mulgx3ld_not_staged_mulgx3rr :
    Power.mulgx3ld Power.sampleCore ⟨2, 0, []⟩ ⟨3, 0, []⟩ ⟨5, 5, []⟩ ⟨0x10, 0, 0⟩ ≠
      Power.movgx_ld Power.sampleCore ⟨0x1F, 0, []⟩ ⟨5, 5, []⟩ ⟨0x10, 0, 0⟩ ++
      Power.mulgx3rr Power.sampleCore ⟨2, 0, []⟩ ⟨3, 0, []⟩ ⟨0x1F, 0, []⟩ := by
  decide

/-- C10 (amended): staging law for the POWER packed half-word multiply.
`mulgx3ld(D, S, M, disp)` emits the staging sequence (the `AUW` address set-up
and the load of the memory operand into `TmmM`) followed by the two words of
the register variant taken with the zeroed addend in `TmmQ` instead of `TmmM`:
`0x100004C4 | MXM(TmmQ, TmmQ, TmmQ)`, then
`0x10000022 | MXM(D, S, TmmM) | TmmQ << 6`; the register variant `mulgx3rr`
itself is that pair of words with `TmmM` as the zeroed addend. -/
theorem mulgx3ld_staging (p : Power.Core) (XD XS XT MT : Triplet) (DT : Imm)
    (md : Nat) (sb : List Nat) :
    Power.mulgx3ld p XD XS MT DT =
      Power.movgx_ld p ⟨p.TmmM, md, sb⟩ MT DT ++
      Power.mulgx3rr_with p p.TmmQ XD XS ⟨p.TmmM, md, sb⟩ ∧
    Power.mulgx3rr p XD XS XT = Power.mulgx3rr_with p p.TmmM XD XS XT ∧
    Power.mulgx3rr_with p p.TmmQ XD XS ⟨p.TmmM, md, sb⟩ =
      [0x100004C4 ||| p.MXM p.TmmQ p.TmmQ p.TmmQ,
       0x10000022 ||| p.MXM (REG XD) (REG XS) p.TmmM ||| p.TmmQ <<< 6] := by
  simp only [Power.mulgx3ld, Power.movgx_ld, Power.mulgx3rr, Power.mulgx3rr_with, EMITW, REG,
    List.append_assoc, List.cons_append, List.nil_append, and_self]

/-! ## x86 SSE register pairs -/

/-- The bytes of a sequence of two invocations. -/
theorem X86.emit_pair (c : X86.Core) (a b : X86.Op) :
    X86.emit c ([a] ++ [b]) = X86.Op.encode c a ++ X86.Op.encode c b := by
  simp [X86.emit]

/-- C3: chaining law on the x86 SSE 128x2 profile.  For `andax`, `annax`,
`orrax`, `xorax`, `addax`, `adsax`, `adsan`, `subax`, `sbsax`, `sbsan`, `mulax`
the bytes of `F3rr(D, S, T)` are the bytes of `movax_rr(D, S)` followed by the
bytes of `F_rr(D, T)`, and the bytes of `F3ld(D, S, M, disp)` are the bytes of
`movax_rr(D, S)` followed by the bytes of `F_ld(D, M, disp)`; for `shlax`,
`shrax`, `shran` the bytes of `F3ri(D, S, k)` are the bytes of `movax_rr(D, S)`
followed by the bytes of `F_ri(D, k)`. -/
theorem x86_chaining_law (c : X86.Core) (XD XS XT MT : Triplet) (DT : X86.Disp) (IT : Imm) :
    (X86.emit c (X86.andax3rr XD XS XT) = X86.movax_rr c XD XS ++ X86.andax_rr c XD XT) ∧
    (X86.emit c (X86.annax3rr XD XS XT) = X86.movax_rr c XD XS ++ X86.annax_rr c XD XT) ∧
    (X86.emit c (X86.orrax3rr XD XS XT) = X86.movax_rr c XD XS ++ X86.orrax_rr c XD XT) ∧
    (X86.emit c (X86.xorax3rr XD XS XT) = X86.movax_rr c XD XS ++ X86.xorax_rr c XD XT) ∧
    (X86.emit c (X86.addax3rr XD XS XT) = X86.movax_rr c XD XS ++ X86.addax_rr c XD XT) ∧
    (X86.emit c (X86.adsax3rr XD XS XT) = X86.movax_rr c XD XS ++ X86.adsax_rr c XD XT) ∧
    (X86.emit c (X86.adsan3rr XD XS XT) = X86.movax_rr c XD XS ++ X86.adsan_rr c XD XT) ∧
    (X86.emit c (X86.subax3rr XD XS XT) = X86.movax_rr c XD XS ++ X86.subax_rr c XD XT) ∧
    (X86.emit c (X86.sbsax3rr XD XS XT) = X86.movax_rr c XD XS ++ X86.sbsax_rr c XD XT) ∧
    (X86.emit c (X86.sbsan3rr XD XS XT) = X86.movax_rr c XD XS ++ X86.sbsan_rr c XD XT) ∧
    (X86.emit c (X86.mulax3rr XD XS XT) = X86.movax_rr c XD XS ++ X86.mulax_rr c XD XT) ∧
    (X86.emit c (X86.andax3ld XD XS MT DT) =
      X86.movax_rr c XD XS ++ X86.andax_ld c XD MT (DT.imm c)) ∧
    (X86.emit c (X86.annax3ld XD XS MT DT) =
      X86.movax_rr c XD XS ++ X86.annax_ld c XD MT (DT.imm c)) ∧
    (X86.emit c (X86.orrax3ld XD XS MT DT) =
      X86.movax_rr c XD XS ++ X86.orrax_ld c XD MT (DT.imm c)) ∧
    (X86.emit c (X86.xorax3ld XD XS MT DT) =
      X86.movax_rr c XD XS ++ X86.xorax_ld c XD MT (DT.imm c)) ∧
    (X86.emit c (X86.addax3ld XD XS MT DT) =
      X86.movax_rr c XD XS ++ X86.addax_ld c XD MT (DT.imm c)) ∧
    (X86.emit c (X86.adsax3ld XD XS MT DT) =
      X86.movax_rr c XD XS ++ X86.adsax_ld c XD MT (DT.imm c)) ∧
    (X86.emit c (X86.adsan3ld XD XS MT DT) =
      X86.movax_rr c XD XS ++ X86.adsan_ld c XD MT (DT.imm c)) ∧
    (X86.emit c (X86.subax3ld XD XS MT DT) =
      X86.movax_rr c XD XS ++ X86.subax_ld c XD MT (DT.imm c)) ∧
    (X86.emit c (X86.sbsax3ld XD XS MT DT) =
      X86.movax_rr c XD XS ++ X86.sbsax_ld c XD MT (DT.imm c)) ∧
    (X86.emit c (X86.sbsan3ld XD XS MT DT) =
      X86.movax_rr c XD XS ++ X86.sbsan_ld c XD MT (DT.imm c)) ∧
    (X86.emit c (X86.mulax3ld XD XS MT DT) =
      X86.movax_rr c XD XS ++ X86.mulax_ld c XD MT (DT.imm c)) ∧
    (X86.emit c (X86.shlax3ri XD XS IT) = X86.movax_rr c XD XS ++ X86.shlax_ri c XD IT) ∧
    (X86.emit c (X86.shrax3ri XD XS IT) = X86.movax_rr c XD XS ++ X86.shrax_ri c XD IT) ∧
    (X86.emit c (X86.shran3ri XD XS IT) = X86.movax_rr c XD XS ++ X86.shran_ri c XD IT) := by
  simp only [X86.emit_pair, X86.Op.encode,
    X86.andax3rr, X86.andax3ld, X86.annax3rr, X86.annax3ld, X86.orrax3rr, X86.orrax3ld, X86.xorax3rr, X86.xorax3ld,
    X86.addax3rr, X86.addax3ld, X86.adsax3rr, X86.adsax3ld, X86.adsan3rr, X86.adsan3ld, X86.subax3rr, X86.subax3ld,
    X86.sbsax3rr, X86.sbsax3ld, X86.sbsan3rr, X86.sbsan3ld, X86.mulax3rr, X86.mulax3ld,
    X86.shlax3ri, X86.shrax3ri, X86.shran3ri, and_self]

/-- On a 256-bit value the exclusive-or with all-ones is the one's complement. -/
theorem X86.xor_ones_eq_sub (x : Nat) (h : x < 2 ^ 256) :
    x ^^^ X86.ones = X86.ones - x := by
  apply Nat.eq_of_testBit_eq
  intro i
  have e : X86.ones - x = 2 ^ 256 - (x + 1) := by unfold X86.ones; omega
  rw [e, Nat.testBit_two_pow_sub_succ h, Nat.testBit_xor, X86.ones,
    Nat.testBit_two_pow_sub_one]
  by_cases hi : i < 256
  · simp [hi]
  · have hx : x.testBit i = false := by
      apply Nat.testBit_lt_two_pow
      exact Nat.lt_of_lt_of_le h (Nat.pow_le_pow_right (by decide) (by omega))
    simp [hi, hx]

/-- Lane-wise reading of the bitwise select `(g & ~m) | (s & m)` on 256-bit
values: a lane whose mask lane is zero is the lane of `g`, a lane whose mask
lane is all-ones is the lane of `s`. -/
theorem X86.lane_select (g s m i : Nat) (hi : i < 16) :
    (X86.lane i m = 0 →
      X86.lane i ((g &&& (m ^^^ X86.ones)) ||| (s &&& m)) = X86.lane i g) ∧
    (X86.lane i m = 0xFFFF →
      X86.lane i ((g &&& (m ^^^ X86.ones)) ||| (s &&& m)) = X86.lane i s) := by
  constructor
  · intro h
    apply Nat.eq_of_testBit_eq
    intro j
    simp only [X86.lane, Nat.testBit_mod_two_pow, Nat.testBit_shiftRight, Nat.testBit_or,
      Nat.testBit_and, Nat.testBit_xor, X86.ones, Nat.testBit_two_pow_sub_one]
    by_cases hj : j < 16
    · have hm : m.testBit (16 * i + j) = false := by
        have h2 : (X86.lane i m).testBit j = (0 : Nat).testBit j := by rw [h]
        rw [X86.lane, Nat.testBit_mod_two_pow, Nat.testBit_shiftRight] at h2
        simpa [hj] using h2
      have hb : 16 * i + j < 256 := by omega
      simp [hj, hm, hb]
    · simp [hj]
  · intro h
    apply Nat.eq_of_testBit_eq
    intro j
    simp only [X86.lane, Nat.testBit_mod_two_pow, Nat.testBit_shiftRight, Nat.testBit_or,
      Nat.testBit_and, Nat.testBit_xor, X86.ones, Nat.testBit_two_pow_sub_one]
    by_cases hj : j < 16
    · have hm : m.testBit (16 * i + j) = true := by
        have h2 : (X86.lane i m).testBit j = (0xFFFF : Nat).testBit j := by rw [h]
        have h3 : (0xFFFF : Nat).testBit j = true := by
          have e : (0xFFFF : Nat) = 2 ^ 16 - 1 := by norm_num
          rw [e, Nat.testBit_two_pow_sub_one]
          simpa using hj
        rw [X86.lane, Nat.testBit_mod_two_pow, Nat.testBit_shiftRight, h3] at h2
        simpa [hj] using h2
      have hb : 16 * i + j < 256 := by omega
      simp [hj, hm, hb]
    · simp [hj]

/-- C7: masked-merge semantics on the x86 SSE 128x2 profile.  With `movax_rr`,
`andax_rr`, `annax_rr`, `orrax_rr` read by their documented meanings on a
register file of 256-bit values, and `XG`, `XS`, `Xmm0` pairwise distinct
registers holding `g`, `s` and the mask `m`, executing `mmvax_rr(XG, XS)`
terminates with `XG = (g & ~m) | (s & m)`; so each of the 16 lanes whose mask
lane is zero keeps the lane of `g` and each lane whose mask lane is all-ones
receives the lane of `s`. -/
theorem x86_mmvax_rr_merges (r : X86.Regs) (XG XS : Triplet) (rf : X86.RegFile)
    (hGS : REG XG ≠ REG XS) (hG0 : REG XG ≠ REG r.Xmm0) (hS0 : REG XS ≠ REG r.Xmm0) :
    (X86.run (X86.mmvax_rr r XG XS) rf).map (fun rf2 => rf2 (REG XG)) =
      some ((rf (REG XG) &&& (rf (REG r.Xmm0) ^^^ X86.ones)) |||
        (rf (REG XS) &&& rf (REG r.Xmm0))) ∧
    ∀ i, i < 16 →
      (X86.lane i (rf (REG r.Xmm0)) = 0 →
        X86.lane i ((rf (REG XG) &&& (rf (REG r.Xmm0) ^^^ X86.ones)) |||
          (rf (REG XS) &&& rf (REG r.Xmm0))) = X86.lane i (rf (REG XG))) ∧
      (X86.lane i (rf (REG r.Xmm0)) = 0xFFFF →
        X86.lane i ((rf (REG XG) &&& (rf (REG r.Xmm0) ^^^ X86.ones)) |||
          (rf (REG XS) &&& rf (REG r.Xmm0))) = X86.lane i (rf (REG XS))) := by
  refine ⟨?_, fun i hi => X86.lane_select _ _ _ i hi⟩
  have h0S : REG r.Xmm0 ≠ REG XS := fun e => hS0 e.symm
  have h0G : REG r.Xmm0 ≠ REG XG := fun e => hG0 e.symm
  simp [X86.mmvax_rr, X86.run, X86.Op.exec, X86.RegFile.write, hGS, hG0, hS0, h0S, h0G,
    Nat.land_comm]

/-- C7 at a concrete register file: `Xmm0` = register 0 holds the mask
`0xFFFF` (lane 0 all-ones, the other lanes zero), `XG` = register 1 holds
`0x11112222`, `XS` = register 2 holds `0x33334444`; after `mmvax_rr(XG, XS)`
register 1 holds `0x11114444`. -/
theorem x86_mmvax_rr_merges_example :
    (X86.run (X86.mmvax_rr ⟨⟨0, 3, []⟩, ⟨5, 2, []⟩, ⟨1, 3, []⟩⟩ ⟨1, 3, []⟩ ⟨2, 3, []⟩)
      (fun i => if i = 0 then 0xFFFF else if i = 1 then 0x11112222 else 0x33334444)).map
      (fun rf2 => rf2 1) = some 0x11114444 :=
  (x86_mmvax_rr_merges ⟨⟨0, 3, []⟩, ⟨5, 2, []⟩, ⟨1, 3, []⟩⟩ ⟨1, 3, []⟩ ⟨2, 3, []⟩
    (fun i => if i = 0 then 0xFFFF else if i = 1 then 0x11112222 else 0x33334444)
    (by decide) (by decide) (by decide)).1.trans (by decide)

/-- The bytes of the per-lane loop: the bytes of `stack_st(Recx)`, then for
each lane in increasing order the bytes of the count load followed by the bytes
of the scalar shift, then the bytes of `stack_ld(Recx)`. -/
theorem X86.range_sixteen :
    List.range 16 = [0, 1, 2, 3, 4, 5, 6, 7, 8, 9, 10, 11, 12, 13, 14, 15] := by
  decide

/-- The per-lane loop, unrolled. -/
theorem X86.perLaneLoop_unrolled (r : X86.Regs) (sh : Triplet → X86.Disp → X86.Op) :
    X86.perLaneLoop r sh =
      [X86.Op.stack_st r.Recx,
       X86.Op.movhx_ld r.Recx r.Mebp (.inf_SCR02 0x00), sh r.Mebp (.inf_SCR01 0x00),
       X86.Op.movhx_ld r.Recx r.Mebp (.inf_SCR02 0x02), sh r.Mebp (.inf_SCR01 0x02),
       X86.Op.movhx_ld r.Recx r.Mebp (.inf_SCR02 0x04), sh r.Mebp (.inf_SCR01 0x04),
       X86.Op.movhx_ld r.Recx r.Mebp (.inf_SCR02 0x06), sh r.Mebp (.inf_SCR01 0x06),
       X86.Op.movhx_ld r.Recx r.Mebp (.inf_SCR02 0x08), sh r.Mebp (.inf_SCR01 0x08),
       X86.Op.movhx_ld r.Recx r.Mebp (.inf_SCR02 0x0A), sh r.Mebp (.inf_SCR01 0x0A),
       X86.Op.movhx_ld r.Recx r.Mebp (.inf_SCR02 0x0C), sh r.Mebp (.inf_SCR01 0x0C),
       X86.Op.movhx_ld r.Recx r.Mebp (.inf_SCR02 0x0E), sh r.Mebp (.inf_SCR01 0x0E),
       X86.Op.movhx_ld r.Recx r.Mebp (.inf_SCR02 0x10), sh r.Mebp (.inf_SCR01 0x10),
       X86.Op.movhx_ld r.Recx r.Mebp (.inf_SCR02 0x12), sh r.Mebp (.inf_SCR01 0x12),
       X86.Op.movhx_ld r.Recx r.Mebp (.inf_SCR02 0x14), sh r.Mebp (.inf_SCR01 0x14),
       X86.Op.movhx_ld r.Recx r.Mebp (.inf_SCR02 0x16), sh r.Mebp (.inf_SCR01 0x16),
       X86.Op.movhx_ld r.Recx r.Mebp (.inf_SCR02 0x18), sh r.Mebp (.inf_SCR01 0x18),
       X86.Op.movhx_ld r.Recx r.Mebp (.inf_SCR02 0x1A), sh r.Mebp (.inf_SCR01 0x1A),
       X86.Op.movhx_ld r.Recx r.Mebp (.inf_SCR02 0x1C), sh r.Mebp (.inf_SCR01 0x1C),
       X86.Op.movhx_ld r.Recx r.Mebp (.inf_SCR02 0x1E), sh r.Mebp (.inf_SCR01 0x1E),
       X86.Op.stack_ld r.Recx] := by
  simp [X86.perLaneLoop, X86.range_sixteen]

theorem X86.emit_perLaneLoop (c : X86.Core) (r : X86.Regs) (sh : Triplet → X86.Disp → X86.Op) :
    X86.emit c (X86.perLaneLoop r sh) =
      c.stack_st r.Recx ++
      (List.range 16).flatMap (fun i =>
        c.movhx_ld r.Recx r.Mebp (c.inf_SCR02 (2 * i)) ++
        X86.Op.encode c (sh r.Mebp (.inf_SCR01 (2 * i)))) ++
      c.stack_ld r.Recx := by
  simp [X86.emit, X86.perLaneLoop, X86.Op.encode, X86.Disp.imm, List.flatMap_append,
    List.flatMap_assoc]

/-- C8: scalar per-lane fallback on the x86 SSE 128x2 profile.  `svlax_xx` is
`stack_st(Recx)`, then for `i = 0, 1, ..., 15` in increasing order the pair
`movhx_ld(Recx, Mebp, inf_SCR02(2*i))`, `shlhx_mx(Mebp, inf_SCR01(2*i))`, then
`stack_ld(Recx)`, and so are its bytes.  Hence the byte offsets of the
half-words it shifts are `0, 2, ..., 30`, each exactly once, and the count
of each shift is the one loaded just before it from the same byte offset of the
count buffer.  The same holds for `svrax_xx` with `shrhx_mx` and for `svran_xx`
with `shrhn_mx`. -/
theorem x86_per_lane_shift_loop (c : X86.Core) (r : X86.Regs) :
    X86.svlax_xx r = X86.perLaneLoop r X86.Op.shlhx_mx ∧
    X86.svrax_xx r = X86.perLaneLoop r X86.Op.shrhx_mx ∧
    X86.svran_xx r = X86.perLaneLoop r X86.Op.shrhn_mx ∧
    X86.emit c (X86.svlax_xx r) =
      c.stack_st r.Recx ++
      (List.range 16).flatMap (fun i =>
        c.movhx_ld r.Recx r.Mebp (c.inf_SCR02 (2 * i)) ++
        c.shlhx_mx r.Mebp (c.inf_SCR01 (2 * i))) ++
      c.stack_ld r.Recx ∧
    X86.emit c (X86.svrax_xx r) =
      c.stack_st r.Recx ++
      (List.range 16).flatMap (fun i =>
        c.movhx_ld r.Recx r.Mebp (c.inf_SCR02 (2 * i)) ++
        c.shrhx_mx r.Mebp (c.inf_SCR01 (2 * i))) ++
      c.stack_ld r.Recx ∧
    X86.emit c (X86.svran_xx r) =
      c.stack_st r.Recx ++
      (List.range 16).flatMap (fun i =>
        c.movhx_ld r.Recx r.Mebp (c.inf_SCR02 (2 * i)) ++
        c.shrhn_mx r.Mebp (c.inf_SCR01 (2 * i))) ++
      c.stack_ld r.Recx ∧
    (X86.svlax_xx r).filterMap X86.Op.shiftedLane = (List.range 16).map (fun i => 2 * i) ∧
    (X86.svrax_xx r).filterMap X86.Op.shiftedLane = (List.range 16).map (fun i => 2 * i) ∧
    (X86.svran_xx r).filterMap X86.Op.shiftedLane = (List.range 16).map (fun i => 2 * i) ∧
    (X86.svlax_xx r).filterMap X86.Op.countLane = (List.range 16).map (fun i => 2 * i) ∧
    (X86.svrax_xx r).filterMap X86.Op.countLane = (List.range 16).map (fun i => 2 * i) ∧
    (X86.svran_xx r).filterMap X86.Op.countLane = (List.range 16).map (fun i => 2 * i) ∧
    ((List.range 16).map (fun i => 2 * i)).Nodup ∧
    (List.range 16).map (fun i => 2 * i) =
      [0, 2, 4, 6, 8, 10, 12, 14, 16, 18, 20, 22, 24, 26, 28, 30] := by
  have hl : X86.svlax_xx r = X86.perLaneLoop r X86.Op.shlhx_mx := by
    rw [X86.perLaneLoop_unrolled]
    simp only [X86.svlax_xx, List.cons_append, List.nil_append]
  have hr : X86.svrax_xx r = X86.perLaneLoop r X86.Op.shrhx_mx := by
    rw [X86.perLaneLoop_unrolled]
    simp only [X86.svrax_xx, List.cons_append, List.nil_append]
  have hn : X86.svran_xx r = X86.perLaneLoop r X86.Op.shrhn_mx := by
    rw [X86.perLaneLoop_unrolled]
    simp only [X86.svran_xx, List.cons_append, List.nil_append]
  have hmap : (List.range 16).map (fun i => 2 * i) =
      [0, 2, 4, 6, 8, 10, 12, 14, 16, 18, 20, 22, 24, 26, 28, 30] := by decide
  refine ⟨hl, hr, hn, ?_, ?_, ?_, ?_, ?_, ?_, ?_, ?_, ?_, by decide, hmap⟩
  · rw [hl, X86.emit_perLaneLoop]; rfl
  · rw [hr, X86.emit_perLaneLoop]; rfl
  · rw [hn, X86.emit_perLaneLoop]; rfl
  · rw [hl, X86.perLaneLoop_unrolled, hmap]; simp [List.filterMap_cons, X86.Op.shiftedLane]
  · rw [hr, X86.perLaneLoop_unrolled, hmap]; simp [List.filterMap_cons, X86.Op.shiftedLane]
  · rw [hn, X86.perLaneLoop_unrolled, hmap]; simp [List.filterMap_cons, X86.Op.shiftedLane]
  · rw [hl, X86.perLaneLoop_unrolled, hmap]; simp [List.filterMap_cons, X86.Op.countLane]
  · rw [hr, X86.perLaneLoop_unrolled, hmap]; simp [List.filterMap_cons, X86.Op.countLane]
  · rw [hn, X86.perLaneLoop_unrolled, hmap]; simp [List.filterMap_cons, X86.Op.countLane]

/-! ## Shift counts -/

/-- Only the low four bits of a count pass the mask `0x0F`: adding the element
width 16 does not change them. -/
theorem land_fifteen_add_sixteen (k : Nat) : 0x0F &&& (k + 16) = 0x0F &&& k := by
  have e : (0x0F : Nat) = 2 ^ 4 - 1 := by decide
  rw [Nat.land_comm, Nat.land_comm 0x0F k, e, Nat.and_pow_two_sub_one_eq_mod,
    Nat.and_pow_two_sub_one_eq_mod]
  omega

/-- C11: modulo-reduction law on the POWER profile (element width 16).  For all
registers `D`, `S` and every immediate `k`, `shlgx3ri(D, S, k)` and
`shlgx3ri(D, S, k + 16)` emit the same two words, and so do `shrgx3ri` and
`shrgn3ri`: the count enters only the splat word
`0x1000034C | MXM(TmmM, 0x0F & k, 0x00)`, through `0x0F & k`. -/
theorem power_shift_imm_modulo (c : Power.Core) (XD XS : Triplet) (k t1 c1 t2 c2 : Nat) :
    Power.shlgx3ri c XD XS ⟨k, t1, c1⟩ = Power.shlgx3ri c XD XS ⟨k + 16, t2, c2⟩ ∧
    Power.shrgx3ri c XD XS ⟨k, t1, c1⟩ = Power.shrgx3ri c XD XS ⟨k + 16, t2, c2⟩ ∧
    Power.shrgn3ri c XD XS ⟨k, t1, c1⟩ = Power.shrgn3ri c XD XS ⟨k + 16, t2, c2⟩ ∧
    Power.shlgx3ri c XD XS ⟨k, t1, c1⟩ =
      [0x1000034C ||| c.MXM c.TmmM (0x0F &&& k) 0x00,
       0x10000144 ||| c.MXM (REG XD) (REG XS) c.TmmM] ∧
    Power.shrgx3ri c XD XS ⟨k, t1, c1⟩ =
      [0x1000034C ||| c.MXM c.TmmM (0x0F &&& k) 0x00,
       0x10000244 ||| c.MXM (REG XD) (REG XS) c.TmmM] ∧
    Power.shrgn3ri c XD XS ⟨k, t1, c1⟩ =
      [0x1000034C ||| c.MXM c.TmmM (0x0F &&& k) 0x00,
       0x10000344 ||| c.MXM (REG XD) (REG XS) c.TmmM] := by
  simp only [Power.shlgx3ri, Power.shrgx3ri, Power.shrgn3ri, EMITW, VAL,
    land_fifteen_add_sixteen, List.cons_append, List.nil_append, and_self]

/-- C16: on the POWER profile `mmvgx_rr(G, S)` emits exactly one word,
`0xF000003F | MXM(G, G, S)`, and `mmvgx_ld(G, M, disp)` emits the staging load
of the memory operand into `TmmM` (the `AUW` address set-up and one load word)
followed by that single word with `TmmM` in the place of `S`. -/
theorem power_mmvgx_native_select (c : Power.Core) (XG XS MS : Triplet) (DS : Imm)
    (md : Nat) (sb : List Nat) :
    Power.mmvgx_rr c XG XS = [0xF000003F ||| c.MXM (REG XG) (REG XG) (REG XS)] ∧
    (Power.mmvgx_rr c XG XS).length = 1 ∧
    Power.mmvgx_ld c XG MS DS =
      Power.movgx_ld c ⟨c.TmmM, md, sb⟩ MS DS ++ Power.mmvgx_rr c XG ⟨c.TmmM, md, sb⟩ ∧
    Power.mmvgx_ld c XG MS DS =
      c.AUW (SIB MS) none none (some (MOD MS)) (some (VAL DS)) (some (c.C2 DS)) none ++
      [0x00000000 ||| c.MPM c.TmmM (MOD MS) (VAL DS) (c.B2 DS) (c.P2 DS),
       0xF000003F ||| c.MXM (REG XG) (REG XG) c.TmmM] := by
  simp only [Power.mmvgx_rr, Power.mmvgx_ld, Power.movgx_ld, EMITW, REG, List.append_assoc,
    List.cons_append, List.nil_append, List.length_singleton, and_self]

/-! ## AArch64 SVE: comparisons -/

/-- C14: on the AArch64/SVE profile each three-operand register comparison
`ceqms3rr`, `cnems3rr`, `cltms3rr`, `clems3rr`, `cgtms3rr`, `cgems3rr` emits
exactly three words: a raw compare `base | MXM(0x01, a, b)` into predicate 1
(`a`, `b` the two sources, in this or the swapped order), then
`0x04A03000 | MXM(D, D, D)`, then `0x0560C400 | MXM(D, TmmQ, D)`.  The last
two words are the same for the six families and do not change with the
sources; the compare word has the constant `0x01`, not `D`, as its destination
field and does not change with `D`. -/
theorem sve_compare_three_words (c : SVE.Core) (XD XS XT : Triplet) :
    SVE.ceqms3rr c XD XS XT =
      [0x65406000 ||| c.MXM 0x01 (REG XS) (REG XT),
       0x04A03000 ||| c.MXM (REG XD) (REG XD) (REG XD),
       0x0560C400 ||| c.MXM (REG XD) c.TmmQ (REG XD)] ∧
    SVE.cnems3rr c XD XS XT =
      [0x65406010 ||| c.MXM 0x01 (REG XS) (REG XT),
       0x04A03000 ||| c.MXM (REG XD) (REG XD) (REG XD),
       0x0560C400 ||| c.MXM (REG XD) c.TmmQ (REG XD)] ∧
    SVE.cltms3rr c XD XS XT =
      [0x65404010 ||| c.MXM 0x01 (REG XT) (REG XS),
       0x04A03000 ||| c.MXM (REG XD) (REG XD) (REG XD),
       0x0560C400 ||| c.MXM (REG XD) c.TmmQ (REG XD)] ∧
    SVE.clems3rr c XD XS XT =
      [0x65404000 ||| c.MXM 0x01 (REG XT) (REG XS),
       0x04A03000 ||| c.MXM (REG XD) (REG XD) (REG XD),
       0x0560C400 ||| c.MXM (REG XD) c.TmmQ (REG XD)] ∧
    SVE.cgtms3rr c XD XS XT =
      [0x65404010 ||| c.MXM 0x01 (REG XS) (REG XT),
       0x04A03000 ||| c.MXM (REG XD) (REG XD) (REG XD),
       0x0560C400 ||| c.MXM (REG XD) c.TmmQ (REG XD)] ∧
    SVE.cgems3rr c XD XS XT =
      [0x65404000 ||| c.MXM 0x01 (REG XS) (REG XT),
       0x04A03000 ||| c.MXM (REG XD) (REG XD) (REG XD),
       0x0560C400 ||| c.MXM (REG XD) c.TmmQ (REG XD)] ∧
    ((SVE.ceqms3rr c XD XS XT).length = 3 ∧ (SVE.cnems3rr c XD XS XT).length = 3 ∧
      (SVE.cltms3rr c XD XS XT).length = 3 ∧ (SVE.clems3rr c XD XS XT).length = 3 ∧
      (SVE.cgtms3rr c XD XS XT).length = 3 ∧ (SVE.cgems3rr c XD XS XT).length = 3) ∧
    (∀ XS2 XT2 : Triplet,
      (SVE.ceqms3rr c XD XS2 XT2).tail = (SVE.ceqms3rr c XD XS XT).tail ∧
      (SVE.cnems3rr c XD XS2 XT2).tail = (SVE.ceqms3rr c XD XS XT).tail ∧
      (SVE.cltms3rr c XD XS2 XT2).tail = (SVE.ceqms3rr c XD XS XT).tail ∧
      (SVE.clems3rr c XD XS2 XT2).tail = (SVE.ceqms3rr c XD XS XT).tail ∧
      (SVE.cgtms3rr c XD XS2 XT2).tail = (SVE.ceqms3rr c XD XS XT).tail ∧
      (SVE.cgems3rr c XD XS2 XT2).tail = (SVE.ceqms3rr c XD XS XT).tail) ∧
    (∀ XD2 : Triplet,
      (SVE.ceqms3rr c XD2 XS XT).head? = (SVE.ceqms3rr c XD XS XT).head? ∧
      (SVE.cnems3rr c XD2 XS XT).head? = (SVE.cnems3rr c XD XS XT).head? ∧
      (SVE.cltms3rr c XD2 XS XT).head? = (SVE.cltms3rr c XD XS XT).head? ∧
      (SVE.clems3rr c XD2 XS XT).head? = (SVE.clems3rr c XD XS XT).head? ∧
      (SVE.cgtms3rr c XD2 XS XT).head? = (SVE.cgtms3rr c XD XS XT).head? ∧
      (SVE.cgems3rr c XD2 XS XT).head? = (SVE.cgems3rr c XD XS XT).head?) :=
  ⟨rfl, rfl, rfl, rfl, rfl, rfl, ⟨rfl, rfl, rfl, rfl, rfl, rfl⟩,
    fun _ _ => ⟨rfl, rfl, rfl, rfl, rfl, rfl⟩, fun _ => ⟨rfl, rfl, rfl, rfl, rfl, rfl⟩⟩

/-! ## MIPS64 -/

/-- C19: on MIPS64 every register-destination flag-setting form (`andzz`,
`orrzz`, `xorzz`, `addzz`, `subzz` in their `_ri`, `_rr`, `_ld` variants;
`shlzz`, `shrzz` in their `_rx`, `_ri`, `_rr`, `_ld` variants; `negzz_rx`)
emits the words of the corresponding `zx` form followed by exactly one more
word, `0x00000025 | MRM(TLxx, REG(RG), TZxx)`, which copies the result register
into the flag register `TLxx`. -/
theorem m64_flag_setting_forms (c : M64.Core) (RG RS MS : Triplet) (IS DP : Imm) :
    (M64.andzz_ri c RG IS =
      M64.andzx_ri c RG IS ++ [0x00000025 ||| c.MRM c.TLxx (REG RG) c.TZxx]) ∧
    (M64.andzz_rr c RG RS =
      M64.andzx_rr c RG RS ++ [0x00000025 ||| c.MRM c.TLxx (REG RG) c.TZxx]) ∧
    (M64.andzz_ld c RG MS DP =
      M64.andzx_ld c RG MS DP ++ [0x00000025 ||| c.MRM c.TLxx (REG RG) c.TZxx]) ∧
    (M64.orrzz_ri c RG IS =
      M64.orrzx_ri c RG IS ++ [0x00000025 ||| c.MRM c.TLxx (REG RG) c.TZxx]) ∧
    (M64.orrzz_rr c RG RS =
      M64.orrzx_rr c RG RS ++ [0x00000025 ||| c.MRM c.TLxx (REG RG) c.TZxx]) ∧
    (M64.orrzz_ld c RG MS DP =
      M64.orrzx_ld c RG MS DP ++ [0x00000025 ||| c.MRM c.TLxx (REG RG) c.TZxx]) ∧
    (M64.xorzz_ri c RG IS =
      M64.xorzx_ri c RG IS ++ [0x00000025 ||| c.MRM c.TLxx (REG RG) c.TZxx]) ∧
    (M64.xorzz_rr c RG RS =
      M64.xorzx_rr c RG RS ++ [0x00000025 ||| c.MRM c.TLxx (REG RG) c.TZxx]) ∧
    (M64.xorzz_ld c RG MS DP =
      M64.xorzx_ld c RG MS DP ++ [0x00000025 ||| c.MRM c.TLxx (REG RG) c.TZxx]) ∧
    (M64.addzz_ri c RG IS =
      M64.addzx_ri c RG IS ++ [0x00000025 ||| c.MRM c.TLxx (REG RG) c.TZxx]) ∧
    (M64.addzz_rr c RG RS =
      M64.addzx_rr c RG RS ++ [0x00000025 ||| c.MRM c.TLxx (REG RG) c.TZxx]) ∧
    (M64.addzz_ld c RG MS DP =
      M64.addzx_ld c RG MS DP ++ [0x00000025 ||| c.MRM c.TLxx (REG RG) c.TZxx]) ∧
    (M64.subzz_ri c RG IS =
      M64.subzx_ri c RG IS ++ [0x00000025 ||| c.MRM c.TLxx (REG RG) c.TZxx]) ∧
    (M64.subzz_rr c RG RS =
      M64.subzx_rr c RG RS ++ [0x00000025 ||| c.MRM c.TLxx (REG RG) c.TZxx]) ∧
    (M64.subzz_ld c RG MS DP =
      M64.subzx_ld c RG MS DP ++ [0x00000025 ||| c.MRM c.TLxx (REG RG) c.TZxx]) ∧
    (M64.shlzz_rx c RG =
      M64.shlzx_rx c RG ++ [0x00000025 ||| c.MRM c.TLxx (REG RG) c.TZxx]) ∧
    (M64.shlzz_ri c RG IS =
      M64.shlzx_ri c RG IS ++ [0x00000025 ||| c.MRM c.TLxx (REG RG) c.TZxx]) ∧
    (M64.shlzz_rr c RG RS =
      M64.shlzx_rr c RG RS ++ [0x00000025 ||| c.MRM c.TLxx (REG RG) c.TZxx]) ∧
    (M64.shlzz_ld c RG MS DP =
      M64.shlzx_ld c RG MS DP ++ [0x00000025 ||| c.MRM c.TLxx (REG RG) c.TZxx]) ∧
    (M64.shrzz_rx c RG =
      M64.shrzx_rx c RG ++ [0x00000025 ||| c.MRM c.TLxx (REG RG) c.TZxx]) ∧
    (M64.shrzz_ri c RG IS =
      M64.shrzx_ri c RG IS ++ [0x00000025 ||| c.MRM c.TLxx (REG RG) c.TZxx]) ∧
    (M64.shrzz_rr c RG RS =
      M64.shrzx_rr c RG RS ++ [0x00000025 ||| c.MRM c.TLxx (REG RG) c.TZxx]) ∧
    (M64.shrzz_ld c RG MS DP =
      M64.shrzx_ld c RG MS DP ++ [0x00000025 ||| c.MRM c.TLxx (REG RG) c.TZxx]) ∧
    (M64.negzz_rx c RG =
      M64.negzx_rx c RG ++ [0x00000025 ||| c.MRM c.TLxx (REG RG) c.TZxx]) :=
  ⟨rfl, rfl, rfl, rfl, rfl, rfl, rfl, rfl, rfl, rfl, rfl, rfl, rfl, rfl, rfl, rfl, rfl, rfl, rfl, rfl, rfl, rfl, rfl, rfl⟩

/-! ## AArch64 SVE: shifts by immediate -/

/-- An opcode bit OR-ed in after the operand fields is an opcode bit of the
base. -/
theorem lor_opcode_bit (b x m : Nat) : b ||| x ||| m = (b ||| m) ||| x := by
  rw [Nat.lor_assoc, Nat.lor_comm x m, ← Nat.lor_assoc]

/-- C20: on the AArch64/SVE profile a right shift by the immediate zero is
emitted as a shift-left.  For all registers `D`, `S` and every field packer
`MXM`, `shrmx3ri(D, S, 0)`, `shrmn3ri(D, S, 0)` and `shlmx3ri(D, S, 0)` emit
the same single word `0x04309C00 | MXM(D, S, 0x00)` (a true condition being the
all-ones mask). -/
theorem sve_zero_shift_right_is_shift_left (c : SVE.Core) (XD XS : Triplet)
    (t1 c1 t2 c2 t3 c3 : Nat) :
    SVE.shrmx3ri c XD XS ⟨0, t1, c1⟩ = [0x04309C00 ||| c.MXM (REG XD) (REG XS) 0x00] ∧
    SVE.shrmn3ri c XD XS ⟨0, t2, c2⟩ = [0x04309C00 ||| c.MXM (REG XD) (REG XS) 0x00] ∧
    SVE.shlmx3ri c XD XS ⟨0, t3, c3⟩ = [0x04309C00 ||| c.MXM (REG XD) (REG XS) 0x00] := by
  have e1 : M ((0 : Nat) == 0) &&& 0x00000800 = 0x800 := by decide
  have e2 : M ((0 : Nat) != 0) &&& 0x00000000 = 0 := by decide
  have e3 : (0x0F &&& NEG 0) <<< 16 = 0 := by decide
  have e4 : M ((0 : Nat) == 0) &&& 0x00000C00 = 0xC00 := by decide
  have e5 : M (decide ((0 : Nat) < 16)) &&& 0x00000800 = 0x800 := by decide
  have e6 : M (decide ((0 : Nat) > 15)) &&& 0x00000000 = 0 := by decide
  have e7 : ((0x0F : Nat) &&& 0) <<< 16 = 0 := by decide
  have b1 : (0x04309400 : Nat) ||| 0x800 = 0x04309C00 := by decide
  have b2 : (0x04309000 : Nat) ||| 0xC00 = 0x04309C00 := by decide
  refine ⟨?_, ?_, ?_⟩
  · simp only [SVE.shrmx3ri, EMITW, VAL, e1, e2, e3, Nat.or_zero]
    rw [lor_opcode_bit, b1]
  · simp only [SVE.shrmn3ri, EMITW, VAL, e4, e2, e3, Nat.or_zero]
    rw [lor_opcode_bit, b2]
  · simp only [SVE.shlmx3ri, EMITW, VAL, e5, e6, e7, Nat.or_zero]
    rw [lor_opcode_bit, b1]

/-- The word of `shlmx3ri` for a count below 16: the shift-left opcode bit
`0x800` is set and the amount field holds the count. -/
theorem SVE.shlmx3ri_lt (c : SVE.Core) (XD XS : Triplet) (k t1 c1 : Nat) (hk : k < 16) :
    SVE.shlmx3ri c XD XS ⟨k, t1, c1⟩ =
      [0x04309C00 ||| c.MXM (REG XD) (REG XS) 0x00 ||| k <<< 16] := by
  have e1 : M (decide (k < 16)) &&& 0x00000800 = 0x800 := by
    simp only [hk, decide_True, M, if_true]; decide
  have e2 : M (decide (k > 15)) &&& 0x00000000 = 0 := Nat.and_zero _
  have e3 : 0x0F &&& k = k := by
    have e : (0x0F : Nat) = 2 ^ 4 - 1 := by decide
    rw [Nat.land_comm, e, Nat.and_pow_two_sub_one_eq_mod]
    omega
  have b1 : (0x04309400 : Nat) ||| 0x800 = 0x04309C00 := by decide
  simp only [SVE.shlmx3ri, EMITW, VAL, e1, e2, e3, Nat.or_zero]
  rw [lor_opcode_bit 0x04309400, b1]

/-- The word of `shlmx3ri` for a count of 16 or more: the shift-left opcode bit
`0x800` is clear and the amount field holds the low four bits of the count. -/
theorem SVE.shlmx3ri_ge (c : SVE.Core) (XD XS : Triplet) (k t1 c1 : Nat) (hk : 16 ≤ k) :
    SVE.shlmx3ri c XD XS ⟨k, t1, c1⟩ =
      [0x04309400 ||| c.MXM (REG XD) (REG XS) 0x00 ||| (0x0F &&& k) <<< 16] := by
  have h1 : ¬ k < 16 := by omega
  have e1 : M (decide (k < 16)) &&& 0x00000800 = 0 := by
    simp only [h1, decide_False, M]; decide
  have e2 : M (decide (k > 15)) &&& 0x00000000 = 0 := Nat.and_zero _
  simp only [SVE.shlmx3ri, EMITW, VAL, e1, e2, Nat.or_zero]

/-- Where the operand fields leave bit 11 of the word clear, the words of
`shlmx3ri` for a count `k` below 16 and for `k + 16` differ (in that bit). -/
theorem SVE.shlmx3ri_ne_of_lt (c : SVE.Core) (XD XS : Triplet) (k t1 c1 t2 c2 : Nat)
    (hk : k < 16) (hm : (c.MXM (REG XD) (REG XS) 0x00).testBit 11 = false) :
    SVE.shlmx3ri c XD XS ⟨k, t1, c1⟩ ≠ SVE.shlmx3ri c XD XS ⟨k + 16, t2, c2⟩ := by
  rw [SVE.shlmx3ri_lt c XD XS k t1 c1 hk, SVE.shlmx3ri_ge c XD XS (k + 16) t2 c2 (by omega)]
  intro h
  have h2 := congrArg (fun w => w.testBit 11) (List.cons.inj h).1
  simp only [Nat.testBit_or, Nat.testBit_shiftLeft, hm] at h2
  have a1 : (0x04309C00 : Nat).testBit 11 = true := by decide
  have a2 : (0x04309400 : Nat).testBit 11 = false := by decide
  rw [a1, a2] at h2
  simp at h2

/-- C12 (as stated, refuted): on an AArch64 core that packs the register
fields at bits 0, 5 and 16, `shlmx3ri(D, S, k)` for `D = 1`, `S = 2` emits the
word `0x04309C41` for `k = 0` and the different word `0x04309441` for
`k + 16 = 16`. -/
theorem sve_shlmx3ri_zero_vs_sixteen :
    SVE.shlmx3ri SVE.sampleCore ⟨1, 0, []⟩ ⟨2, 0, []⟩ ⟨0, 0, 0⟩ = [0x04309C41] ∧
    SVE.shlmx3ri SVE.sampleCore ⟨1, 0, []⟩ ⟨2, 0, []⟩ ⟨16, 0, 0⟩ = [0x04309441] ∧
    SVE.shlmx3ri SVE.sampleCore ⟨1, 0, []⟩ ⟨2, 0, []⟩ ⟨0, 0, 0⟩ ≠
      SVE.shlmx3ri SVE.sampleCore ⟨1, 0, []⟩ ⟨2, 0, []⟩ ⟨16, 0, 0⟩ := by
  decide

/-- C12 (amended): modulo-reduction on the AArch64/SVE profile (element width
16) holds from 16 on.  For all registers `D`, `S` and every immediate
`k >= 16`, `shlmx3ri(D, S, k)` and `shlmx3ri(D, S, k + 16)` emit the identical
word `0x04309400 | MXM(D, S, 0) | ((0x0F & k) << 16)`.  For `k < 16` the two
words differ only in the shift-left opcode bit `0x800`: `k` emits
`0x04309C00 | MXM(D, S, 0) | (k << 16)` and `k + 16` emits
`0x04309400 | MXM(D, S, 0) | (k << 16)`. -/
theorem sve_shlmx3ri_modulo (c : SVE.Core) (XD XS : Triplet) (k t1 c1 t2 c2 : Nat) :
    (16 ≤ k →
      SVE.shlmx3ri c XD XS ⟨k, t1, c1⟩ = SVE.shlmx3ri c XD XS ⟨k + 16, t2, c2⟩ ∧
      SVE.shlmx3ri c XD XS ⟨k, t1, c1⟩ =
        [0x04309400 ||| c.MXM (REG XD) (REG XS) 0x00 ||| (0x0F &&& k) <<< 16]) ∧
    (k < 16 →
      SVE.shlmx3ri c XD XS ⟨k, t1, c1⟩ =
        [0x04309C00 ||| c.MXM (REG XD) (REG XS) 0x00 ||| k <<< 16] ∧
      SVE.shlmx3ri c XD XS ⟨k + 16, t2, c2⟩ =
        [0x04309400 ||| c.MXM (REG XD) (REG XS) 0x00 ||| k <<< 16] ∧
      0x04309C00 ||| c.MXM (REG XD) (REG XS) 0x00 ||| k <<< 16 =
        (0x04309400 ||| c.MXM (REG XD) (REG XS) 0x00 ||| k <<< 16) ||| 0x800) := by
  constructor
  · intro hk
    rw [SVE.shlmx3ri_ge c XD XS k t1 c1 hk, SVE.shlmx3ri_ge c XD XS (k + 16) t2 c2 (by omega),
      land_fifteen_add_sixteen]
    exact ⟨rfl, rfl⟩
  · intro hk
    have e3 : 0x0F &&& (k + 16) = k := by
      have e : (0x0F : Nat) = 2 ^ 4 - 1 := by decide
      rw [Nat.land_comm, e, Nat.and_pow_two_sub_one_eq_mod]
      omega
    have b1 : (0x04309400 : Nat) ||| 0x800 = 0x04309C00 := by decide
    refine ⟨SVE.shlmx3ri_lt c XD XS k t1 c1 hk, ?_, ?_⟩
    · rw [SVE.shlmx3ri_ge c XD XS (k + 16) t2 c2 (by omega), e3]
    · rw [lor_opcode_bit _ _ 0x800, lor_opcode_bit _ _ 0x800, b1]

/-! ## x86 SSE register pairs: shifts by immediate -/

/-- Two sequences that repeat a group around the same middle part are equal
exactly when the groups are. -/
theorem append_around_inj {α : Type} (a b r : List α) :
    a ++ (r ++ a) = b ++ (r ++ b) ↔ a = b := by
  constructor
  · intro h
    have hl := congrArg List.length h
    simp only [List.length_append] at hl
    exact (List.append_inj h (by omega)).1
  · intro h
    rw [h]

/-- C13 (as stated, refuted): with `EMITB` emitting its byte, `shlax_ri(G, k)`
for `G = Xmm1` emits the immediate byte `0x01` for `k = 1` and `0x11` for
`k + 16 = 17`, in both halves of the pair; the two byte sequences differ. -/
theorem x86_shlax_ri_one_vs_seventeen :
    X86.shlax_ri X86.sampleCore ⟨1, 3, []⟩ ⟨1, 0, 0⟩ =
      [0x66, 0x40, 0x0F, 0x71, 0xF1, 0x01, 0x66, 0x41, 0x0F, 0x71, 0xF1, 0x01] ∧
    X86.shlax_ri X86.sampleCore ⟨1, 3, []⟩ ⟨17, 0, 0⟩ =
      [0x66, 0x40, 0x0F, 0x71, 0xF1, 0x11, 0x66, 0x41, 0x0F, 0x71, 0xF1, 0x11] ∧
    X86.shlax_ri X86.sampleCore ⟨1, 3, []⟩ ⟨1, 0, 0⟩ ≠
      X86.shlax_ri X86.sampleCore ⟨1, 3, []⟩ ⟨17, 0, 0⟩ := by
  decide

/-- C13 (amended): on the x86 SSE 128x2 profile the shift count reaches the
byte stream unreduced.  For every register `G` and immediates `k`, `k2`, the
byte sequences of `shlax_ri(G, k)` and `shlax_ri(G, k2)` agree in everything
but the immediate group `AUX(EMPTY, EMPTY, EMITB(count))` that closes each of
the two instructions, and are identical exactly when that group is the same
for `k` and `k2` (in particular for `k2 = k + 16`); likewise `shrax_ri` and
`shran_ri`. -/
theorem x86_shift_imm_unreduced (c : X86.Core) (XG : Triplet) (IS IS2 : Imm) :
    (X86.shlax_ri c XG IS = X86.shlax_ri c XG IS2 ↔
      c.AUX EMPTY EMPTY (c.EMITB (VAL IS)) = c.AUX EMPTY EMPTY (c.EMITB (VAL IS2))) ∧
    (X86.shrax_ri c XG IS = X86.shrax_ri c XG IS2 ↔
      c.AUX EMPTY EMPTY (c.EMITB (VAL IS)) = c.AUX EMPTY EMPTY (c.EMITB (VAL IS2))) ∧
    (X86.shran_ri c XG IS = X86.shran_ri c XG IS2 ↔
      c.AUX EMPTY EMPTY (c.EMITB (VAL IS)) = c.AUX EMPTY EMPTY (c.EMITB (VAL IS2))) ∧
    X86.shlax_ri c XG IS =
      (c.ESC ++ c.REX 0 0 ++ c.EMITB 0x0F ++ c.EMITB 0x71 ++ c.MRM 0x06 (MOD XG) (REG XG)) ++
      c.AUX EMPTY EMPTY (c.EMITB (VAL IS)) ++
      (c.ESC ++ c.REX 0 1 ++ c.EMITB 0x0F ++ c.EMITB 0x71 ++ c.MRM 0x06 (MOD XG) (REG XG)) ++
      c.AUX EMPTY EMPTY (c.EMITB (VAL IS)) ∧
    X86.shrax_ri c XG IS =
      (c.ESC ++ c.REX 0 0 ++ c.EMITB 0x0F ++ c.EMITB 0x71 ++ c.MRM 0x02 (MOD XG) (REG XG)) ++
      c.AUX EMPTY EMPTY (c.EMITB (VAL IS)) ++
      (c.ESC ++ c.REX 0 1 ++ c.EMITB 0x0F ++ c.EMITB 0x71 ++ c.MRM 0x02 (MOD XG) (REG XG)) ++
      c.AUX EMPTY EMPTY (c.EMITB (VAL IS)) ∧
    X86.shran_ri c XG IS =
      (c.ESC ++ c.REX 0 0 ++ c.EMITB 0x0F ++ c.EMITB 0x71 ++ c.MRM 0x04 (MOD XG) (REG XG)) ++
      c.AUX EMPTY EMPTY (c.EMITB (VAL IS)) ++
      (c.ESC ++ c.REX 0 1 ++ c.EMITB 0x0F ++ c.EMITB 0x71 ++ c.MRM 0x04 (MOD XG) (REG XG)) ++
      c.AUX EMPTY EMPTY (c.EMITB (VAL IS)) := by
  refine ⟨?_, ?_, ?_, ?_, ?_, ?_⟩
  · have form : ∀ I : Imm, X86.shlax_ri c XG I =
        (c.ESC ++ c.REX 0 0 ++ c.EMITB 0x0F ++ c.EMITB 0x71 ++ c.MRM 0x06 (MOD XG) (REG XG)) ++
        (c.AUX EMPTY EMPTY (c.EMITB (VAL I)) ++
          ((c.ESC ++ c.REX 0 1 ++ c.EMITB 0x0F ++ c.EMITB 0x71 ++
              c.MRM 0x06 (MOD XG) (REG XG)) ++
            c.AUX EMPTY EMPTY (c.EMITB (VAL I)))) := by
      intro I
      simp only [X86.shlax_ri, List.append_assoc]
    rw [form IS, form IS2, List.append_cancel_left_eq, append_around_inj]
  · have form : ∀ I : Imm, X86.shrax_ri c XG I =
        (c.ESC ++ c.REX 0 0 ++ c.EMITB 0x0F ++ c.EMITB 0x71 ++ c.MRM 0x02 (MOD XG) (REG XG)) ++
        (c.AUX EMPTY EMPTY (c.EMITB (VAL I)) ++
          ((c.ESC ++ c.REX 0 1 ++ c.EMITB 0x0F ++ c.EMITB 0x71 ++
              c.MRM 0x02 (MOD XG) (REG XG)) ++
            c.AUX EMPTY EMPTY (c.EMITB (VAL I)))) := by
      intro I
      simp only [X86.shrax_ri, List.append_assoc]
    rw [form IS, form IS2, List.append_cancel_left_eq, append_around_inj]
  · have form : ∀ I : Imm, X86.shran_ri c XG I =
        (c.ESC ++ c.REX 0 0 ++ c.EMITB 0x0F ++ c.EMITB 0x71 ++ c.MRM 0x04 (MOD XG) (REG XG)) ++
        (c.AUX EMPTY EMPTY (c.EMITB (VAL I)) ++
          ((c.ESC ++ c.REX 0 1 ++ c.EMITB 0x0F ++ c.EMITB 0x71 ++
              c.MRM 0x04 (MOD XG) (REG XG)) ++
            c.AUX EMPTY EMPTY (c.EMITB (VAL I)))) := by
      intro I
      simp only [X86.shran_ri, List.append_assoc]
    rw [form IS, form IS2, List.append_cancel_left_eq, append_around_inj]
  · simp only [X86.shlax_ri, List.append_assoc]
  · simp only [X86.shrax_ri, List.append_assoc]
  · simp only [X86.shran_ri, List.append_assoc]

/-! ## x86 SSE register pairs: masked merge and three-operand `and` -/

/-- C15 (as stated, refuted): `mmvax_rr(Xmm1, Xmm2)`, with `Xmm0` the mask
register, is a sequence of four invocations, not three. -/
theorem x86_mmvax_rr_not_three :
    (X86.mmvax_rr ⟨⟨0, 3, []⟩, ⟨5, 2, []⟩, ⟨1, 3, []⟩⟩ ⟨1, 3, []⟩ ⟨2, 3, []⟩).length = 4 ∧
    (X86.mmvax_rr ⟨⟨0, 3, []⟩, ⟨5, 2, []⟩, ⟨1, 3, []⟩⟩ ⟨1, 3, []⟩ ⟨2, 3, []⟩).length ≠ 3 := by
  decide

/-- C15 (amended): on the x86 SSE 128x2 profile the register form of masked
merge `mmvax_rr(XG, XS)` is a fixed idiom of exactly four pseudo-instructions:
`andax_rr(XS, Xmm0)` (keep the source where the mask is set),
`annax_rr(Xmm0, XG)` (keep the destination where the mask is clear),
`orrax_rr(Xmm0, XS)` (combine) and `movax_rr(XG, Xmm0)` (write back); its
bytes are the bytes of these four, in this order. -/
theorem x86_mmvax_rr_four_invocations (c : X86.Core) (r : X86.Regs) (XG XS : Triplet) :
    X86.mmvax_rr r XG XS =
      [X86.Op.andax_rr XS r.Xmm0, X86.Op.annax_rr r.Xmm0 XG,
       X86.Op.orrax_rr r.Xmm0 XS, X86.Op.movax_rr XG r.Xmm0] ∧
    (X86.mmvax_rr r XG XS).length = 4 ∧
    X86.emit c (X86.mmvax_rr r XG XS) =
      X86.andax_rr c XS r.Xmm0 ++ X86.annax_rr c r.Xmm0 XG ++
      X86.orrax_rr c r.Xmm0 XS ++ X86.movax_rr c XG r.Xmm0 := by
  refine ⟨rfl, rfl, ?_⟩
  simp [X86.emit, X86.mmvax_rr, X86.Op.encode]

/-- C17: side effects of masked merge on the x86 SSE 128x2 profile.  Under the
documented meanings of `mov`, `and`, `ann`, `orr`, with `XG`, `XS`, `Xmm0`
pairwise distinct registers holding `g`, `s` and the mask `m`, executing
`mmvax_rr(XG, XS)` leaves every register other than `XG`, `XS`, `Xmm0` as it
was, leaves `XS = s & m` and leaves in `Xmm0`, in place of the mask, the merged
result `(g & ~m) | (s & m)`. -/
theorem x86_mmvax_rr_side_effects (r : X86.Regs) (XG XS : Triplet) (rf : X86.RegFile)
    (hGS : REG XG ≠ REG XS) (hG0 : REG XG ≠ REG r.Xmm0) (hS0 : REG XS ≠ REG r.Xmm0) :
    (X86.run (X86.mmvax_rr r XG XS) rf).map (fun rf2 => rf2 (REG XS)) =
      some (rf (REG XS) &&& rf (REG r.Xmm0)) ∧
    (X86.run (X86.mmvax_rr r XG XS) rf).map (fun rf2 => rf2 (REG r.Xmm0)) =
      some ((rf (REG XG) &&& (rf (REG r.Xmm0) ^^^ X86.ones)) |||
        (rf (REG XS) &&& rf (REG r.Xmm0))) ∧
    ∀ i : Nat, i ≠ REG XG → i ≠ REG XS → i ≠ REG r.Xmm0 →
      (X86.run (X86.mmvax_rr r XG XS) rf).map (fun rf2 => rf2 i) = some (rf i) := by
  have h0S : REG r.Xmm0 ≠ REG XS := fun e => hS0 e.symm
  have h0G : REG r.Xmm0 ≠ REG XG := fun e => hG0 e.symm
  have hSG : REG XS ≠ REG XG := fun e => hGS e.symm
  refine ⟨?_, ?_, ?_⟩
  · simp [X86.mmvax_rr, X86.run, X86.Op.exec, X86.RegFile.write, hSG, hS0]
  · simp [X86.mmvax_rr, X86.run, X86.Op.exec, X86.RegFile.write, h0S, h0G, hS0, hGS,
      Nat.land_comm]
  · intro i hiG hiS hi0
    simp [X86.mmvax_rr, X86.run, X86.Op.exec, X86.RegFile.write, hiG, hiS, hi0]

/-- C17 at a concrete register file: `Xmm0` = register 0 holds the mask
`0xFFFF`, `XG` = register 1 holds `0x11112222`, `XS` = register 2 holds
`0x33334444`; after `mmvax_rr(XG, XS)` register 2 holds `0x4444`. -/
theorem x86_mmvax_rr_side_effects_example :
    (X86.run (X86.mmvax_rr ⟨⟨0, 3, []⟩, ⟨5, 2, []⟩, ⟨1, 3, []⟩⟩ ⟨1, 3, []⟩ ⟨2, 3, []⟩)
      (fun i => if i = 0 then 0xFFFF else if i = 1 then 0x11112222 else 0x33334444)).map
      (fun rf2 => rf2 2) = some 0x4444 :=
  (x86_mmvax_rr_side_effects ⟨⟨0, 3, []⟩, ⟨5, 2, []⟩, ⟨1, 3, []⟩⟩ ⟨1, 3, []⟩ ⟨2, 3, []⟩
    (fun i => if i = 0 then 0xFFFF else if i = 1 then 0x11112222 else 0x33334444)
    (by decide) (by decide) (by decide)).1.trans (by decide)

/-- Under the documented meanings of `mov` and `and`, `andax3rr(D, S, T)`
leaves `D = S & T` whenever `D` and `T` are distinct registers, also for
`D = S`. -/
theorem X86.andax3rr_of_ne (XD XS XT : Triplet) (rf : X86.RegFile)
    (h : REG XT ≠ REG XD) :
    (X86.run (X86.andax3rr XD XS XT) rf).map (fun rf2 => rf2 (REG XD)) =
      some (rf (REG XS) &&& rf (REG XT)) := by
  simp [X86.andax3rr, X86.run, X86.Op.exec, X86.RegFile.write, h]

/-- Under the documented meanings of `mov` and `and`, `andax3rr(D, S, T)` with
`T` the same register as `D` leaves `D = S`: the copy overwrites `T` before the
`and` reads it. -/
theorem X86.andax3rr_of_eq (XD XS XT : Triplet) (rf : X86.RegFile)
    (h : REG XT = REG XD) :
    (X86.run (X86.andax3rr XD XS XT) rf).map (fun rf2 => rf2 (REG XD)) =
      some (rf (REG XS)) := by
  simp [X86.andax3rr, X86.run, X86.Op.exec, X86.RegFile.write, h]

/-- C18 (the code at the failing input): `andax3rr(D, S, T)` with
`D = T` = register 1 holding `0x0FF0` and `S` = register 2 holding `0xFF00`,
so `D` and `S` are distinct.  Under the documented meanings of `mov` and `and`
the run leaves `D = 0xFF00`, the initial `S`, whereas `S & T` is `0x0F00`. -/
theorem x86_andax3rr_destination_as_second_source :
    (X86.run (X86.andax3rr ⟨1, 3, []⟩ ⟨2, 3, []⟩ ⟨1, 3, []⟩)
      (fun i => if i = 1 then 0x0FF0 else if i = 2 then 0xFF00 else 0)).map
      (fun rf2 => rf2 1) = some 0xFF00 ∧
    (0xFF00 : Nat) &&& 0x0FF0 = 0x0F00 ∧
    (X86.run (X86.andax3rr ⟨1, 3, []⟩ ⟨2, 3, []⟩ ⟨1, 3, []⟩)
      (fun i => if i = 1 then 0x0FF0 else if i = 2 then 0xFF00 else 0)).map
      (fun rf2 => rf2 1) ≠ some ((0xFF00 : Nat) &&& 0x0FF0) := by
  decide

/-! ## POWER: opcode bases and operand fields -/

/-- An operand field group placed at bits 11..25 does not meet a word whose
bits 11..25 are clear: the OR of the two is their sum. -/
theorem lor_fields_eq_add (hi lo g : Nat) (hlo : lo < 2 ^ 11) (hg : g < 2 ^ 15) :
    (2 ^ 26 * hi + lo) ||| 2 ^ 11 * g = 2 ^ 26 * hi + lo + 2 ^ 11 * g := by
  have e1 : 2 ^ 26 * hi + lo = 2 ^ 26 * hi ||| lo :=
    Nat.mul_add_lt_is_or (by omega) hi
  have e2 : 2 ^ 11 * g + lo = 2 ^ 11 * g ||| lo := Nat.mul_add_lt_is_or hlo g
  have e3 : 2 ^ 26 * hi + (2 ^ 11 * g + lo) = 2 ^ 26 * hi ||| (2 ^ 11 * g + lo) :=
    Nat.mul_add_lt_is_or (by omega) hi
  have e4 : 2 ^ 26 * hi + lo + 2 ^ 11 * g = 2 ^ 26 * hi + (2 ^ 11 * g + lo) := by omega
  rw [e4, e3, e2, e1, Nat.lor_assoc, Nat.lor_comm lo]

/-- The field packer of the POWER fixture as a sum: three 5-bit fields at bits
11, 16 and 21. -/
theorem Power.MXM_eq_add (reg ren rem : Nat) (h2 : ren < 32) (h3 : rem < 32) :
    Power.MXM reg ren rem = 2 ^ 11 * (rem + 32 * ren + 1024 * reg) := by
  have e1 : 2 ^ 16 * ren + rem * 2 ^ 11 = 2 ^ 16 * ren ||| rem * 2 ^ 11 :=
    Nat.mul_add_lt_is_or (by omega) ren
  have e2 : 2 ^ 21 * reg + (2 ^ 16 * ren + rem * 2 ^ 11) =
      2 ^ 21 * reg ||| (2 ^ 16 * ren + rem * 2 ^ 11) :=
    Nat.mul_add_lt_is_or (by omega) reg
  have e3 : 2 ^ 11 * (rem + 32 * ren + 1024 * reg) =
      2 ^ 21 * reg + (2 ^ 16 * ren + rem * 2 ^ 11) := by omega
  rw [Power.MXM, Nat.shiftLeft_eq, Nat.shiftLeft_eq, Nat.shiftLeft_eq, e3, e2, e1,
    Nat.mul_comm ren, Nat.mul_comm reg, Nat.lor_comm (rem * 2 ^ 11), Nat.lor_comm]

/-- Every opcode base of the POWER header has bits 11..25 clear. -/
theorem Power.opcodeBases_clear :
    ∀ b ∈ Power.opcodeBases, b &&& 0x03FFF800 = 0 ∧ b % 2 ^ 26 < 2 ^ 11 := by
  decide

/-- The extra field of `mulgx3rr`, a register index at bit 6, meets neither the
base `0x10000022` nor the operand fields at bits 11..25. -/
theorem Power.mul_field_disjoint (q reg ren rem : Nat) (hq : q < 32) :
    (q <<< 6) &&& 0x10000022 = 0 ∧ (q <<< 6) &&& Power.MXM reg ren rem = 0 := by
  refine ⟨by interval_cases q <;> decide, ?_⟩
  apply Nat.eq_of_testBit_eq
  intro i
  rw [Nat.testBit_and, Nat.zero_testBit, Power.MXM, Nat.testBit_or, Nat.testBit_or,
    Nat.testBit_shiftLeft, Nat.testBit_shiftLeft, Nat.testBit_shiftLeft,
    Nat.testBit_shiftLeft]
  by_cases hi : i < 11
  · have a1 : ¬ i ≥ 11 := by omega
    have a2 : ¬ i ≥ 16 := by omega
    have a3 : ¬ i ≥ 21 := by omega
    simp [a1, a2, a3]
  · have hlt : q < 2 ^ (i - 6) :=
      lt_of_lt_of_le (by omega : q < 2 ^ 5) (Nat.pow_le_pow_right (by decide) (by omega))
    rw [Nat.testBit_lt_two_pow hlt]
    simp

/-- C21: non-overlap of opcode bases and operand fields on the POWER profile.
Every opcode base constant `b` that the header ORs with `MXM(reg, ren, rem)`
has bits 11..25 clear; with `MXM(reg, ren, rem) = reg<<21 | ren<<16 | rem<<11`
and register indices below 32 the OR equals the arithmetic sum and the three
fields are recovered from the word by `(w >> 21) & 31`, `(w >> 16) & 31` and
`(w >> 11) & 31`.  In `mulgx3rr` the extra field `TmmM << 6` (`TmmM < 32`)
overlaps neither the base `0x10000022` nor the `MXM` fields: the second word of
`mulgx3rr` is the sum of base, fields and `TmmM << 6`, and `TmmM` is recovered
by `(w >> 6) & 31`. -/
theorem power_bases_disjoint_from_fields (c : Power.Core) (b reg ren rem : Nat)
    (hM : c.MXM = Power.MXM) (hq : c.TmmM < 32) (hb : b ∈ Power.opcodeBases)
    (h1 : reg < 32) (h2 : ren < 32) (h3 : rem < 32) :
    b &&& 0x03FFF800 = 0 ∧
    c.MXM reg ren rem = reg <<< 21 ||| ren <<< 16 ||| rem <<< 11 ∧
    b ||| c.MXM reg ren rem = b + (reg * 2 ^ 21 + ren * 2 ^ 16 + rem * 2 ^ 11) ∧
    ((b ||| c.MXM reg ren rem) >>> 21) &&& 31 = reg ∧
    ((b ||| c.MXM reg ren rem) >>> 16) &&& 31 = ren ∧
    ((b ||| c.MXM reg ren rem) >>> 11) &&& 31 = rem ∧
    0x10000022 ∈ Power.opcodeBases ∧
    (c.TmmM <<< 6) &&& 0x10000022 = 0 ∧
    (c.TmmM <<< 6) &&& c.MXM reg ren rem = 0 ∧
    (∀ m1 s1 m2 s2 m3 s3,
      Power.mulgx3rr c ⟨reg, m1, s1⟩ ⟨ren, m2, s2⟩ ⟨rem, m3, s3⟩ =
        [0x100004C4 ||| c.MXM c.TmmM c.TmmM c.TmmM,
         0x10000022 + (reg * 2 ^ 21 + ren * 2 ^ 16 + rem * 2 ^ 11) + c.TmmM * 2 ^ 6]) ∧
    ((0x10000022 ||| c.MXM reg ren rem ||| c.TmmM <<< 6) >>> 6) &&& 31 = c.TmmM := by
  obtain ⟨hb1, hb2⟩ := Power.opcodeBases_clear b hb
  have e31 : (31 : Nat) = 2 ^ 5 - 1 := by decide
  have hsum : ∀ b2, b2 % 2 ^ 26 < 2 ^ 11 →
      b2 ||| Power.MXM reg ren rem = b2 + (reg * 2 ^ 21 + ren * 2 ^ 16 + rem * 2 ^ 11) := by
    intro b2 hb3
    have hdecomp : b2 = 2 ^ 26 * (b2 / 2 ^ 26) + b2 % 2 ^ 26 := (Nat.div_add_mod b2 _).symm
    rw [Power.MXM_eq_add reg ren rem h2 h3]
    conv_lhs => rw [hdecomp]
    rw [lor_fields_eq_add _ _ _ hb3 (by omega)]
    omega
  have hw := hsum b hb2
  have hmul : 0x10000022 ||| Power.MXM reg ren rem ||| c.TmmM <<< 6 =
      0x10000022 + (reg * 2 ^ 21 + ren * 2 ^ 16 + rem * 2 ^ 11) + c.TmmM * 2 ^ 6 := by
    have key : ∀ X T : Nat, T < 32 →
        (2 ^ 11 * X + 34) ||| T * 2 ^ 6 = 2 ^ 11 * X + 34 + T * 2 ^ 6 := by
      intro X T hT
      have e5 : 34 + T * 2 ^ 6 = 2 ^ 6 * T ||| 34 := by
        rw [← Nat.mul_add_lt_is_or (by decide) T]; omega
      have e6 : 2 ^ 11 * X + (34 + T * 2 ^ 6) = 2 ^ 11 * X ||| (34 + T * 2 ^ 6) :=
        Nat.mul_add_lt_is_or (by omega) _
      have e7 : 2 ^ 11 * X + 34 = 2 ^ 11 * X ||| 34 := Nat.mul_add_lt_is_or (by decide) _
      calc (2 ^ 11 * X + 34) ||| T * 2 ^ 6
          = (2 ^ 11 * X ||| 34) ||| 2 ^ 6 * T := by rw [e7, Nat.mul_comm T]
        _ = 2 ^ 11 * X ||| (2 ^ 6 * T ||| 34) := by rw [Nat.lor_assoc, Nat.lor_comm 34]
        _ = 2 ^ 11 * X + (34 + T * 2 ^ 6) := by rw [← e5, ← e6]
        _ = 2 ^ 11 * X + 34 + T * 2 ^ 6 := by omega
    have e : 0x10000022 + (reg * 2 ^ 21 + ren * 2 ^ 16 + rem * 2 ^ 11) =
        2 ^ 11 * (131072 + 1024 * reg + 32 * ren + rem) + 34 := by omega
    rw [hsum 0x10000022 (by decide), Nat.shiftLeft_eq, e, key _ _ hq]
  rw [hM]
  refine ⟨hb1, ?_, hw, ?_, ?_, ?_, by decide, (Power.mul_field_disjoint _ reg ren rem hq).1,
    (Power.mul_field_disjoint _ reg ren rem hq).2, ?_, ?_⟩
  · rw [Power.MXM, Nat.lor_comm (rem <<< 11), Nat.lor_comm, Nat.lor_assoc]
  · rw [hw, Nat.shiftRight_eq_div_pow, e31, Nat.and_pow_two_sub_one_eq_mod]
    omega
  · rw [hw, Nat.shiftRight_eq_div_pow, e31, Nat.and_pow_two_sub_one_eq_mod]
    omega
  · rw [hw, Nat.shiftRight_eq_div_pow, e31, Nat.and_pow_two_sub_one_eq_mod]
    omega
  · intro m1 s1 m2 s2 m3 s3
    simp only [Power.mulgx3rr, EMITW, REG, hM, List.cons_append, List.nil_append]
    rw [hmul]
  · rw [hmul, Nat.shiftRight_eq_div_pow, e31, Nat.and_pow_two_sub_one_eq_mod]
    omega

/-- C21 at concrete operands: the concrete POWER core packs with the fixture
layout and its scratch register is v31; the base of `addgx3rr` with registers
1, 2, 3 gives the fixture word `0x10221840`. -/
theorem power_bases_disjoint_from_fields_witness :
    Power.sampleCore.MXM = Power.MXM ∧ Power.sampleCore.TmmM < 32 ∧
    (0x10000040 : Nat) ||| Power.sampleCore.MXM 1 2 3 = 0x10221840 ∧
    (0x10000040 : Nat) ||| Power.sampleCore.MXM 1 2 3 =
      0x10000040 + (1 * 2 ^ 21 + 2 * 2 ^ 16 + 3 * 2 ^ 11) :=
  ⟨rfl, by decide, by decide,
   (power_bases_disjoint_from_fields Power.sampleCore 0x10000040 1 2 3 rfl (by decide)
     (by decide) (by decide) (by decide) (by decide)).2.2.1⟩

/-! ## x86 SSE register pairs -/

/-- C22: register-pair structure on the x86 SSE 128x2 profile.  For every
family `F` of `movax`, `andax`, `annax`, `orrax`, `xorax`, `addax`, `adsax`,
`adsan`, `subax`, `sbsax`, `sbsan`, `mulax`, the bytes of `F_rr(G, S)` are two
instruction groups with the same prefix and opcode bytes and the same
`MRM(REG(G), MOD(S), REG(S))`, the first with `REX(0, 0)` and the second with
`REX(1, 1)`; the bytes of `F_ld(G, M, disp)` are two groups with the same
opcode bytes and `MRM(REG(G), 0x02, REG(M))`, the first with `REX(0, RXB(M))`
and displacement `VAL(disp)`, the second with `REX(1, RXB(M))` and
displacement `VYL(disp)`. -/
theorem x86_register_pair_structure (c : X86.Core) (XG XS MS : Triplet) (DS : Imm) :
    (X86.movax_rr c XG XS =
      X86.rrGroup c [] 0x28 0 XG XS ++ X86.rrGroup c [] 0x28 1 XG XS) ∧
    (X86.movax_ld c XG MS DS =
      X86.ldGroup c [] 0x28 0 XG MS (VAL DS) ++
      X86.ldGroup c [] 0x28 1 XG MS (c.VYL DS)) ∧
    (X86.andax_rr c XG XS =
      X86.rrGroup c c.ESC 0xDB 0 XG XS ++ X86.rrGroup c c.ESC 0xDB 1 XG XS) ∧
    (X86.andax_ld c XG MS DS =
      X86.ldGroup c c.ESC 0xDB 0 XG MS (VAL DS) ++
      X86.ldGroup c c.ESC 0xDB 1 XG MS (c.VYL DS)) ∧
    (X86.annax_rr c XG XS =
      X86.rrGroup c c.ESC 0xDF 0 XG XS ++ X86.rrGroup c c.ESC 0xDF 1 XG XS) ∧
    (X86.annax_ld c XG MS DS =
      X86.ldGroup c c.ESC 0xDF 0 XG MS (VAL DS) ++
      X86.ldGroup c c.ESC 0xDF 1 XG MS (c.VYL DS)) ∧
    (X86.orrax_rr c XG XS =
      X86.rrGroup c c.ESC 0xEB 0 XG XS ++ X86.rrGroup c c.ESC 0xEB 1 XG XS) ∧
    (X86.orrax_ld c XG MS DS =
      X86.ldGroup c c.ESC 0xEB 0 XG MS (VAL DS) ++
      X86.ldGroup c c.ESC 0xEB 1 XG MS (c.VYL DS)) ∧
    (X86.xorax_rr c XG XS =
      X86.rrGroup c c.ESC 0xEF 0 XG XS ++ X86.rrGroup c c.ESC 0xEF 1 XG XS) ∧
    (X86.xorax_ld c XG MS DS =
      X86.ldGroup c c.ESC 0xEF 0 XG MS (VAL DS) ++
      X86.ldGroup c c.ESC 0xEF 1 XG MS (c.VYL DS)) ∧
    (X86.addax_rr c XG XS =
      X86.rrGroup c c.ESC 0xFD 0 XG XS ++ X86.rrGroup c c.ESC 0xFD 1 XG XS) ∧
    (X86.addax_ld c XG MS DS =
      X86.ldGroup c c.ESC 0xFD 0 XG MS (VAL DS) ++
      X86.ldGroup c c.ESC 0xFD 1 XG MS (c.VYL DS)) ∧
    (X86.adsax_rr c XG XS =
      X86.rrGroup c c.ESC 0xDD 0 XG XS ++ X86.rrGroup c c.ESC 0xDD 1 XG XS) ∧
    (X86.adsax_ld c XG MS DS =
      X86.ldGroup c c.ESC 0xDD 0 XG MS (VAL DS) ++
      X86.ldGroup c c.ESC 0xDD 1 XG MS (c.VYL DS)) ∧
    (X86.adsan_rr c XG XS =
      X86.rrGroup c c.ESC 0xED 0 XG XS ++ X86.rrGroup c c.ESC 0xED 1 XG XS) ∧
    (X86.adsan_ld c XG MS DS =
      X86.ldGroup c c.ESC 0xED 0 XG MS (VAL DS) ++
      X86.ldGroup c c.ESC 0xED 1 XG MS (c.VYL DS)) ∧
    (X86.subax_rr c XG XS =
      X86.rrGroup c c.ESC 0xF9 0 XG XS ++ X86.rrGroup c c.ESC 0xF9 1 XG XS) ∧
    (X86.subax_ld c XG MS DS =
      X86.ldGroup c c.ESC 0xF9 0 XG MS (VAL DS) ++
      X86.ldGroup c c.ESC 0xF9 1 XG MS (c.VYL DS)) ∧
    (X86.sbsax_rr c XG XS =
      X86.rrGroup c c.ESC 0xD9 0 XG XS ++ X86.rrGroup c c.ESC 0xD9 1 XG XS) ∧
    (X86.sbsax_ld c XG MS DS =
      X86.ldGroup c c.ESC 0xD9 0 XG MS (VAL DS) ++
      X86.ldGroup c c.ESC 0xD9 1 XG MS (c.VYL DS)) ∧
    (X86.sbsan_rr c XG XS =
      X86.rrGroup c c.ESC 0xE9 0 XG XS ++ X86.rrGroup c c.ESC 0xE9 1 XG XS) ∧
    (X86.sbsan_ld c XG MS DS =
      X86.ldGroup c c.ESC 0xE9 0 XG MS (VAL DS) ++
      X86.ldGroup c c.ESC 0xE9 1 XG MS (c.VYL DS)) ∧
    (X86.mulax_rr c XG XS =
      X86.rrGroup c c.ESC 0xD5 0 XG XS ++ X86.rrGroup c c.ESC 0xD5 1 XG XS) ∧
    (X86.mulax_ld c XG MS DS =
      X86.ldGroup c c.ESC 0xD5 0 XG MS (VAL DS) ++
      X86.ldGroup c c.ESC 0xD5 1 XG MS (c.VYL DS)) := by
  simp only [X86.rrGroup, X86.ldGroup, X86.movax_rr, X86.movax_ld, X86.andax_rr, X86.andax_ld, X86.annax_rr, X86.annax_ld, X86.orrax_rr, X86.orrax_ld, X86.xorax_rr, X86.xorax_ld, X86.addax_rr, X86.addax_ld, X86.adsax_rr, X86.adsax_ld, X86.adsan_rr, X86.adsan_ld, X86.subax_rr, X86.subax_ld, X86.sbsax_rr, X86.sbsax_ld, X86.sbsan_rr, X86.sbsan_ld, X86.mulax_rr, X86.mulax_ld,
    List.append_assoc, List.nil_append, and_self]

/-- C26: plain shifts by a memory count on the x86 SSE 128x2 profile.  In
`shlax_ld`, `shrax_ld` and `shran_ld` both 128-bit halves take the count from
the same displacement `VAL(DS)`: the bytes are two instruction groups that
differ only in `REX(0, RXB(MS))` versus `REX(1, RXB(MS))`, and they do not
depend on `VYL`, the displacement of the second half of a pair. -/
theorem x86_shift_ld_same_count (c : X86.Core) (XG MS : Triplet) (DS : Imm) :
    (X86.shlax_ld c XG MS DS =
      X86.ldGroup c c.ESC 0xF1 0 XG MS (VAL DS) ++ X86.ldGroup c c.ESC 0xF1 1 XG MS (VAL DS)) ∧
    (X86.shrax_ld c XG MS DS =
      X86.ldGroup c c.ESC 0xD1 0 XG MS (VAL DS) ++ X86.ldGroup c c.ESC 0xD1 1 XG MS (VAL DS)) ∧
    (X86.shran_ld c XG MS DS =
      X86.ldGroup c c.ESC 0xE1 0 XG MS (VAL DS) ++ X86.ldGroup c c.ESC 0xE1 1 XG MS (VAL DS)) ∧
    (∀ v : Imm → Nat,
      X86.shlax_ld { c with VYL := v } XG MS DS = X86.shlax_ld c XG MS DS ∧
      X86.shrax_ld { c with VYL := v } XG MS DS = X86.shrax_ld c XG MS DS ∧
      X86.shran_ld { c with VYL := v } XG MS DS = X86.shran_ld c XG MS DS) ∧
    (∀ op rex : Nat, ∀ pre : List Nat, ∀ d : Nat,
      X86.ldGroup c pre op rex XG MS d =
        c.ADR ++ pre ++ c.REX rex (c.RXB MS) ++ c.EMITB 0x0F ++ c.EMITB op ++
        c.MRM (REG XG) 0x02 (REG MS) ++ c.AUX (SIB MS) (c.EMITW d) EMPTY) := by
  refine ⟨?_, ?_, ?_, fun v => ⟨rfl, rfl, rfl⟩, fun _ _ _ _ => rfl⟩ <;>
  simp only [X86.ldGroup, X86.shlax_ld, X86.shrax_ld, X86.shran_ld, List.append_assoc]

/-! ## MIPS64: selection by condition masks -/

/-- A true condition keeps a 32-bit term. -/
theorem M_true_land (a : Nat) (ha : a < 2 ^ 32) : M true &&& a = a := by
  have e : (0xFFFFFFFF : Nat) = 2 ^ 32 - 1 := by decide
  simp only [M, if_true]
  rw [Nat.land_comm, e, Nat.and_pow_two_sub_one_eq_mod, Nat.mod_eq_of_lt ha]

/-- A false condition drops the term. -/
theorem M_false_land (a : Nat) : M false &&& a = 0 := by
  simp [M]

/-- Of two terms guarded by a condition and its negation exactly one
contributes. -/
theorem M_select (p : Prop) [Decidable p] (a b : Nat) (ha : a < 2 ^ 32) (hb : b < 2 ^ 32) :
    (M (decide p) &&& a) ||| (M (!decide p) &&& b) = if p then a else b := by
  by_cases h : p
  · simp only [h, decide_True, Bool.not_true, if_true, M_true_land a ha, M_false_land,
      Nat.or_zero]
  · simp only [h, decide_False, Bool.not_false, if_false, M_true_land b hb, M_false_land,
      Nat.zero_or]

/-- C25: MIPS64 immediate-form selection (a true condition being the all-ones
mask).  For every immediate `IS` the word of `andzx_ri` carries `0x30000000`
when `TP2(IS) = 0` and `0x00000024` otherwise: of the two guarded constants
exactly one contributes, never both and never neither.  Likewise the constants
are `0x34000000` / `0x00000025` for `orrzx_ri`, `0x38000000` / `0x00000026` for
`xorzx_ri`, and, keyed on `TP1(IS)`, `0x64000000` / `0x0000002D` for
`addzx_ri`. -/
theorem m64_immediate_form_selection (c : M64.Core) (RG : Triplet) (IS : Imm) :
    ((M (c.TP2 IS == 0) &&& 0x30000000) ||| (M (c.TP2 IS != 0) &&& 0x00000024) =
      if c.TP2 IS = 0 then 0x30000000 else 0x00000024) ∧
    ((M (c.TP2 IS == 0) &&& 0x30000000 = 0x30000000 ∧ M (c.TP2 IS != 0) &&& 0x00000024 = 0) ∨
     (M (c.TP2 IS == 0) &&& 0x30000000 = 0 ∧ M (c.TP2 IS != 0) &&& 0x00000024 = 0x00000024)) ∧
    (M64.andzx_ri c RG IS =
      c.AUW EMPTY (some (VAL IS)) (some c.TIxx) none none none (some (c.G2 IS)) ++
      [c.MIM (REG RG) (REG RG) (VAL IS) (c.T2 IS) (some (c.M2 IS)) |||
        (if c.TP2 IS = 0 then 0x30000000 else 0x00000024)]) ∧
    (M64.orrzx_ri c RG IS =
      c.AUW EMPTY (some (VAL IS)) (some c.TIxx) none none none (some (c.G2 IS)) ++
      [c.MIM (REG RG) (REG RG) (VAL IS) (c.T2 IS) (some (c.M2 IS)) |||
        (if c.TP2 IS = 0 then 0x34000000 else 0x00000025)]) ∧
    (M64.xorzx_ri c RG IS =
      c.AUW EMPTY (some (VAL IS)) (some c.TIxx) none none none (some (c.G2 IS)) ++
      [c.MIM (REG RG) (REG RG) (VAL IS) (c.T2 IS) (some (c.M2 IS)) |||
        (if c.TP2 IS = 0 then 0x38000000 else 0x00000026)]) ∧
    (M64.addzx_ri c RG IS =
      c.AUW EMPTY (some (VAL IS)) (some c.TIxx) none none none (some (c.G1 IS)) ++
      [c.MIM (REG RG) (REG RG) (VAL IS) (c.T1 IS) (some (c.M1 IS)) |||
        (if c.TP1 IS = 0 then 0x64000000 else 0x0000002D)]) := by
  have sel : ∀ t a b : Nat, a < 2 ^ 32 → b < 2 ^ 32 →
      (M (t == 0) &&& a) ||| (M (t != 0) &&& b) = if t = 0 then a else b := by
    intro t a b ha hb
    have e1 : (t == 0) = decide (t = 0) := rfl
    have e2 : (t != 0) = !decide (t = 0) := rfl
    rw [e1, e2, M_select (t = 0) a b ha hb]
  have word : ∀ m t a b : Nat, a < 2 ^ 32 → b < 2 ^ 32 →
      0x00000000 ||| m ||| (M (t == 0) &&& a) ||| (M (t != 0) &&& b) =
        m ||| (if t = 0 then a else b) := by
    intro m t a b ha hb
    rw [Nat.zero_or, Nat.lor_assoc, sel t a b ha hb]
  refine ⟨sel _ _ _ (by decide) (by decide), ?_, ?_, ?_, ?_, ?_⟩
  · by_cases h : c.TP2 IS = 0
    · left
      have e1 : (c.TP2 IS == 0) = true := by simp [h]
      have e2 : (c.TP2 IS != 0) = false := by simp [h]
      rw [e1, e2]
      exact ⟨M_true_land _ (by decide), M_false_land _⟩
    · right
      have e1 : (c.TP2 IS == 0) = false := by simp [h]
      have e2 : (c.TP2 IS != 0) = true := by simp [h]
      rw [e1, e2]
      exact ⟨M_false_land _, M_true_land _ (by decide)⟩
  · simp only [M64.andzx_ri, EMITW]
    rw [word _ _ _ _ (by decide) (by decide)]
  · simp only [M64.orrzx_ri, EMITW]
    rw [word _ _ _ _ (by decide) (by decide)]
  · simp only [M64.xorzx_ri, EMITW]
    rw [word _ _ _ _ (by decide) (by decide)]
  · simp only [M64.addzx_ri, EMITW]
    rw [word _ _ _ _ (by decide) (by decide)]

/-- The 5-bit shift-amount field is below 32 and, placed at bit 6 next to a
6-bit function code, stays within 32 bits. -/
theorem M64.sa_term_lt (f k : Nat) (hf : f < 64) : f ||| (0x1F &&& k) <<< 6 < 2 ^ 32 := by
  have h1 : 0x1F &&& k < 2 ^ 5 := by
    rw [Nat.land_comm]; exact Nat.and_lt_two_pow k (by decide)
  have h2 : (0x1F &&& k) <<< 6 < 2 ^ 32 := by
    rw [Nat.shiftLeft_eq]; omega
  exact Nat.or_lt_two_pow (by omega) h2

/-- The word of a MIPS64 shift by immediate: of the two guarded alternatives
exactly one contributes. -/
theorem M64.shift_word (m f1 f2 k : Nat) (h1 : f1 < 64) (h2 : f2 < 64) :
    0x00000000 ||| m ||| (M (decide (k < 32)) &&& (f1 ||| (0x1F &&& k) <<< 6)) |||
      (M (decide (k > 31)) &&& (f2 ||| (0x1F &&& k) <<< 6)) =
      m ||| (if k < 32 then f1 else f2) ||| (0x1F &&& k) <<< 6 := by
  by_cases h : k < 32
  · have h3 : ¬ k > 31 := by omega
    simp only [h, h3, decide_True, decide_False, if_true, M_false_land,
      M_true_land _ (M64.sa_term_lt f1 k h1), Nat.zero_or, Nat.or_zero, Nat.lor_assoc]
  · have h3 : k > 31 := by omega
    simp only [h, h3, decide_True, decide_False, if_false, M_false_land,
      M_true_land _ (M64.sa_term_lt f2 k h2), Nat.zero_or, Nat.or_zero, Nat.lor_assoc]

/-- C27: MIPS64 64-bit shift by immediate (a true condition being the all-ones
mask).  For every register `RG` and every immediate `k` exactly one of the two
alternatives of `shlzx_ri` contributes: the word is
`MRM(RG, 0, RG) | f | ((k & 0x1F) << 6)` with `f = 0x38` when `k < 32` and
`f = 0x3C` when `k > 31`; so for `0 <= k <= 63` the encoded amount (the 5-bit
field, plus 32 for the second variant) equals `k`.  The same holds for
`shrzx_ri` with `f = 0x3A` / `0x3E` and for `shrzn_ri` with `f = 0x3B` /
`0x3F`. -/
theorem m64_shift_by_immediate (c : M64.Core) (RG : Triplet) (IS : Imm) :
    (M64.shlzx_ri c RG IS =
      [c.MRM (REG RG) 0x00 (REG RG) ||| (if VAL IS < 32 then 0x38 else 0x3C) |||
        (0x1F &&& VAL IS) <<< 6]) ∧
    (M64.shrzx_ri c RG IS =
      [c.MRM (REG RG) 0x00 (REG RG) ||| (if VAL IS < 32 then 0x3A else 0x3E) |||
        (0x1F &&& VAL IS) <<< 6]) ∧
    (M64.shrzn_ri c RG IS =
      [c.MRM (REG RG) 0x00 (REG RG) ||| (if VAL IS < 32 then 0x3B else 0x3F) |||
        (0x1F &&& VAL IS) <<< 6]) ∧
    (VAL IS < 32 → 0x1F &&& VAL IS = VAL IS) ∧
    (31 < VAL IS → VAL IS ≤ 63 → (0x1F &&& VAL IS) + 32 = VAL IS) := by
  have e : (0x1F : Nat) = 2 ^ 5 - 1 := by decide
  refine ⟨?_, ?_, ?_, ?_, ?_⟩
  · simp only [M64.shlzx_ri, EMITW]
    rw [M64.shift_word _ _ _ _ (by decide) (by decide)]
  · simp only [M64.shrzx_ri, EMITW]
    rw [M64.shift_word _ _ _ _ (by decide) (by decide)]
  · simp only [M64.shrzn_ri, EMITW]
    rw [M64.shift_word _ _ _ _ (by decide) (by decide)]
  · intro h
    rw [Nat.land_comm, e, Nat.and_pow_two_sub_one_eq_mod]
    omega
  · intro h1 h2
    rw [Nat.land_comm, e, Nat.and_pow_two_sub_one_eq_mod]
    omega

/-- The low 16 bits of the negated 32-bit word of `v`, read as a signed 16-bit
number, are `-v` when `-v` fits 16 bits. -/
theorem neg_field_signed (v : Int) (h1 : -32767 ≤ v) (h2 : v ≤ 32768) :
    signed16 (0xFFFF &&& NEG (word32 v)) = -v := by
  have e : (0xFFFF : Nat) = 2 ^ 16 - 1 := by decide
  rw [Nat.land_comm, e, Nat.and_pow_two_sub_one_eq_mod]
  unfold signed16 NEG word32
  split <;> omega

/-- C28: MIPS64 subtract-immediate is encoded as add of the negated immediate.
With the scratch register `TIxx` a register index (below 32): when
`TP1(IS) = 0` the word of `subzx_ri` (and the first word of `subzz_ri`) carries
`0x64000000 | (0xFFFF & -v)` for the immediate value `v`, and when
`TP1(IS) != 0` it carries `0x0000002F | (TIxx << 16)`; for every `v` with
`-32767 <= v <= 32768` the 16-bit field `0xFFFF & -v`, read as a
two's-complement 16-bit number, equals `-v`. -/
theorem m64_sub_imm_is_add_negated (c : M64.Core) (RG : Triplet) (IS : Imm)
    (hT : c.TIxx < 32) :
    (M64.subzx_ri c RG IS =
      c.AUW EMPTY (some (VAL IS)) (some c.TIxx) none none none (some (c.G1 IS)) ++
      [c.MIM (REG RG) (REG RG) 0x00 (c.T1 IS) none |||
        (if c.TP1 IS = 0 then 0x64000000 ||| (0xFFFF &&& NEG (VAL IS))
         else 0x0000002F ||| c.TIxx <<< 16)]) ∧
    (M64.subzz_ri c RG IS =
      c.AUW EMPTY (some (VAL IS)) (some c.TIxx) none none none (some (c.G1 IS)) ++
      [c.MIM (REG RG) (REG RG) 0x00 (c.T1 IS) none |||
        (if c.TP1 IS = 0 then 0x64000000 ||| (0xFFFF &&& NEG (VAL IS))
         else 0x0000002F ||| c.TIxx <<< 16),
       0x00000025 ||| c.MRM c.TLxx (REG RG) c.TZxx]) ∧
    (∀ v : Int, -32767 ≤ v → v ≤ 32768 → signed16 (0xFFFF &&& NEG (word32 v)) = -v) := by
  have ha : 0x64000000 ||| (0xFFFF &&& NEG (VAL IS)) < 2 ^ 32 :=
    Nat.or_lt_two_pow (by decide)
      (lt_of_le_of_lt Nat.and_le_left (by decide))
  have hb : 0x0000002F ||| c.TIxx <<< 16 < 2 ^ 32 :=
    Nat.or_lt_two_pow (by decide) (by rw [Nat.shiftLeft_eq]; omega)
  have word : ∀ m t a b : Nat, a < 2 ^ 32 → b < 2 ^ 32 →
      0x00000000 ||| m ||| (M (t == 0) &&& a) ||| (M (t != 0) &&& b) =
        m ||| (if t = 0 then a else b) := by
    intro m t a b ha hb
    have e1 : (t == 0) = decide (t = 0) := rfl
    have e2 : (t != 0) = !decide (t = 0) := rfl
    rw [Nat.zero_or, Nat.lor_assoc, e1, e2, M_select (t = 0) a b ha hb]
  refine ⟨?_, ?_, neg_field_signed⟩
  · simp only [M64.subzx_ri, EMITW]
    rw [word _ _ _ _ ha hb]
  · simp only [M64.subzz_ri, EMITW, List.append_assoc, List.cons_append, List.nil_append]
    rw [word _ _ _ _ ha hb]

/-- C28 on the concrete MIPS core: `TIxx` is a register index, and subtracting
the immediate 5 from register 4 emits `daddiu` with the field `0xFFFB`. -/
theorem m64_sub_imm_is_add_negated_witness :
    M64.sampleCore.TIxx < 32 ∧
    M64.subzx_ri M64.sampleCore ⟨4, 0, []⟩ ⟨5, 0, 0⟩ = [0x6484FFFB] ∧
    signed16 0xFFFB = -5 :=
  ⟨by decide,
   ((m64_sub_imm_is_add_negated M64.sampleCore ⟨4, 0, []⟩ ⟨5, 0, 0⟩ (by decide)).1).trans
     (by decide),
   by decide⟩

/-! ## AArch64/SVE: shifts by immediate -/

/-- C29: SVE left shift by immediate (a true condition being the all-ones
mask).  For all registers `D`, `S` and every field packer `MXM`,
`shlmx3ri(D, S, k)` emits the single word
`0x04309C00 | MXM(D, S, 0x00) | (k << 16)` when `0 <= k <= 15` (the shift-left
opcode bit `0x800` set, the 4-bit amount field equal to `k`), and the word
`0x04309400 | MXM(D, S, 0x00) | ((k & 0x0F) << 16)` when `k >= 16` (bit `0x800`
clear). -/
theorem sve_shlmx3ri_words (c : SVE.Core) (XD XS : Triplet) (k t1 c1 : Nat) :
    (k ≤ 15 → SVE.shlmx3ri c XD XS ⟨k, t1, c1⟩ =
      [0x04309C00 ||| c.MXM (REG XD) (REG XS) 0x00 ||| k <<< 16]) ∧
    (k ≤ 15 → 0x0F &&& k = k) ∧
    (16 ≤ k → SVE.shlmx3ri c XD XS ⟨k, t1, c1⟩ =
      [0x04309400 ||| c.MXM (REG XD) (REG XS) 0x00 ||| (0x0F &&& k) <<< 16]) ∧
    (0x04309C00 : Nat) = 0x04309400 ||| 0x800 ∧ (0x04309400 : Nat) &&& 0x800 = 0 := by
  refine ⟨fun h => SVE.shlmx3ri_lt c XD XS k t1 c1 (by omega), ?_,
    fun h => SVE.shlmx3ri_ge c XD XS k t1 c1 h, by decide, by decide⟩
  intro h
  have e : (0x0F : Nat) = 2 ^ 4 - 1 := by decide
  rw [Nat.land_comm, e, Nat.and_pow_two_sub_one_eq_mod]
  omega

/-- The amount field of a right shift by `k` between 1 and 15 holds
`16 - k`. -/
theorem land_fifteen_neg (k : Nat) (h1 : 1 ≤ k) (h2 : k ≤ 15) : 0x0F &&& NEG k = 16 - k := by
  interval_cases k <;> decide

/-- C30: SVE right shift by immediate.  For all registers `D`, `S`, every field
packer `MXM` and every `k` with `1 <= k <= 15`, `shrmx3ri(D, S, k)` emits the
single word `0x04309400 | MXM(D, S, 0x00) | ((16 - k) << 16)` and
`shrmn3ri(D, S, k)` emits `0x04309000 | MXM(D, S, 0x00) | ((16 - k) << 16)`:
the amount field holds `16 - k = (0x0F & -k)` and the shift-left bits `0x800` /
`0xC00` are not set. -/
theorem sve_shr_imm_words (c : SVE.Core) (XD XS : Triplet) (k t1 c1 : Nat)
    (h1 : 1 ≤ k) (h2 : k ≤ 15) :
    SVE.shrmx3ri c XD XS ⟨k, t1, c1⟩ =
      [0x04309400 ||| c.MXM (REG XD) (REG XS) 0x00 ||| (16 - k) <<< 16] ∧
    SVE.shrmn3ri c XD XS ⟨k, t1, c1⟩ =
      [0x04309000 ||| c.MXM (REG XD) (REG XS) 0x00 ||| (16 - k) <<< 16] ∧
    0x0F &&& NEG k = 16 - k ∧
    (0x04309400 : Nat) &&& 0x800 = 0 ∧ (0x04309000 : Nat) &&& 0xC00 = 0 := by
  have hk : k ≠ 0 := by omega
  have e1 : (k == 0) = false := by simp [hk]
  have e2 : (k != 0) = true := by simp [hk]
  refine ⟨?_, ?_, land_fifteen_neg k h1 h2, by decide, by decide⟩
  · simp only [SVE.shrmx3ri, EMITW, VAL, e1, e2, M_false_land, Nat.and_zero, Nat.or_zero,
      land_fifteen_neg k h1 h2]
  · simp only [SVE.shrmn3ri, EMITW, VAL, e1, e2, M_false_land, Nat.and_zero, Nat.or_zero,
      land_fifteen_neg k h1 h2]

/-- C30 on the concrete SVE core: a right shift of register 2 into register 1
by 3 emits one word with the amount field 13. -/
theorem sve_shr_imm_words_witness :
    (1 ≤ 3 ∧ 3 ≤ 15) ∧
    SVE.shrmx3ri SVE.sampleCore ⟨1, 0, []⟩ ⟨2, 0, []⟩ ⟨3, 0, 0⟩ = [0x043D9441] ∧
    SVE.shrmn3ri SVE.sampleCore ⟨1, 0, []⟩ ⟨2, 0, []⟩ ⟨3, 0, 0⟩ = [0x043D9041] :=
  ⟨by decide,
   ((sve_shr_imm_words SVE.sampleCore ⟨1, 0, []⟩ ⟨2, 0, []⟩ 3 0 0 (by decide)
     (by decide)).1).trans (by decide),
   by decide⟩

/-! ## AArch64/SVE: rounding with the mode as an argument -/

/-- C31: consistency of the mode-parameterised rounding encoder on SVE.  For
all registers `D`, `S`, every field packer `MXM` and every numeric mode value
`m` in `0..3` of `RT_SIMD_MODE_<mode>`, `rnrms_rr(D, S, mode)` emits the word
`(0x6540A000 + (m << 16)) | MXM(D, S, 0x00)`; the values 0, 1, 2, 3 give the
words of `rnnms_rr(D, S)`, `rnpms_rr(D, S)`, `rnmms_rr(D, S)` and
`rnzms_rr(D, S)` respectively; `cvrms_rr(D, S, mode)` is that word followed by
`cvzms_rr(D, D)`. -/
theorem sve_rnrms_mode_consistency (c : SVE.Core) (XD XS : Triplet) (m : Nat)
    (hm : m ≤ 3) :
    SVE.rnrms_rr c XD XS m = [(0x6540A000 + (m <<< 16)) ||| c.MXM (REG XD) (REG XS) 0x00] ∧
    SVE.rnrms_rr c XD XS 0 = SVE.rnnms_rr c XD XS ∧
    SVE.rnrms_rr c XD XS 1 = SVE.rnpms_rr c XD XS ∧
    SVE.rnrms_rr c XD XS 2 = SVE.rnmms_rr c XD XS ∧
    SVE.rnrms_rr c XD XS 3 = SVE.rnzms_rr c XD XS ∧
    SVE.cvrms_rr c XD XS m =
      [(0x6540A000 + (m <<< 16)) ||| c.MXM (REG XD) (REG XS) 0x00] ++
      SVE.cvzms_rr c XD XD := by
  have e : 0x6540A000 ||| m <<< 16 = 0x6540A000 + (m <<< 16) := by
    interval_cases m <;> decide
  have w : ∀ k : Nat, SVE.rnrms_rr c XD XS k =
      [(0x6540A000 ||| k <<< 16) ||| c.MXM (REG XD) (REG XS) 0x00] := by
    intro k
    simp only [SVE.rnrms_rr, EMITW]
    rw [lor_opcode_bit]
  have hw : SVE.rnrms_rr c XD XS m =
      [(0x6540A000 + (m <<< 16)) ||| c.MXM (REG XD) (REG XS) 0x00] := by
    rw [w m, e]
  refine ⟨hw, ?_, ?_, ?_, ?_, ?_⟩
  · rw [w 0]; rfl
  · rw [w 1]; rfl
  · rw [w 2]; rfl
  · rw [w 3]; rfl
  · simp only [SVE.cvrms_rr, hw]

/-- C31 on the concrete SVE core: mode value 2 with registers 1 and 2 gives the
word of `rnmms_rr`. -/
theorem sve_rnrms_mode_consistency_witness :
    (2 : Nat) ≤ 3 ∧
    SVE.rnrms_rr SVE.sampleCore ⟨1, 0, []⟩ ⟨2, 0, []⟩ 2 = [0x6542A041] ∧
    SVE.rnmms_rr SVE.sampleCore ⟨1, 0, []⟩ ⟨2, 0, []⟩ = [0x6542A041] :=
  ⟨by decide,
   ((sve_rnrms_mode_consistency SVE.sampleCore ⟨1, 0, []⟩ ⟨2, 0, []⟩ 2 (by decide)).1).trans
     (by decide),
   by decide⟩

/-! ## POWER: immediate shifts through the variable-shift encoders -/

/-- C32: POWER immediate shifts reduce to the variable-shift encoders.  For all
registers `D`, `S` and every immediate `k`, `shlgx3ri(D, S, k)` emits the splat
word `0x1000034C | MXM(TmmM, 0x0F & k, 0x00)` followed by exactly the word of
`svlgx3rr(D, S, TmmM)`; `shrgx3ri` is the same splat word followed by
`svrgx3rr(D, S, TmmM)` and `shrgn3ri` the same splat word followed by
`svrgn3rr(D, S, TmmM)`, where `TmmM` stands for any operand triplet whose
register index is `TmmM`. -/
theorem power_shift_imm_via_variable_shift (c : Power.Core) (XD XS : Triplet) (IT : Imm)
    (md : Nat) (sb : List Nat) :
    (Power.shlgx3ri c XD XS IT =
      [0x1000034C ||| c.MXM c.TmmM (0x0F &&& VAL IT) 0x00] ++
      Power.svlgx3rr c XD XS ⟨c.TmmM, md, sb⟩) ∧
    (Power.shrgx3ri c XD XS IT =
      [0x1000034C ||| c.MXM c.TmmM (0x0F &&& VAL IT) 0x00] ++
      Power.svrgx3rr c XD XS ⟨c.TmmM, md, sb⟩) ∧
    (Power.shrgn3ri c XD XS IT =
      [0x1000034C ||| c.MXM c.TmmM (0x0F &&& VAL IT) 0x00] ++
      Power.svrgn3rr c XD XS ⟨c.TmmM, md, sb⟩) ∧
    (Power.svlgx3rr c XD XS ⟨c.TmmM, md, sb⟩).length = 1 ∧
    (Power.svrgx3rr c XD XS ⟨c.TmmM, md, sb⟩).length = 1 ∧
    (Power.svrgn3rr c XD XS ⟨c.TmmM, md, sb⟩).length = 1 :=
  ⟨rfl, rfl, rfl, rfl, rfl, rfl⟩

/-! ## MIPS64: memory-destination flag-setting forms -/

/-- C33: on MIPS64 every memory-destination flag-setting form emits word for
word the same sequence as its non-flag-setting counterpart: `andzz_mi` as
`andzx_mi` and `andzz_st` as `andzx_st` for all operands, and likewise for
`ann`, `orr`, `orn`, `xor`, `add`, `sub` (`_mi`, `_st`), `neg` (`_mx`) and
`shl`, `shr` (`_mx`, `_mi`, `_st`).  No word with destination `TLxx` is
appended: the sequence ends with the store of the scratch register `TMxx`,
whereas the register form `andzz_rr` is `andzx_rr` followed by the word
`0x00000025 | MRM(TLxx, REG(RG), TZxx)`. -/
theorem m64_memory_flag_forms (c : M64.Core) (RS MG : Triplet) (DP IS : Imm) :
    (M64.andzz_mi c MG DP IS = M64.andzx_mi c MG DP IS) ∧
    (M64.andzz_st c RS MG DP = M64.andzx_st c RS MG DP) ∧
    (M64.annzz_mi c MG DP IS = M64.annzx_mi c MG DP IS) ∧
    (M64.annzz_st c RS MG DP = M64.annzx_st c RS MG DP) ∧
    (M64.orrzz_mi c MG DP IS = M64.orrzx_mi c MG DP IS) ∧
    (M64.orrzz_st c RS MG DP = M64.orrzx_st c RS MG DP) ∧
    (M64.ornzz_mi c MG DP IS = M64.ornzx_mi c MG DP IS) ∧
    (M64.ornzz_st c RS MG DP = M64.ornzx_st c RS MG DP) ∧
    (M64.xorzz_mi c MG DP IS = M64.xorzx_mi c MG DP IS) ∧
    (M64.xorzz_st c RS MG DP = M64.xorzx_st c RS MG DP) ∧
    (M64.addzz_mi c MG DP IS = M64.addzx_mi c MG DP IS) ∧
    (M64.addzz_st c RS MG DP = M64.addzx_st c RS MG DP) ∧
    (M64.subzz_mi c MG DP IS = M64.subzx_mi c MG DP IS) ∧
    (M64.subzz_st c RS MG DP = M64.subzx_st c RS MG DP) ∧
    (M64.negzz_mx c MG DP = M64.negzx_mx c MG DP) ∧
    (M64.shlzz_mx c MG DP = M64.shlzx_mx c MG DP) ∧
    (M64.shlzz_mi c MG DP IS = M64.shlzx_mi c MG DP IS) ∧
    (M64.shlzz_st c RS MG DP = M64.shlzx_st c RS MG DP) ∧
    (M64.shrzz_mx c MG DP = M64.shrzx_mx c MG DP) ∧
    (M64.shrzz_mi c MG DP IS = M64.shrzx_mi c MG DP IS) ∧
    (M64.shrzz_st c RS MG DP = M64.shrzx_st c RS MG DP) ∧
    (M64.andzz_st c RS MG DP =
      c.AUW (SIB MG) none none (some (MOD MG)) (some (VAL DP)) (some (c.C1 DP)) none ++
      [0xDC000000 ||| c.MDM c.TMxx (MOD MG) (VAL DP) (c.B1 DP) (c.P1 DP),
       0x00000024 ||| c.MRM c.TMxx c.TMxx (REG RS),
       0xFC000000 ||| c.MDM c.TMxx (MOD MG) (VAL DP) (c.B1 DP) (c.P1 DP)]) ∧
    (M64.andzz_rr c MG RS =
      M64.andzx_rr c MG RS ++ [0x00000025 ||| c.MRM c.TLxx (REG MG) c.TZxx]) := by
  refine ⟨rfl, rfl, rfl, rfl, rfl, rfl, rfl, rfl, rfl, rfl, rfl, rfl, rfl, rfl, rfl, rfl, rfl, rfl, rfl, rfl, rfl,
    ?_, rfl⟩
  simp only [M64.andzz_st, EMITW, List.append_assoc, List.cons_append, List.nil_append]

end UniSIMD
